import Mathlib

/-!
# EdgeAPI: configuration propagation and change notification

A shallow embedding of the server DAO (`internal/db/models/server_dao.go`), the message
DAO (`internal/db/models/message_dao.go`), the cluster DAO
(`internal/db/models/node_cluster_dao.go`), the IP address DAO
(`internal/db/models/node_ip_address_dao.go`) and of the service methods
`ServerService.UpdateServerNames` and `HTTPAccessLogService.ListHTTPAccessLogs` of the
EdgeAPI control plane.

Conventions of the embedding:

* the relational store is an explicit `Store` value holding one list of rows per table;
  a DAO method `f(tx, args) (v, error)` becomes a function
  `f : Store → args → Except Err v × Store` returning the outcome together with the
  store it leaves behind (writes made before an error are kept, as in the source,
  where rolling back is the business of whoever owns the transaction);
* the storage engine itself never fails: a point lookup finds the first row with the
  given primary key, an update rewrites every row with that key;
* Go `[]byte` and JSON/blob columns are `Bytes`; Go `string` is `String`;
* collaborators that live outside the repository sources (crypto/md5, encoding/json,
  the typed config structs of EdgeCommon, the SSL-policy / web / reverse-proxy / DNS-domain
  DAOs, the two small helpers `JSONBytes` and `IsNotNull`) are fields of `Env`.
-/

set_option autoImplicit false

namespace EdgeAPI

/-! ## Bytes and hex formatting -/

/-- Go `[]byte`. -/
abbrev Bytes := List UInt8

/-- Go `[]byte(s)` for a string `s`: its UTF-8 encoding. -/
def strBytes (s : String) : Bytes := s.toUTF8.data.toList

/-- One lowercase hexadecimal digit (`0`..`9`, `a`..`f`) for `n < 16`. -/
def hexDigit (n : Nat) : Char :=
  if n < 10 then Char.ofNat (48 + n) else Char.ofNat (87 + n)

/-- The two hex digits `fmt.Sprintf("%x", ...)` prints for one byte. -/
def hexByte (b : UInt8) : List Char :=
  [hexDigit (b.toNat / 16), hexDigit (b.toNat % 16)]

/-- The list of digits `fmt.Sprintf("%x", h)` prints for a byte slice `h`. -/
def hexChars : Bytes → List Char
  | [] => []
  | b :: bs => hexByte b ++ hexChars bs

/-- Go `fmt.Sprintf("%x", h)` for a byte slice `h`: lowercase hex, two digits per byte. -/
def hexLower (h : Bytes) : String := String.mk (hexChars h)

/-! ## Errors -/

/-- Go `error` values that the embedded code can return. -/
inductive Err where
  /-- The sentinel `models.ErrNotFound`. -/
  | notFound
  /-- An error built with `errors.New(text)`. -/
  | msg (text : String)
  /-- An error handed back by a collaborator outside the embedded sources. -/
  | ext (code : Nat)
  deriving DecidableEq, Repr

/-! ## Typed configs (EdgeCommon `serverconfigs`)

Only the fields the composer inspects are spelled out; everything else a config carries
is kept as the `payload` the decoder produced. -/

structure ServerNameConfig where
  payload : Bytes
  deriving DecidableEq, Repr

structure SSLPolicyRef where
  isOn : Bool
  sslPolicyId : Int
  deriving DecidableEq, Repr

structure SSLPolicy where
  payload : Bytes
  deriving DecidableEq, Repr

structure HTTPProtocolConfig where
  payload : Bytes
  deriving DecidableEq, Repr

structure HTTPSProtocolConfig where
  payload : Bytes
  sslPolicyRef : Option SSLPolicyRef
  sslPolicy : Option SSLPolicy
  deriving DecidableEq, Repr

structure TCPProtocolConfig where
  payload : Bytes
  deriving DecidableEq, Repr

structure TLSProtocolConfig where
  payload : Bytes
  sslPolicyRef : Option SSLPolicyRef
  sslPolicy : Option SSLPolicy
  deriving DecidableEq, Repr

structure UnixProtocolConfig where
  payload : Bytes
  deriving DecidableEq, Repr

structure UDPProtocolConfig where
  payload : Bytes
  deriving DecidableEq, Repr

structure HTTPWebConfig where
  payload : Bytes
  deriving DecidableEq, Repr

structure ReverseProxyRef where
  isOn : Bool
  reverseProxyId : Int
  deriving DecidableEq, Repr

structure ReverseProxyConfig where
  payload : Bytes
  deriving DecidableEq, Repr

/-- The composed config `serverconfigs.ServerConfig`; a `nil` pointer or slice is `none`
(`[]` for `AliasServerNames`, which is only ever appended to). -/
structure ServerConfig where
  id : Int
  type : String
  isOn : Bool
  name : String
  description : String
  serverNames : Option (List ServerNameConfig)
  aliasServerNames : List String
  http : Option HTTPProtocolConfig
  https : Option HTTPSProtocolConfig
  tcp : Option TCPProtocolConfig
  tls : Option TLSProtocolConfig
  unix : Option UnixProtocolConfig
  udp : Option UDPProtocolConfig
  web : Option HTTPWebConfig
  reverseProxyRef : Option ReverseProxyRef
  reverseProxy : Option ReverseProxyConfig
  deriving DecidableEq, Repr

/-! ## Rows -/

/-- A row of `edgeServers` (the columns the embedded code reads or writes). -/
structure Server where
  id : Int
  adminId : Int
  userId : Int
  isOn : Bool
  state : Int
  type : String
  name : String
  description : String
  serverNames : Bytes
  isAuditing : Bool
  auditingServerNames : Bytes
  auditingResult : Bytes
  http : Bytes
  https : Bytes
  tcp : Bytes
  tls : Bytes
  unix : Bytes
  udp : Bytes
  webId : Int
  reverseProxy : Bytes
  clusterId : Int
  includeNodes : Bytes
  excludeNodes : Bytes
  groupIds : Bytes
  dnsName : String
  config : Bytes
  configMd5 : String
  version : Int
  deriving DecidableEq, Repr

/-- A row of `edgeNodeClusters` (the columns `FindClusterDNSInfo` selects, and the state). -/
structure NodeCluster where
  id : Int
  name : String
  dnsName : String
  dnsDomainId : Int
  dns : Bytes
  state : Int
  grantId : Int
  installDir : String
  cachePolicyId : Int
  httpFirewallPolicyId : Int
  deriving DecidableEq, Repr

/-- A row of `edgeDNSDomains` as the composer uses it. -/
structure DNSDomain where
  id : Int
  name : String
  deriving DecidableEq, Repr

/-- Task types of the node task queue. -/
inductive NodeTaskType where
  | configChanged
  | ipItemChanged
  deriving DecidableEq, Repr

/-- A pending task of the node task queue, scoped to a cluster (`nodeId = 0`: every node). -/
structure NodeTask where
  clusterId : Int
  nodeId : Int
  taskType : NodeTaskType
  deriving DecidableEq, Repr

/-- Task types of the DNS task queue. -/
inductive DNSTaskType where
  | clusterChange
  | serverChange
  | nodeChange
  deriving DecidableEq, Repr

/-- A pending task of the DNS task queue. -/
structure DNSTask where
  clusterId : Int
  serverId : Int
  nodeId : Int
  taskType : DNSTaskType
  deriving DecidableEq, Repr

/-- A row of `edgeMessages`. -/
structure Message where
  id : Int
  adminId : Int
  userId : Int
  clusterId : Int
  nodeId : Int
  type : String
  level : String
  subject : String
  body : String
  params : Bytes
  isRead : Bool
  state : Int
  createdAt : Int
  day : String
  hash : String
  deriving DecidableEq, Repr

/-- A row of `edgeMessageReceivers`. -/
structure MessageReceiver where
  id : Int
  clusterId : Int
  nodeId : Int
  serverId : Int
  type : String
  params : Bytes
  recipientId : Int
  recipientGroupId : Int
  state : Int
  deriving DecidableEq, Repr

/-- A row of `edgeMessageTasks` (`message_task_model.go`). -/
structure MessageTask where
  id : Int
  recipientId : Int
  instanceId : Int
  user : String
  subject : String
  body : String
  createdAt : Int
  status : Int
  sentAt : Int
  state : Int
  result : String
  isPrimary : Bool
  deriving DecidableEq, Repr

/-- A row of `edgeNodeIPAddresses` (the columns the embedded code writes). -/
structure NodeIPAddress where
  id : Int
  nodeId : Int
  role : String
  name : String
  ip : String
  canAccess : Bool
  state : Int
  deriving DecidableEq, Repr

/-- The scope `MessageTaskTarget` of a receiver lookup. -/
structure MessageTaskTarget where
  clusterId : Int
  nodeId : Int
  serverId : Int
  deriving DecidableEq, Repr

/-- The tables the embedded code touches. -/
structure Store where
  servers : List Server
  clusters : List NodeCluster
  /-- The value stored under the setting code `SettingCodeServerGlobalConfig`. -/
  serverGlobalConfig : Bytes
  nodeTasks : List NodeTask
  dnsTasks : List DNSTask
  messages : List Message
  receivers : List MessageReceiver
  messageTasks : List MessageTask
  addresses : List NodeIPAddress
  deriving DecidableEq, Repr

deriving instance DecidableEq for Except

/-- Outcome of a DAO method: the returned value or error, and the store left behind. -/
abbrev Res (α : Type) := Except Err α × Store

/-! ## Collaborators outside the embedded sources -/

/-- The part of `serverconfigs.GlobalConfig` the services read: `HTTPAll.DomainAuditingIsOn`. -/
structure GlobalConfig where
  domainAuditingIsOn : Bool
  deriving DecidableEq, Repr

/-- The message `pb.ServerNameAuditingResult` of an admin decision. -/
structure ServerNameAuditingResult where
  isOk : Bool
  reason : String
  deriving DecidableEq, Repr

/-- Functions the embedded code calls but whose source is not part of it. -/
structure Env where
  /-- The digest `crypto/md5` computes for the bytes written to it. -/
  md5Sum : Bytes → Bytes
  /-- The helper `JSONBytes` applied to a blob before it is stored. -/
  JSONBytes : Bytes → Bytes
  /-- The helper `IsNotNull` deciding whether a stored blob holds a value. -/
  IsNotNull : Bytes → Bool
  /-- The function `json.Marshal` on a group id list. -/
  marshalGroupIds : List Int → Except Err Bytes
  /-- The function `json.Marshal` on a composed server config. -/
  marshalServerConfig : ServerConfig → Except Err Bytes
  unmarshalServerNames : Bytes → Except Err (List ServerNameConfig)
  unmarshalHTTP : Bytes → Except Err HTTPProtocolConfig
  unmarshalHTTPS : Bytes → Except Err HTTPSProtocolConfig
  unmarshalTCP : Bytes → Except Err TCPProtocolConfig
  unmarshalTLS : Bytes → Except Err TLSProtocolConfig
  unmarshalUnix : Bytes → Except Err UnixProtocolConfig
  unmarshalUDP : Bytes → Except Err UDPProtocolConfig
  unmarshalReverseProxyRef : Bytes → Except Err ReverseProxyRef
  /-- The lookup `dns.SharedDNSDomainDAO.FindEnabledDNSDomain`. -/
  FindEnabledDNSDomain : Int → Except Err (Option DNSDomain)
  /-- The composer `SharedSSLPolicyDAO.ComposePolicyConfig`. -/
  ComposePolicyConfig : Int → Except Err (Option SSLPolicy)
  /-- The composer `SharedHTTPWebDAO.ComposeWebConfig`. -/
  ComposeWebConfig : Int → Except Err (Option HTTPWebConfig)
  /-- The composer `SharedReverseProxyDAO.ComposeReverseProxyConfig`. -/
  ComposeReverseProxyConfig : Int → Except Err (Option ReverseProxyConfig)
  /-- The day bucket `timeutil.Format("Ymd")` of a Unix time. -/
  formatYmd : Int → String
  /-- The reader `SharedSysSettingDAO.ReadGlobalConfig`. -/
  ReadGlobalConfig : Store → Except Err (Option GlobalConfig)
  /-- The function `json.Marshal` on the map with the keys `isOk`, `reason`, `createdAt`. -/
  marshalAuditingResult : Bool → String → Int → Except Err Bytes
  /-- The lookup `SharedUserDAO.FindUserClusterId`: the cluster id stored for a user. -/
  FindUserClusterId : Store → Int → Except Err Int
  /-- The error `BaseService.PermissionError()`. -/
  PermissionError : Err

/-! ## Storage primitives -/

def ServerStateEnabled : Int := 1

def ServerStateDisabled : Int := 0

/-- The query `Query(tx).Pk(serverId).Find()`: the row with that primary key, if any. -/
def findServer (s : Store) (serverId : Int) : Option Server :=
  s.servers.find? (fun r => decide (r.id = serverId))

/-- An update `Query(tx).Pk(serverId).Set(...).Update()`, or `Save(tx, op)` with `op.Id`
set: the columns named by `f` are rewritten on the rows with that primary key. -/
def updateServer (s : Store) (serverId : Int) (f : Server → Server) : Store :=
  { s with servers := s.servers.map (fun r => if r.id = serverId then f r else r) }

/-- Modelled from the spec: `SysSettingDAO.ReadSetting` for the well-known key of the
server global config, whose source is not part of the embedded files; the Global Settings
contract exposes the raw bytes stored under that key. -/
def ReadSetting (s : Store) : Except Err Bytes :=
  .ok s.serverGlobalConfig

/-! ## `ServerDAO.UpdateServerConfig` -/

/-- The content hash of `UpdateServerConfig`: the hex MD5 of the config bytes followed by
the global config bytes (`m.Write(configJSON); m.Write(globalConfig)`). -/
def newConfigMd5 (env : Env) (configJSON globalConfig : Bytes) : String :=
  hexLower (env.md5Sum (configJSON ++ globalConfig))

/-- The query `Query(tx).Pk(serverId).Result("configMd5").FindStringCol("")`. -/
def findConfigMd5 (s : Store) (serverId : Int) : String :=
  match findServer s serverId with
  | some r => r.configMd5
  | none => ""

/-- The operator `UpdateServerConfig` saves once the hash differs: the config blob, the
version bump `version+1`, and the new hash when `updateMd5` is set. -/
def configOp (env : Env) (configJSON : Bytes) (newMd5 : String) (updateMd5 : Bool)
    (r : Server) : Server :=
  { r with
    config := env.JSONBytes configJSON
    version := r.version + 1
    configMd5 := if updateMd5 then newMd5 else r.configMd5 }

/-- The method `ServerDAO.UpdateServerConfig`. -/
def UpdateServerConfig (env : Env) (s : Store) (serverId : Int) (configJSON : Bytes)
    (updateMd5 : Bool) : Res Bool :=
  if serverId ≤ 0 then
    (.error (.msg "serverId should not be smaller than 0"), s)
  else
    let oldConfigMd5 := findConfigMd5 s serverId
    match ReadSetting s with
    | .error e => (.error e, s)
    | .ok globalConfig =>
      let newMd5 := newConfigMd5 env configJSON globalConfig
      if oldConfigMd5 = newMd5 then
        (.ok false, s)
      else
        (.ok true, updateServer s serverId (configOp env configJSON newMd5 updateMd5))

/-! ## `ServerDAO.ComposeServerConfig` -/

/-- The literal `null` of a JSON column. -/
def nullJSON : Bytes := strBytes "null"

/-- The method `ServerDAO.FindEnabledServer`: `Pk(serverId).Attr("state", enabled).Find()`. -/
def FindEnabledServer (s : Store) (serverId : Int) : Option Server :=
  s.servers.find? (fun r => decide (r.id = serverId ∧ r.state = ServerStateEnabled))

/-- The method `NodeClusterDAO.FindClusterDNSInfo`: the cluster row by primary key,
whatever its state. -/
def FindClusterDNSInfo (s : Store) (clusterId : Int) : Option NodeCluster :=
  s.clusters.find? (fun c => decide (c.id = clusterId))

/-- The guard `len(blob) > 0 && blob != "null"` the composer puts before each decoder. -/
def hasValue (blob : Bytes) : Bool :=
  decide (0 < blob.length ∧ blob ≠ nullJSON)

/-- The `ServerNames` block of `ComposeServerConfig`. -/
def composeServerNames (env : Env) (server : Server) :
    Except Err (Option (List ServerNameConfig)) :=
  if hasValue server.serverNames then
    match env.unmarshalServerNames server.serverNames with
    | .error e => .error e
    | .ok serverNames => .ok (some serverNames)
  else .ok none

/-- The `CNAME` block of `ComposeServerConfig`: the alias names of the server. -/
def composeAliasServerNames (env : Env) (s : Store) (server : Server) :
    Except Err (List String) :=
  if 0 < server.clusterId ∧ 0 < server.dnsName.length then
    match FindClusterDNSInfo s server.clusterId with
    | none => .ok []
    | some clusterDNS =>
      if 0 < clusterDNS.dnsDomainId then
        match env.FindEnabledDNSDomain clusterDNS.dnsDomainId with
        | .error e => .error e
        | .ok none => .ok []
        | .ok (some domain) => .ok [server.dnsName ++ "." ++ domain.name]
      else .ok []
  else .ok []

/-- The `HTTP` block of `ComposeServerConfig`. -/
def composeHTTP (env : Env) (server : Server) : Except Err (Option HTTPProtocolConfig) :=
  if hasValue server.http then
    match env.unmarshalHTTP server.http with
    | .error e => .error e
    | .ok httpConfig => .ok (some httpConfig)
  else .ok none

/-- The `HTTPS` block of `ComposeServerConfig`: decode, then resolve the SSL policy when
the reference is present and its id is positive. -/
def composeHTTPS (env : Env) (server : Server) : Except Err (Option HTTPSProtocolConfig) :=
  if hasValue server.https then
    match env.unmarshalHTTPS server.https with
    | .error e => .error e
    | .ok httpsConfig =>
      match httpsConfig.sslPolicyRef with
      | none => .ok (some httpsConfig)
      | some ref =>
        if 0 < ref.sslPolicyId then
          match env.ComposePolicyConfig ref.sslPolicyId with
          | .error e => .error e
          | .ok none => .ok (some httpsConfig)
          | .ok (some sslPolicyConfig) =>
            .ok (some { httpsConfig with sslPolicy := some sslPolicyConfig })
        else .ok (some httpsConfig)
  else .ok none

/-- The `TCP` block of `ComposeServerConfig`. -/
def composeTCP (env : Env) (server : Server) : Except Err (Option TCPProtocolConfig) :=
  if hasValue server.tcp then
    match env.unmarshalTCP server.tcp with
    | .error e => .error e
    | .ok tcpConfig => .ok (some tcpConfig)
  else .ok none

/-- The `TLS` block of `ComposeServerConfig`: decode, then resolve the SSL policy when
the reference is present. -/
def composeTLS (env : Env) (server : Server) : Except Err (Option TLSProtocolConfig) :=
  if hasValue server.tls then
    match env.unmarshalTLS server.tls with
    | .error e => .error e
    | .ok tlsConfig =>
      match tlsConfig.sslPolicyRef with
      | none => .ok (some tlsConfig)
      | some ref =>
        match env.ComposePolicyConfig ref.sslPolicyId with
        | .error e => .error e
        | .ok none => .ok (some tlsConfig)
        | .ok (some sslPolicyConfig) =>
          .ok (some { tlsConfig with sslPolicy := some sslPolicyConfig })
  else .ok none

/-- The `Unix` block of `ComposeServerConfig`. -/
def composeUnix (env : Env) (server : Server) : Except Err (Option UnixProtocolConfig) :=
  if hasValue server.unix then
    match env.unmarshalUnix server.unix with
    | .error e => .error e
    | .ok unixConfig => .ok (some unixConfig)
  else .ok none

/-- The `UDP` block of `ComposeServerConfig`. -/
def composeUDP (env : Env) (server : Server) : Except Err (Option UDPProtocolConfig) :=
  if hasValue server.udp then
    match env.unmarshalUDP server.udp with
    | .error e => .error e
    | .ok udpConfig => .ok (some udpConfig)
  else .ok none

/-- The `Web` block of `ComposeServerConfig`. -/
def composeWeb (env : Env) (server : Server) : Except Err (Option HTTPWebConfig) :=
  if 0 < server.webId then env.ComposeWebConfig server.webId else .ok none

/-- The `ReverseProxy` block of `ComposeServerConfig`: the decoded reference and the
composed reverse proxy. -/
def composeReverseProxy (env : Env) (server : Server) :
    Except Err (Option ReverseProxyRef × Option ReverseProxyConfig) :=
  if env.IsNotNull server.reverseProxy then
    match env.unmarshalReverseProxyRef server.reverseProxy with
    | .error e => .error e
    | .ok reverseProxyRef =>
      match env.ComposeReverseProxyConfig reverseProxyRef.reverseProxyId with
      | .error e => .error e
      | .ok reverseProxyConfig => .ok (some reverseProxyRef, reverseProxyConfig)
  else .ok (none, none)

/-- The part of `ComposeServerConfig` after the enabled row was found; the blocks run in
the order of the source and the first error ends the composition. -/
def composeFromRow (env : Env) (s : Store) (serverId : Int) (server : Server) :
    Except Err ServerConfig := do
  let serverNames ← composeServerNames env server
  let aliasServerNames ← composeAliasServerNames env s server
  let http ← composeHTTP env server
  let https ← composeHTTPS env server
  let tcp ← composeTCP env server
  let tls ← composeTLS env server
  let unix ← composeUnix env server
  let udp ← composeUDP env server
  let web ← composeWeb env server
  let rp ← composeReverseProxy env server
  pure {
    id := serverId
    type := server.type
    isOn := server.isOn
    name := server.name
    description := server.description
    serverNames := serverNames
    aliasServerNames := aliasServerNames
    http := http
    https := https
    tcp := tcp
    tls := tls
    unix := unix
    udp := udp
    web := web
    reverseProxyRef := rp.1
    reverseProxy := rp.2 }

/-- The method `ServerDAO.ComposeServerConfig`. -/
def ComposeServerConfig (env : Env) (s : Store) (serverId : Int) : Except Err ServerConfig :=
  match FindEnabledServer s serverId with
  | none => .error .notFound
  | some server => composeFromRow env s serverId server

/-- The method `ServerDAO.RenewServerConfig`. -/
def RenewServerConfig (env : Env) (s : Store) (serverId : Int) (updateMd5 : Bool) : Res Bool :=
  match ComposeServerConfig env s serverId with
  | .error e => (.error e, s)
  | .ok serverConfig =>
    match env.marshalServerConfig serverConfig with
    | .error e => (.error e, s)
    | .ok data => UpdateServerConfig env s serverId data updateMd5

/-! ## Task queues and notifications -/

/-- Modelled from the spec: `NodeTaskDAO.CreateClusterTask`, whose source is not part of
the embedded files; each call appends one record for the cluster and task type, with no
merging or de-duplication of task records. -/
def CreateClusterTask (s : Store) (clusterId : Int) (taskType : NodeTaskType) : Res Unit :=
  (.ok (), { s with nodeTasks := s.nodeTasks ++ [{ clusterId := clusterId, nodeId := 0,
                                                    taskType := taskType }] })

/-- Modelled from the spec: `dns.DNSTaskDAO.CreateServerTask`, whose source is not part of
the embedded files; it enqueues one DNS-convergence task scoped to the server. -/
def CreateServerTask (s : Store) (serverId : Int) (taskType : DNSTaskType) : Res Unit :=
  (.ok (), { s with dnsTasks := s.dnsTasks ++ [{ clusterId := 0, serverId := serverId,
                                                  nodeId := 0, taskType := taskType }] })

/-- The method `ServerDAO.FindServerClusterId`: `Result("clusterId").FindInt64Col(0)`. -/
def FindServerClusterId (s : Store) (serverId : Int) : Int :=
  match findServer s serverId with
  | some r => r.clusterId
  | none => 0

/-- The second half of `ServerDAO.NotifyUpdate` (the part under `// 创建任务`). -/
def notifyUpdateTask (s : Store) (serverId : Int) : Res Unit :=
  let clusterId := FindServerClusterId s serverId
  if clusterId = 0 then (.ok (), s)
  else CreateClusterTask s clusterId .configChanged

/-- The method `ServerDAO.NotifyUpdate`: the result of `RenewServerConfig` is dropped
(`_, err := ...`), and so is a not-found error. -/
def NotifyUpdate (env : Env) (s : Store) (serverId : Int) : Res Unit :=
  match RenewServerConfig env s serverId true with
  | (.error e, s1) =>
    if e ≠ Err.notFound then (.error e, s1) else notifyUpdateTask s1 serverId
  | (.ok _, s1) => notifyUpdateTask s1 serverId

/-- The method `ServerDAO.NotifyDNSUpdate`. -/
def NotifyDNSUpdate (s : Store) (serverId : Int) : Res Unit :=
  let clusterId := FindServerClusterId s serverId
  if clusterId ≤ 0 then (.ok (), s)
  else
    match FindClusterDNSInfo s clusterId with
    | none => (.ok (), s)
    | some dnsInfo =>
      if dnsInfo.dnsName.length = 0 ∨ dnsInfo.dnsDomainId ≤ 0 then (.ok (), s)
      else CreateServerTask s serverId .serverChange

/-- The method `ServerDAO.DisableServer`. -/
def DisableServer (env : Env) (s : Store) (serverId : Int) : Res Unit :=
  let s1 := updateServer s serverId (fun r => { r with state := ServerStateDisabled })
  match NotifyUpdate env s1 serverId with
  | (.error e, s2) => (.error e, s2)
  | (.ok _, s2) => NotifyDNSUpdate s2 serverId

/-! ## Server names and their auditing -/

/-- The method `ServerDAO.UpdateServerNames`. -/
def UpdateServerNames (env : Env) (s : Store) (serverId : Int) (serverNames : Bytes) :
    Res Unit :=
  if serverId ≤ 0 then
    (.error (.msg "serverId should not be smaller than 0"), s)
  else
    let names := if serverNames.length = 0 then strBytes "[]" else serverNames
    NotifyUpdate env (updateServer s serverId (fun r => { r with serverNames := names })) serverId

/-- The bytes of the literal the method `UpdateAuditingServerNames` stores as auditing
result: an object whose only member `isOk` is `true`. -/
def auditingResultOk : Bytes :=
  [123, 34, 105, 115, 79, 107, 34, 58, 116, 114, 117, 101, 125]

/-- The method `ServerDAO.UpdateAuditingServerNames`. -/
def UpdateAuditingServerNames (env : Env) (s : Store) (serverId : Int) (isAuditing : Bool)
    (auditingServerNamesJSON : Bytes) : Res Unit :=
  if serverId ≤ 0 then
    (.error (.msg "serverId should not be smaller than 0"), s)
  else
    let names :=
      if auditingServerNamesJSON.length = 0 then strBytes "[]" else auditingServerNamesJSON
    NotifyUpdate env
      (updateServer s serverId (fun r =>
        { r with
          isAuditing := isAuditing
          auditingServerNames := names
          auditingResult := auditingResultOk })) serverId

/-- The method `ServerDAO.UpdateServerAuditing`; `now` is the value of `time.Now().Unix()`.
With an approving result the operator sets `serverNames` to the SQL expression
`auditingServerNames`, the value that column has in the row being updated. -/
def UpdateServerAuditing (env : Env) (s : Store) (now : Int) (serverId : Int)
    (result : ServerNameAuditingResult) : Res Unit :=
  if serverId ≤ 0 then
    (.error (.msg "invalid serverId"), s)
  else
    match env.marshalAuditingResult result.isOk result.reason now with
    | .error e => (.error e, s)
    | .ok resultJSON =>
      let s1 := updateServer s serverId (fun r =>
        { r with
          isAuditing := false
          auditingResult := resultJSON
          serverNames := if result.isOk then r.auditingServerNames else r.serverNames })
      match NotifyUpdate env s1 serverId with
      | (.error e, s2) => (.error e, s2)
      | (.ok _, s2) => NotifyDNSUpdate s2 serverId

/-- The method `ServerService.UpdateServerNames`; `caller` is what the request validator
`ValidateAdminAndUser(ctx, 0, 0)` returns: the admin id and the user id of the caller, or
an error. -/
def ServerService.UpdateServerNames (env : Env) (s : Store) (caller : Except Err (Int × Int))
    (serverId : Int) (serverNamesJSON : Bytes) : Res Unit :=
  match caller with
  | .error e => (.error e, s)
  | .ok (_, userId) =>
    if serverId ≤ 0 then
      (.error (.msg "invalid serverId"), s)
    else if 0 < userId then
      match env.ReadGlobalConfig s with
      | .error e => (.error e, s)
      | .ok none => EdgeAPI.UpdateServerNames env s serverId serverNamesJSON
      | .ok (some globalConfig) =>
        if globalConfig.domainAuditingIsOn then
          UpdateAuditingServerNames env s serverId true serverNamesJSON
        else
          EdgeAPI.UpdateServerNames env s serverId serverNamesJSON
    else
      EdgeAPI.UpdateServerNames env s serverId serverNamesJSON

/-! ## `ServerDAO.CreateServer` -/

/-- The primary key an insert assigns: one more than every key in the table (and than 0). -/
def nextId (ids : List Int) : Int :=
  ids.foldl max 0 + 1

/-- The method `ServerDAO.GenDNSName`; `draws` are the values `rands.HexString(8)` yields
one after the other, and `none` stands for a loop that used all of them up. -/
def GenDNSName (s : Store) : List String → Option String
  | [] => none
  | dnsName :: rest =>
    if s.servers.any (fun r => decide (r.dnsName = dnsName)) then GenDNSName s rest
    else some dnsName

/-- The method `ServerDAO.CreateServer`. Columns the operator leaves unset take their zero
value. The result is `none` when `GenDNSName` does not come back. -/
def CreateServer (env : Env) (s : Store) (draws : List String)
    (adminId userId : Int) (serverType name description : String)
    (serverNamesJSON : Bytes) (isAuditing : Bool) (auditingServerNamesJSON : Bytes)
    (httpJSON httpsJSON tcpJSON tlsJSON unixJSON udpJSON : Bytes) (webId : Int)
    (reverseProxyJSON : Bytes) (clusterId : Int) (includeNodesJSON excludeNodesJSON : Bytes)
    (groupIds : List Int) : Option (Res Int) :=
  let groupIdsJSON : Except Err Bytes :=
    if groupIds.length = 0 then .ok (strBytes "[]") else env.marshalGroupIds groupIds
  match groupIdsJSON with
  | .error e => some (.error e, s)
  | .ok groupIdsBlob =>
    match GenDNSName s draws with
    | none => none
    | some dnsName =>
      let serverId := nextId (s.servers.map (fun r => r.id))
      let row : Server := {
        id := serverId
        adminId := adminId
        userId := userId
        isOn := true
        state := ServerStateEnabled
        type := serverType
        name := name
        description := description
        serverNames := if 0 < serverNamesJSON.length then serverNamesJSON else []
        isAuditing := isAuditing
        auditingServerNames :=
          if 0 < auditingServerNamesJSON.length then auditingServerNamesJSON else []
        auditingResult := []
        http := if env.IsNotNull httpJSON then httpJSON else []
        https := if env.IsNotNull httpsJSON then httpsJSON else []
        tcp := if env.IsNotNull tcpJSON then tcpJSON else []
        tls := if env.IsNotNull tlsJSON then tlsJSON else []
        unix := if env.IsNotNull unixJSON then unixJSON else []
        udp := if env.IsNotNull udpJSON then udpJSON else []
        webId := webId
        reverseProxy := if 0 < reverseProxyJSON.length then reverseProxyJSON else []
        clusterId := clusterId
        includeNodes := if 0 < includeNodesJSON.length then includeNodesJSON else []
        excludeNodes := if 0 < excludeNodesJSON.length then excludeNodesJSON else []
        groupIds := groupIdsBlob
        dnsName := dnsName
        config := []
        configMd5 := ""
        version := 1 }
      let s1 : Store := { s with servers := s.servers ++ [row] }
      match NotifyUpdate env s1 serverId with
      | (.error e, s2) => some (.error e, s2)
      | (.ok _, s2) =>
        match NotifyDNSUpdate s2 serverId with
        | (.error e, s3) => some (.error e, s3)
        | (.ok _, s3) => some (.ok serverId, s3)

/-! ## Message DAO (`message_dao.go`, `message_receiver_dao.go`) -/

def MessageStateEnabled : Int := 1

def MessageReceiverStateEnabled : Int := 1

/-- The method `MessageDAO.calHash`: the hex MD5 of subject, body and params written one
after the other. -/
def calHash (env : Env) (subject body : String) (paramsJSON : Bytes) : String :=
  hexLower (env.md5Sum (strBytes subject ++ strBytes body ++ paramsJSON))

/-- The subject column: the first 100 runes followed by `...` when the subject is longer. -/
def truncateSubject (subject : String) : String :=
  if 100 < subject.length then String.mk (subject.data.take 100) ++ "..." else subject

/-- The method `MessageDAO.createMessage`; `now` is the value of `time.Now().Unix()`. -/
def createMessage (env : Env) (s : Store) (now : Int) (clusterId nodeId : Int)
    (messageType level subject body : String) (paramsJSON : Bytes) : Res Int :=
  let messageId := nextId (s.messages.map (fun m => m.id))
  let row : Message := {
    id := messageId
    adminId := 0
    userId := 0
    clusterId := clusterId
    nodeId := nodeId
    type := messageType
    level := level
    subject := truncateSubject subject
    body := body
    params := if 0 < paramsJSON.length then paramsJSON else []
    isRead := false
    state := MessageStateEnabled
    createdAt := now
    day := env.formatYmd now
    hash := calHash env subject body paramsJSON }
  (.ok messageId, { s with messages := s.messages ++ [row] })

/-- The method `MessageReceiverDAO.FindAllEnabledReceivers`: the enabled receivers of the
scope whose type is `*` or the message type (any type when the message type is empty), in
ascending primary-key order. -/
def FindAllEnabledReceivers (s : Store) (target : MessageTaskTarget) (messageType : String) :
    List MessageReceiver :=
  (s.receivers.filter (fun r =>
    decide ((0 < messageType.length → (r.type = "*" ∨ r.type = messageType))
      ∧ r.clusterId = target.clusterId
      ∧ r.nodeId = target.nodeId
      ∧ r.serverId = target.serverId
      ∧ r.state = MessageReceiverStateEnabled))).insertionSort (fun a b => a.id ≤ b.id)

/-- The insert of one delivery task for a receiver. -/
def createMessageTask (now : Int) (subject body : String) (s : Store) (r : MessageReceiver) :
    Store :=
  { s with messageTasks := s.messageTasks ++ [{
      id := nextId (s.messageTasks.map (fun k => k.id))
      recipientId := r.recipientId
      instanceId := 0
      user := ""
      subject := subject
      body := body
      createdAt := now
      status := 0
      sentAt := 0
      state := 1
      result := ""
      isPrimary := false }] }

/-- Modelled from the spec: `MessageTaskDAO.CreateMessageTasks`, whose source is not part
of the embedded files; the receivers of the scope are resolved with
`FindAllEnabledReceivers(scope, type)` and one delivery task is enqueued for each matched
receiver. -/
def CreateMessageTasks (s : Store) (now : Int) (target : MessageTaskTarget)
    (messageType subject body : String) : Res Unit :=
  (.ok (), (FindAllEnabledReceivers s target messageType).foldl
    (createMessageTask now subject body) s)

/-- The method `MessageDAO.CreateClusterMessage`. -/
def CreateClusterMessage (env : Env) (s : Store) (now : Int) (clusterId : Int)
    (messageType level subject body : String) (paramsJSON : Bytes) : Res Unit :=
  match createMessage env s now clusterId 0 messageType level subject body paramsJSON with
  | (.error e, s1) => (.error e, s1)
  | (.ok _, s1) =>
    CreateMessageTasks s1 now { clusterId := clusterId, nodeId := 0, serverId := 0 }
      messageType subject body

/-- The dedupe query of `CreateNodeMessage`:
`Attr("hash", hash).Gt("createdAt", now - 10*60).Exist()`. -/
def existsRecentMessage (s : Store) (hash : String) (now : Int) : Bool :=
  s.messages.any (fun m => decide (m.hash = hash ∧ now - 10 * 60 < m.createdAt))

/-- The method `MessageDAO.CreateNodeMessage`. The source reads the clock twice:
`queryTime` is the value of `time.Now().Unix()` in the dedupe query, `now` its value when
`createMessage` stamps the row, which is also the time the task inserts are given. -/
def CreateNodeMessage (env : Env) (s : Store) (queryTime now : Int) (clusterId nodeId : Int)
    (messageType level subject body : String) (paramsJSON : Bytes) : Res Unit :=
  let hash := calHash env subject body paramsJSON
  if existsRecentMessage s hash queryTime then (.ok (), s)
  else
    match createMessage env s now clusterId nodeId messageType level subject body paramsJSON with
    | (.error e, s1) => (.error e, s1)
    | (.ok _, s1) =>
      match CreateMessageTasks s1 now { clusterId := clusterId, nodeId := 0, serverId := 0 }
          messageType subject body with
      | (.error e, s2) => (.error e, s2)
      | (.ok _, s2) =>
        if 0 < nodeId then
          CreateMessageTasks s2 now { clusterId := clusterId, nodeId := nodeId, serverId := 0 }
            messageType subject body
        else (.ok (), s2)

/-! ## The other setters of `ServerDAO` -/

/-- The method `ServerDAO.EnableServer`; it returns the number of rows the update changed. -/
def EnableServer (s : Store) (id : Int) : Res Int :=
  (.ok ((s.servers.filter
      (fun r => decide (r.id = id ∧ r.state ≠ ServerStateEnabled))).length : Int),
    updateServer s id (fun r => { r with state := ServerStateEnabled }))

/-- The method `ServerDAO.UpdateServerBasic`. -/
def UpdateServerBasic (env : Env) (s : Store) (serverId : Int) (name description : String)
    (clusterId : Int) (isOn : Bool) (groupIds : List Int) : Res Unit :=
  if serverId ≤ 0 then
    (.error (.msg "serverId should not be smaller than 0"), s)
  else
    let groupIdsJSON : Except Err Bytes :=
      if groupIds.length = 0 then .ok (strBytes "[]") else env.marshalGroupIds groupIds
    match groupIdsJSON with
    | .error e => (.error e, s)
    | .ok groupIdsBlob =>
      let s1 := updateServer s serverId (fun r =>
        { r with
          name := name
          description := description
          clusterId := clusterId
          isOn := isOn
          groupIds := groupIdsBlob })
      match NotifyUpdate env s1 serverId with
      | (.error e, s2) => (.error e, s2)
      | (.ok _, s2) => NotifyDNSUpdate s2 serverId

/-- The method `ServerDAO.UpdateUserServerBasic`. -/
def UpdateUserServerBasic (env : Env) (s : Store) (serverId : Int) (name : String) :
    Res Unit :=
  if serverId ≤ 0 then
    (.error (.msg "serverId should not be smaller than 0"), s)
  else
    NotifyUpdate env (updateServer s serverId (fun r => { r with name := name })) serverId

/-- The method `ServerDAO.UpdateServerIsOn`. -/
def UpdateServerIsOn (env : Env) (s : Store) (serverId : Int) (isOn : Bool) : Res Unit :=
  NotifyUpdate env (updateServer s serverId (fun r => { r with isOn := isOn })) serverId

/-- The method `ServerDAO.UpdateServerHTTP`. -/
def UpdateServerHTTP (env : Env) (s : Store) (serverId : Int) (config : Bytes) : Res Unit :=
  if serverId ≤ 0 then
    (.error (.msg "serverId should not be smaller than 0"), s)
  else
    let blob := if config.length = 0 then nullJSON else config
    NotifyUpdate env (updateServer s serverId (fun r => { r with http := blob })) serverId

/-- The method `ServerDAO.UpdateServerHTTPS`. -/
def UpdateServerHTTPS (env : Env) (s : Store) (serverId : Int) (config : Bytes) : Res Unit :=
  if serverId ≤ 0 then
    (.error (.msg "serverId should not be smaller than 0"), s)
  else
    let blob := if config.length = 0 then nullJSON else config
    NotifyUpdate env (updateServer s serverId (fun r => { r with https := blob })) serverId

/-- The method `ServerDAO.UpdateServerTCP`. -/
def UpdateServerTCP (env : Env) (s : Store) (serverId : Int) (config : Bytes) : Res Unit :=
  if serverId ≤ 0 then
    (.error (.msg "serverId should not be smaller than 0"), s)
  else
    let blob := if config.length = 0 then nullJSON else config
    NotifyUpdate env (updateServer s serverId (fun r => { r with tcp := blob })) serverId

/-- The method `ServerDAO.UpdateServerTLS`. -/
def UpdateServerTLS (env : Env) (s : Store) (serverId : Int) (config : Bytes) : Res Unit :=
  if serverId ≤ 0 then
    (.error (.msg "serverId should not be smaller than 0"), s)
  else
    let blob := if config.length = 0 then nullJSON else config
    NotifyUpdate env (updateServer s serverId (fun r => { r with tls := blob })) serverId

/-- The method `ServerDAO.UpdateServerUnix`. -/
def UpdateServerUnix (env : Env) (s : Store) (serverId : Int) (config : Bytes) : Res Unit :=
  if serverId ≤ 0 then
    (.error (.msg "serverId should not be smaller than 0"), s)
  else
    let blob := if config.length = 0 then nullJSON else config
    NotifyUpdate env (updateServer s serverId (fun r => { r with unix := blob })) serverId

/-- The method `ServerDAO.UpdateServerUDP`. -/
def UpdateServerUDP (env : Env) (s : Store) (serverId : Int) (config : Bytes) : Res Unit :=
  if serverId ≤ 0 then
    (.error (.msg "serverId should not be smaller than 0"), s)
  else
    let blob := if config.length = 0 then nullJSON else config
    NotifyUpdate env (updateServer s serverId (fun r => { r with udp := blob })) serverId

/-- The method `ServerDAO.UpdateServerWeb`. -/
def UpdateServerWeb (env : Env) (s : Store) (serverId webId : Int) : Res Unit :=
  if serverId ≤ 0 then
    (.error (.msg "serverId should not be smaller than 0"), s)
  else
    NotifyUpdate env (updateServer s serverId (fun r => { r with webId := webId })) serverId

/-- The method `ServerDAO.UpdateServerReverseProxy`. -/
def UpdateServerReverseProxy (env : Env) (s : Store) (serverId : Int) (config : Bytes) :
    Res Unit :=
  if serverId ≤ 0 then
    (.error (.msg "serverId should not be smaller than 0"), s)
  else
    NotifyUpdate env
      (updateServer s serverId (fun r => { r with reverseProxy := env.JSONBytes config }))
      serverId

/-- The method `ServerDAO.CheckUserServer`: `Pk(serverId).Attr("userId", userId).Exist()`
behind the guard on both ids. -/
def CheckUserServer (s : Store) (userId serverId : Int) : Except Err Unit :=
  if serverId ≤ 0 ∨ userId ≤ 0 then .error .notFound
  else if s.servers.any (fun r => decide (r.id = serverId ∧ r.userId = userId)) then .ok ()
  else .error .notFound

/-- The method `ServerDAO.UpdateUserServersClusterId`. -/
def UpdateUserServersClusterId (env : Env) (s : Store) (userId clusterId : Int) : Res Unit :=
  match env.FindUserClusterId s userId with
  | .error e => (.error e, s)
  | .ok oldClusterId =>
    if oldClusterId = clusterId then (.ok (), s)
    else
      let s1 : Store :=
        { s with servers := s.servers.map (fun r =>
            if r.userId = userId then { r with clusterId := clusterId } else r) }
      let afterOld : Res Unit :=
        if 0 < oldClusterId then
          match CreateClusterTask s1 oldClusterId .configChanged with
          | (.error e, s2) => (.error e, s2)
          | (.ok _, s2) => CreateClusterTask s2 oldClusterId .ipItemChanged
        else (.ok (), s1)
      match afterOld with
      | (.error e, s3) => (.error e, s3)
      | (.ok _, s3) =>
        if 0 < clusterId then
          match CreateClusterTask s3 clusterId .configChanged with
          | (.error e, s4) => (.error e, s4)
          | (.ok _, s4) => CreateClusterTask s4 clusterId .ipItemChanged
        else (.ok (), s3)

/-! ## `NodeClusterDAO` (`node_cluster_dao.go`) -/

def NodeClusterStateEnabled : Int := 1

def NodeClusterStateDisabled : Int := 0

/-- An update of the cluster rows with the given primary key. -/
def updateCluster (s : Store) (clusterId : Int) (f : NodeCluster → NodeCluster) : Store :=
  { s with clusters := s.clusters.map (fun c => if c.id = clusterId then f c else c) }

/-- The method `NodeClusterDAO.EnableNodeCluster`. -/
def EnableNodeCluster (s : Store) (id : Int) : Res Unit :=
  (.ok (), updateCluster s id (fun c => { c with state := NodeClusterStateEnabled }))

/-- The method `NodeClusterDAO.DisableNodeCluster`. -/
def DisableNodeCluster (s : Store) (id : Int) : Res Unit :=
  (.ok (), updateCluster s id (fun c => { c with state := NodeClusterStateDisabled }))

/-- The method `NodeClusterDAO.UpdateCluster`. -/
def UpdateCluster (s : Store) (clusterId : Int) (name : String) (grantId : Int)
    (installDir : String) : Res Unit :=
  if clusterId ≤ 0 then
    (.error (.msg "invalid clusterId"), s)
  else
    (.ok (), updateCluster s clusterId (fun c =>
      { c with name := name, grantId := grantId, installDir := installDir }))

/-- The method `NodeClusterDAO.NotifyUpdate`. -/
def NodeClusterDAO.NotifyUpdate (s : Store) (clusterId : Int) : Res Unit :=
  CreateClusterTask s clusterId .configChanged

/-- The method `NodeClusterDAO.UpdateNodeClusterHTTPCachePolicyId`. -/
def UpdateNodeClusterHTTPCachePolicyId (s : Store) (clusterId httpCachePolicyId : Int) :
    Res Unit :=
  NodeClusterDAO.NotifyUpdate
    (updateCluster s clusterId (fun c => { c with cachePolicyId := httpCachePolicyId }))
    clusterId

/-- The method `NodeClusterDAO.UpdateNodeClusterHTTPFirewallPolicyId`. -/
def UpdateNodeClusterHTTPFirewallPolicyId (s : Store) (clusterId httpFirewallPolicyId : Int) :
    Res Unit :=
  NodeClusterDAO.NotifyUpdate
    (updateCluster s clusterId (fun c => { c with httpFirewallPolicyId := httpFirewallPolicyId }))
    clusterId

/-! ## `NodeIPAddressDAO` (`node_ip_address_dao.go`) -/

def NodeIPAddressStateEnabled : Int := 1

def NodeIPAddressStateDisabled : Int := 0

/-- Modelled from the spec: `NodeDAO.NotifyDNSUpdate`, whose source is not part of the
embedded files; an IP address change of a node triggers DNS reconvergence for the owning
node, as one DNS task scoped to that node. -/
def NodeDAO.NotifyDNSUpdate (s : Store) (nodeId : Int) : Res Unit :=
  (.ok (), { s with dnsTasks := s.dnsTasks ++ [{ clusterId := 0, serverId := 0,
                                                  nodeId := nodeId, taskType := .nodeChange }] })

/-- The method `NodeIPAddressDAO.DisableAddress`. -/
def DisableAddress (s : Store) (id : Int) : Res Unit :=
  (.ok (), { s with addresses := s.addresses.map (fun a =>
      if a.id = id then { a with state := NodeIPAddressStateDisabled } else a) })

/-- The method `NodeIPAddressDAO.DisableAllAddressesWithNodeId`; `defaultRole` is the
constant `nodeconfigs.NodeRoleNode`. The role is defaulted as in the source and then plays
no part in the update, which selects by `nodeId` alone. -/
def DisableAllAddressesWithNodeId (s : Store) (defaultRole : String) (nodeId : Int)
    (role : String) : Res Unit :=
  if nodeId ≤ 0 then
    (.error (.msg "invalid nodeId"), s)
  else
    let _role := if role.length = 0 then defaultRole else role
    (.ok (), { s with addresses := s.addresses.map (fun a =>
        if a.nodeId = nodeId then { a with state := NodeIPAddressStateDisabled } else a) })

/-- The method `NodeIPAddressDAO.CreateAddress`; `defaultRole` is the constant
`nodeconfigs.NodeRoleNode`. -/
def CreateAddress (s : Store) (defaultRole : String) (nodeId : Int) (role name ip : String)
    (canAccess : Bool) : Res Int :=
  let addressId := nextId (s.addresses.map (fun a => a.id))
  let row : NodeIPAddress := {
    id := addressId
    nodeId := nodeId
    role := if role.length = 0 then defaultRole else role
    name := name
    ip := ip
    canAccess := canAccess
    state := NodeIPAddressStateEnabled }
  match NodeDAO.NotifyDNSUpdate { s with addresses := s.addresses ++ [row] } nodeId with
  | (.error e, s1) => (.error e, s1)
  | (.ok _, s1) => (.ok addressId, s1)

/-- The method `NodeIPAddressDAO.UpdateAddress`. -/
def UpdateAddress (s : Store) (addressId : Int) (name ip : String) (canAccess : Bool) :
    Res Unit :=
  if addressId ≤ 0 then
    (.error (.msg "invalid addressId"), s)
  else
    (.ok (), { s with addresses := s.addresses.map (fun a =>
        if a.id = addressId then
          { a with name := name, ip := ip, canAccess := canAccess,
                   state := NodeIPAddressStateEnabled }
        else a) })

/-- The method `NodeIPAddressDAO.UpdateAddressIP`. -/
def UpdateAddressIP (s : Store) (addressId : Int) (ip : String) : Res Unit :=
  if addressId ≤ 0 then
    (.error (.msg "invalid addressId"), s)
  else
    (.ok (), { s with addresses := s.addresses.map (fun a =>
        if a.id = addressId then { a with ip := ip } else a) })

/-- The method `NodeIPAddressDAO.UpdateAddressNodeId`. -/
def UpdateAddressNodeId (s : Store) (addressId nodeId : Int) : Res Unit :=
  NodeDAO.NotifyDNSUpdate
    { s with addresses := s.addresses.map (fun a =>
        if a.id = addressId then
          { a with nodeId := nodeId, state := NodeIPAddressStateEnabled }
        else a) }
    nodeId

/-! ## `HTTPAccessLogService.ListHTTPAccessLogs` -/

/-- The fields of `pb.ListHTTPAccessLogsRequest` that `ListHTTPAccessLogs` passes on; the
same record stands for the arguments it hands to `SharedHTTPAccessLogDAO.ListAccessLogs`. -/
structure AccessLogQuery where
  requestId : String
  size : Int
  day : String
  serverId : Int
  reverse : Bool
  hasError : Bool
  firewallPolicyId : Int
  firewallRuleGroupId : Int
  firewallRuleSetId : Int
  hasFirewallPolicy : Bool
  userId : Int
  keyword : String
  deriving DecidableEq, Repr

/-- The method `HTTPAccessLogService.ListHTTPAccessLogs` up to its call of
`SharedHTTPAccessLogDAO.ListAccessLogs`: the result is the error it returns, or the
arguments of that call. `caller` is what `ValidateAdminAndUser(ctx, 0, 0)` returns. -/
def ListHTTPAccessLogs (env : Env) (s : Store) (caller : Except Err (Int × Int))
    (req : AccessLogQuery) : Except Err AccessLogQuery :=
  match caller with
  | .error e => .error e
  | .ok (_, userId) =>
    let query : AccessLogQuery := {
      requestId := req.requestId
      size := req.size
      day := req.day
      serverId := req.serverId
      reverse := req.reverse
      hasError := req.hasError
      firewallPolicyId := req.firewallPolicyId
      firewallRuleGroupId := req.firewallRuleGroupId
      firewallRuleSetId := req.firewallRuleSetId
      hasFirewallPolicy := req.hasFirewallPolicy
      userId := req.userId
      keyword := req.keyword }
    if 0 < userId then
      if 0 < req.userId ∧ userId ≠ req.userId then .error env.PermissionError
      else if 0 < req.serverId then
        match CheckUserServer s userId req.serverId with
        | .error e => .error e
        | .ok _ => .ok query
      else .ok query
    else .ok query

/-! ## Task queues whose inserts can fail

The methods `NotifyUpdate`, `NotifyDNSUpdate` and `DisableServer` once more, with the two
task inserts as parameters, so that a failing insert can be put in their place. -/

/-- The two task inserts the server notifications use. -/
structure TaskQueues where
  CreateClusterTask : Store → Int → NodeTaskType → Res Unit
  CreateServerTask : Store → Int → DNSTaskType → Res Unit

/-- The task inserts as modelled above, which never fail. -/
def soundQueues : TaskQueues where
  CreateClusterTask := CreateClusterTask
  CreateServerTask := CreateServerTask

/-- The method `ServerDAO.NotifyUpdate` over the given task inserts. -/
def NotifyUpdateWith (q : TaskQueues) (env : Env) (s : Store) (serverId : Int) : Res Unit :=
  let createTask (s1 : Store) : Res Unit :=
    let clusterId := FindServerClusterId s1 serverId
    if clusterId = 0 then (.ok (), s1)
    else q.CreateClusterTask s1 clusterId .configChanged
  match RenewServerConfig env s serverId true with
  | (.error e, s1) =>
    if e ≠ Err.notFound then (.error e, s1) else createTask s1
  | (.ok _, s1) => createTask s1

/-- The method `ServerDAO.NotifyDNSUpdate` over the given task inserts. -/
def NotifyDNSUpdateWith (q : TaskQueues) (s : Store) (serverId : Int) : Res Unit :=
  let clusterId := FindServerClusterId s serverId
  if clusterId ≤ 0 then (.ok (), s)
  else
    match FindClusterDNSInfo s clusterId with
    | none => (.ok (), s)
    | some dnsInfo =>
      if dnsInfo.dnsName.length = 0 ∨ dnsInfo.dnsDomainId ≤ 0 then (.ok (), s)
      else q.CreateServerTask s serverId .serverChange

/-- The method `ServerDAO.DisableServer` over the given task inserts. -/
def DisableServerWith (q : TaskQueues) (env : Env) (s : Store) (serverId : Int) : Res Unit :=
  let s1 := updateServer s serverId (fun r => { r with state := ServerStateDisabled })
  match NotifyUpdateWith q env s1 serverId with
  | (.error e, s2) => (.error e, s2)
  | (.ok _, s2) => NotifyDNSUpdateWith q s2 serverId

/-- Task inserts of which the cluster one fails without writing. -/
def failingClusterQueues : TaskQueues where
  CreateClusterTask := fun s _ _ => (.error (.ext 3), s)
  CreateServerTask := CreateServerTask

/-- Task inserts of which the DNS one fails without writing. -/
def failingDNSQueues : TaskQueues where
  CreateClusterTask := CreateClusterTask
  CreateServerTask := fun s _ _ => (.error (.ext 4), s)

/-! ## Sample collaborators and stores

Concrete values on which the definitions above can be evaluated. -/

/-- A stand-in digest of 16 bytes: the input padded with zeros and cut to 16 bytes. -/
def sampleDigest (bs : Bytes) : Bytes := (bs ++ List.replicate 16 0).take 16

/-- Collaborators with the simplest behaviour: decoders keep the blob as payload, composers
find nothing, the encoder of a config writes its name. -/
def sampleEnv : Env where
  md5Sum := sampleDigest
  JSONBytes := fun bs => bs
  IsNotNull := hasValue
  marshalGroupIds := fun _ => .ok []
  marshalServerConfig := fun c => .ok (strBytes c.name)
  unmarshalServerNames := fun bs => .ok [{ payload := bs }]
  unmarshalHTTP := fun bs => .ok { payload := bs }
  unmarshalHTTPS := fun bs => .ok { payload := bs, sslPolicyRef := none, sslPolicy := none }
  unmarshalTCP := fun bs => .ok { payload := bs }
  unmarshalTLS := fun bs => .ok { payload := bs, sslPolicyRef := none, sslPolicy := none }
  unmarshalUnix := fun bs => .ok { payload := bs }
  unmarshalUDP := fun bs => .ok { payload := bs }
  unmarshalReverseProxyRef := fun _ => .ok { isOn := false, reverseProxyId := 0 }
  FindEnabledDNSDomain := fun _ => .ok none
  ComposePolicyConfig := fun _ => .ok none
  ComposeWebConfig := fun _ => .ok none
  ComposeReverseProxyConfig := fun _ => .ok none
  formatYmd := fun _ => "20210101"
  ReadGlobalConfig := fun _ => .ok (some { domainAuditingIsOn := true })
  marshalAuditingResult := fun isOk reason _ => .ok ((if isOk then 1 else 0) :: strBytes reason)
  FindUserClusterId := fun _ _ => .ok 1
  PermissionError := .msg "Permission Denied"

/-- A store with no rows at all. -/
def emptyStore : Store where
  servers := []
  clusters := []
  serverGlobalConfig := []
  nodeTasks := []
  dnsTasks := []
  messages := []
  receivers := []
  messageTasks := []
  addresses := []

/-- An enabled server row with the given id, cluster and stored hash, nothing else set. -/
def sampleServer (id clusterId : Int) (configMd5 : String) : Server where
  id := id
  adminId := 0
  userId := 0
  isOn := true
  state := ServerStateEnabled
  type := "httpProxy"
  name := "web"
  description := ""
  serverNames := []
  isAuditing := false
  auditingServerNames := []
  auditingResult := []
  http := []
  https := []
  tcp := []
  tls := []
  unix := []
  udp := []
  webId := 0
  reverseProxy := []
  clusterId := clusterId
  includeNodes := []
  excludeNodes := []
  groupIds := []
  dnsName := "a1b2c3d4"
  config := []
  configMd5 := configMd5
  version := 1

/-- A cluster row with the given DNS binding. -/
def sampleCluster (id : Int) (dnsName : String) (dnsDomainId : Int) : NodeCluster where
  id := id
  name := "cluster"
  dnsName := dnsName
  dnsDomainId := dnsDomainId
  dns := []
  state := 1
  grantId := 0
  installDir := ""
  cachePolicyId := 0
  httpFirewallPolicyId := 0

/-- A store holding one server (id 1, cluster 1, no stored hash) and its cluster. -/
def sampleStore (dnsName : String) (dnsDomainId : Int) : Store :=
  { emptyStore with
    servers := [sampleServer 1 1 ""]
    clusters := [sampleCluster 1 dnsName dnsDomainId] }

/-- A receiver row of the given type for the cluster-wide scope of cluster 1. -/
def sampleReceiver (id : Int) (type : String) : MessageReceiver where
  id := id
  clusterId := 1
  nodeId := 0
  serverId := 0
  type := type
  params := []
  recipientId := 9
  recipientGroupId := 0
  state := MessageReceiverStateEnabled

/-- Collaborators as in `sampleEnv`, with an HTTP decoder that rejects every blob. -/
def strictEnv : Env :=
  { sampleEnv with unmarshalHTTP := fun _ => .error (.ext 1) }

/-- Collaborators as in `sampleEnv`, with a DNS domain `example.com` under every id, and an
HTTPS decoder that yields a reference to SSL policy 7. -/
def dnsEnv : Env :=
  { sampleEnv with
    FindEnabledDNSDomain := fun id => .ok (some { id := id, name := "example.com" })
    unmarshalHTTPS := fun bs =>
      .ok { payload := bs, sslPolicyRef := some { isOn := true, sslPolicyId := 7 },
            sslPolicy := none } }

/-- Collaborators as in `sampleEnv`, with an encoder of configs whose outputs are
prefix-free, as the object encodings of `json.Marshal` are: one byte, 1 for a config that
is on and 0 for one that is off. -/
def flagEnv : Env :=
  { sampleEnv with marshalServerConfig := fun c => .ok (if c.isOn then [1] else [0]) }

/-- A composed config with nothing set but the id 1 and the `isOn` flag. -/
def sampleConfig (isOn : Bool) : ServerConfig where
  id := 1
  type := ""
  isOn := isOn
  name := ""
  description := ""
  serverNames := none
  aliasServerNames := []
  http := none
  https := none
  tcp := none
  tls := none
  unix := none
  udp := none
  web := none
  reverseProxyRef := none
  reverseProxy := none

/-- Collaborators as in `sampleEnv` (no composer finds anything), with HTTPS and TLS
decoders that yield a reference to SSL policy 7 together with a policy the blob itself
carries. -/
def embeddedPolicyEnv : Env :=
  { sampleEnv with
    unmarshalHTTPS := fun bs =>
      .ok { payload := bs, sslPolicyRef := some { isOn := true, sslPolicyId := 7 },
            sslPolicy := some { payload := [9] } }
    unmarshalTLS := fun bs =>
      .ok { payload := bs, sslPolicyRef := some { isOn := true, sslPolicyId := 7 },
            sslPolicy := some { payload := [9] } } }

/-- A server row as `sampleServer`, owned by the given user. -/
def userServer (id clusterId userId : Int) : Server :=
  { sampleServer id clusterId "" with userId := userId }

/-- An IP address row of node 3. -/
def sampleAddress (id : Int) : NodeIPAddress where
  id := id
  nodeId := 3
  role := "node"
  name := "eth0"
  ip := "192.0.2.1"
  canAccess := true
  state := NodeIPAddressStateEnabled

/-- A request for a page of access logs that names neither a server nor a user. -/
def sampleLogRequest : AccessLogQuery where
  requestId := ""
  size := 20
  day := "20210101"
  serverId := 0
  reverse := false
  hasError := false
  firewallPolicyId := 0
  firewallRuleGroupId := 0
  firewallRuleSetId := 0
  hasFirewallPolicy := false
  userId := 0
  keyword := ""

/-- A stored message with the given scope, type, hash and creation time. -/
def sampleMessage (clusterId nodeId : Int) (type hash : String) (createdAt : Int) : Message where
  id := 1
  adminId := 0
  userId := 0
  clusterId := clusterId
  nodeId := nodeId
  type := type
  level := "info"
  subject := ""
  body := ""
  params := []
  isRead := false
  state := 1
  createdAt := createdAt
  day := "20210101"
  hash := hash

/-! # Theorems -/

/-! ## Hex formatting is injective -/

theorem hexDigit_fin_inj : ∀ a b : Fin 16, hexDigit a.val = hexDigit b.val → a = b := by
  decide

theorem hexDigit_inj {a b : Nat} (ha : a < 16) (hb : b < 16)
    (h : hexDigit a = hexDigit b) : a = b :=
  congrArg Fin.val (hexDigit_fin_inj ⟨a, ha⟩ ⟨b, hb⟩ h)

theorem hexByte_inj {a b : UInt8} (h : hexByte a = hexByte b) : a = b := by
  simp only [hexByte, List.cons.injEq, and_true] at h
  have ha : a.toNat < 2 ^ 8 := UInt8.toNat_lt a
  have hb : b.toNat < 2 ^ 8 := UInt8.toNat_lt b
  have h1 := hexDigit_inj (by omega) (by omega) h.1
  have h2 := hexDigit_inj (Nat.mod_lt _ (by decide)) (Nat.mod_lt _ (by decide)) h.2
  exact UInt8.ext (by omega)

theorem hexChars_inj : ∀ {a b : Bytes}, hexChars a = hexChars b → a = b
  | [], [], _ => rfl
  | [], _ :: _, h => by simp [hexChars, hexByte] at h
  | _ :: _, [], h => by simp [hexChars, hexByte] at h
  | x :: xs, y :: ys, h => by
    simp only [hexChars, hexByte, List.cons_append, List.nil_append, List.cons.injEq] at h
    have hxy : x = y := hexByte_inj (by simp [hexByte, h.1, h.2.1])
    rw [hxy, hexChars_inj h.2.2]

theorem hexLower_inj {a b : Bytes} (h : hexLower a = hexLower b) : a = b := by
  unfold hexLower at h
  exact hexChars_inj (congrArg String.data h)

theorem hexLower_eq_empty {a : Bytes} (h : hexLower a = "") : a = [] :=
  hexLower_inj (b := []) h

/-! ## Point lookups after an update -/

theorem find_map_update (rows : List Server) (serverId : Int) (f : Server → Server)
    (p : Server → Bool) (hp : ∀ r, p (f r) = p r) :
    (rows.map (fun r => if r.id = serverId then f r else r)).find? p
      = (rows.find? p).map (fun r => if r.id = serverId then f r else r) := by
  induction rows with
  | nil => rfl
  | cons r rs ih =>
    have hpr : p (if r.id = serverId then f r else r) = p r := by
      split <;> simp [hp]
    simp only [List.map_cons, List.find?_cons, hpr]
    cases p r <;> simp [ih]

theorem findServer_updateServer (s : Store) (serverId target : Int) (f : Server → Server)
    (hf : ∀ r, (f r).id = r.id) :
    findServer (updateServer s serverId f) target
      = (findServer s target).map (fun r => if r.id = serverId then f r else r) :=
  find_map_update s.servers serverId f (fun r => decide (r.id = target))
    (fun r => by simp [hf])

theorem findServer_id {s : Store} {serverId : Int} {row : Server}
    (h : findServer s serverId = some row) : row.id = serverId := by
  have := List.find?_some h
  simpa using this

theorem findServer_updateServer_self (s : Store) (serverId : Int) (f : Server → Server)
    (hf : ∀ r, (f r).id = r.id) {row : Server} (h : findServer s serverId = some row) :
    findServer (updateServer s serverId f) serverId = some (f row) := by
  rw [findServer_updateServer s serverId serverId f hf, h]
  simp [findServer_id h]

theorem findServer_updateServer_other (s : Store) (serverId target : Int)
    (f : Server → Server) (hf : ∀ r, (f r).id = r.id) (hne : target ≠ serverId) :
    findServer (updateServer s serverId f) target = findServer s target := by
  rw [findServer_updateServer s serverId target f hf]
  cases h : findServer s target with
  | none => rfl
  | some row =>
    have hid := findServer_id h
    simp [hid, hne]

/-! ## The change gate `UpdateServerConfig` -/

theorem UpdateServerConfig_eq_of_same (env : Env) (s : Store) (serverId : Int)
    (C : Bytes) (updateMd5 : Bool) (hid : 0 < serverId)
    (hmd5 : findConfigMd5 s serverId = newConfigMd5 env C s.serverGlobalConfig) :
    UpdateServerConfig env s serverId C updateMd5 = (.ok false, s) := by
  simp [UpdateServerConfig, ReadSetting, not_le.mpr hid, hmd5]

theorem UpdateServerConfig_eq_of_diff (env : Env) (s : Store) (serverId : Int)
    (C : Bytes) (updateMd5 : Bool) (hid : 0 < serverId)
    (hmd5 : findConfigMd5 s serverId ≠ newConfigMd5 env C s.serverGlobalConfig) :
    UpdateServerConfig env s serverId C updateMd5
      = (.ok true, updateServer s serverId
          (configOp env C (newConfigMd5 env C s.serverGlobalConfig) updateMd5)) := by
  simp [UpdateServerConfig, ReadSetting, not_le.mpr hid, hmd5]

/-- C1: for a positive server id, when the stored `configMd5` equals the lowercase hex MD5
of the config bytes followed by the stored global settings, `UpdateServerConfig` returns
`changed = false` with no error and leaves the whole store (config, hash and version of
every server included) as it was, for both values of `updateMd5`. -/
theorem UpdateServerConfig_unchanged (env : Env) (s : Store) (serverId : Int)
    (C : Bytes) (updateMd5 : Bool) (hid : 0 < serverId)
    (hmd5 : findConfigMd5 s serverId = hexLower (env.md5Sum (C ++ s.serverGlobalConfig))) :
    UpdateServerConfig env s serverId C updateMd5 = (.ok false, s) :=
  UpdateServerConfig_eq_of_same env s serverId C updateMd5 hid hmd5

theorem UpdateServerConfig_unchanged_witness :
    UpdateServerConfig sampleEnv
        { emptyStore with servers := [sampleServer 1 1 "01000000000000000000000000000000"] }
        1 [1] false
      = (.ok false,
          { emptyStore with servers := [sampleServer 1 1 "01000000000000000000000000000000"] }) :=
  UpdateServerConfig_unchanged sampleEnv _ 1 [1] false (by decide) (by decide)

/-- C2: for a positive server id whose row exists, when the stored `configMd5` differs from
the hex MD5 of the config bytes followed by the stored global settings, `UpdateServerConfig`
returns `changed = true`; the row then holds the blob `JSONBytes(C)` as config (which is `C`
itself whenever the helper leaves `C` as it is), its version is one higher, its `configMd5`
is the new hash if `updateMd5` is true and the old value otherwise, and every other column,
every other row and every other table is as before. -/
theorem UpdateServerConfig_changed (env : Env) (s : Store) (serverId : Int)
    (C : Bytes) (updateMd5 : Bool) (row : Server) (hid : 0 < serverId)
    (hrow : findServer s serverId = some row)
    (hmd5 : row.configMd5 ≠ hexLower (env.md5Sum (C ++ s.serverGlobalConfig))) :
    (UpdateServerConfig env s serverId C updateMd5).1 = .ok true
    ∧ findServer (UpdateServerConfig env s serverId C updateMd5).2 serverId
        = some { row with
                 config := env.JSONBytes C
                 version := row.version + 1
                 configMd5 :=
                   if updateMd5 then hexLower (env.md5Sum (C ++ s.serverGlobalConfig))
                   else row.configMd5 }
    ∧ (env.JSONBytes C = C →
        (findServer (UpdateServerConfig env s serverId C updateMd5).2 serverId).map
          (fun r => r.config) = some C)
    ∧ (∀ other, other ≠ serverId →
        findServer (UpdateServerConfig env s serverId C updateMd5).2 other = findServer s other)
    ∧ (UpdateServerConfig env s serverId C updateMd5).2
        = { s with servers := (UpdateServerConfig env s serverId C updateMd5).2.servers } := by
  have hne : findConfigMd5 s serverId ≠ newConfigMd5 env C s.serverGlobalConfig := by
    simpa [findConfigMd5, hrow, newConfigMd5] using hmd5
  rw [UpdateServerConfig_eq_of_diff env s serverId C updateMd5 hid hne]
  have hself := findServer_updateServer_self s serverId
      (configOp env C (newConfigMd5 env C s.serverGlobalConfig) updateMd5) (fun _ => rfl) hrow
  refine ⟨rfl, ?_, ?_, ?_, rfl⟩
  · simpa [newConfigMd5, configOp] using hself
  · intro hC
    rw [hself]
    simp [hC, configOp]
  · intro other hother
    exact findServer_updateServer_other s serverId other _ (fun _ => rfl) hother

theorem UpdateServerConfig_changed_witness :
    (UpdateServerConfig sampleEnv (sampleStore "" 0) 1 [1] true).1 = .ok true
    ∧ findServer (UpdateServerConfig sampleEnv (sampleStore "" 0) 1 [1] true).2 1
        = some { sampleServer 1 1 "01000000000000000000000000000000" with
                 config := [1], version := 2 } := by
  have h := UpdateServerConfig_changed sampleEnv (sampleStore "" 0) 1 [1] true
    (sampleServer 1 1 "") (by decide) (by decide) (by decide)
  exact ⟨h.1, h.2.1.trans (by decide)⟩

theorem findConfigMd5_after_persist (env : Env) (s : Store) (serverId : Int) (C : Bytes)
    {row : Server} (hrow : findServer s serverId = some row) :
    findConfigMd5 (updateServer s serverId
        (configOp env C (newConfigMd5 env C s.serverGlobalConfig) true)) serverId
      = newConfigMd5 env C s.serverGlobalConfig := by
  unfold findConfigMd5
  rw [findServer_updateServer_self s serverId
    (configOp env C (newConfigMd5 env C s.serverGlobalConfig) true) (fun _ => rfl) hrow]
  simp [configOp]

/-- The config bytes and the global settings are written to the digest one after the
other with nothing in between: on byte strings that are not encoder output, such as `[1]`
and its extension `[1, 2]`, two different pairs can be the same digest input. -/
theorem newConfigMd5_raw_bytes :
    (∀ env : Env, newConfigMd5 env [1] [2] = newConfigMd5 env [1, 2] [])
    ∧ ¬ (([1] : Bytes) = [1, 2] ∧ ([2] : Bytes) = []) :=
  ⟨fun _ => rfl, by decide⟩

/-- With MD5 free of collisions on the two inputs, the hashes of `(C, G)` and `(C', G')`
are equal if and only if the concatenations `C ++ G` and `C' ++ G'` are equal. -/
theorem newConfigMd5_eq_iff_append (env : Env) (C G C' G' : Bytes)
    (hcf : env.md5Sum (C ++ G) = env.md5Sum (C' ++ G') → C ++ G = C' ++ G') :
    newConfigMd5 env C G = newConfigMd5 env C' G' ↔ C ++ G = C' ++ G' := by
  constructor
  · intro h
    exact hcf (hexLower_inj h)
  · intro h
    unfold newConfigMd5
    rw [h]

/-- C6: for composed-config bytes `C` and `C'`, that is, outputs of the config encoder
`json.Marshal`, whose outputs are prefix-free (no encoding of a config is a proper prefix
of the encoding of another), for any global-settings bytes `G` and `G'`, and with MD5 free
of collisions on the two inputs: the hash `UpdateServerConfig` computes for `(C, G)` equals
the one it computes for `(C', G')` if and only if `C = C'` and `G = G'`. So for a server
whose stored hash was computed for `(C, G)`, `UpdateServerConfig` called with `C'` under
the global settings `G'` reports no change if and only if `C = C'` and `G = G'`. -/
theorem newConfigMd5_eq_iff (env : Env) (cfg cfg' : ServerConfig) (C G C' G' : Bytes)
    (hC : env.marshalServerConfig cfg = .ok C)
    (hC' : env.marshalServerConfig cfg' = .ok C')
    (hpf : ∀ (x y : ServerConfig) (bx bz : Bytes), env.marshalServerConfig x = .ok bx →
      env.marshalServerConfig y = .ok bz → bx <+: bz → bx = bz)
    (hcf : env.md5Sum (C ++ G) = env.md5Sum (C' ++ G') → C ++ G = C' ++ G') :
    (newConfigMd5 env C G = newConfigMd5 env C' G' ↔ C = C' ∧ G = G')
    ∧ ∀ (s : Store) (serverId : Int) (updateMd5 : Bool), 0 < serverId →
        s.serverGlobalConfig = G' → findConfigMd5 s serverId = newConfigMd5 env C G →
        ((UpdateServerConfig env s serverId C' updateMd5).1 = .ok false
          ↔ C = C' ∧ G = G') := by
  have hiff : newConfigMd5 env C G = newConfigMd5 env C' G' ↔ C = C' ∧ G = G' := by
    rw [newConfigMd5_eq_iff_append env C G C' G' hcf]
    constructor
    · intro h
      have h1 : C <+: C' ++ G' := ⟨G, h⟩
      have h2 : C' <+: C' ++ G' := ⟨G', rfl⟩
      have hCC : C = C' := by
        rcases List.prefix_or_prefix_of_prefix h1 h2 with hp | hp
        · exact hpf cfg cfg' C C' hC hC' hp
        · exact (hpf cfg' cfg C' C hC' hC hp).symm
      subst hCC
      exact ⟨rfl, List.append_cancel_left h⟩
    · rintro ⟨h1, h2⟩
      rw [h1, h2]
  refine ⟨hiff, ?_⟩
  intro s serverId updateMd5 hid hs hold
  rw [← hiff]
  by_cases h : newConfigMd5 env C G = newConfigMd5 env C' G'
  · rw [UpdateServerConfig_eq_of_same env s serverId C' updateMd5 hid (by rw [hold, hs, h])]
    exact ⟨fun _ => h, fun _ => rfl⟩
  · rw [UpdateServerConfig_eq_of_diff env s serverId C' updateMd5 hid
      (by rw [hold, hs]; exact h)]
    exact ⟨(fun hx => nomatch hx), fun hx => absurd hx h⟩

theorem newConfigMd5_eq_iff_witness :
    flagEnv.marshalServerConfig (sampleConfig true) = .ok [1]
    ∧ flagEnv.marshalServerConfig (sampleConfig false) = .ok [0]
    ∧ (newConfigMd5 flagEnv [1] [2] = newConfigMd5 flagEnv [0] [2]
      ↔ ([1] : Bytes) = [0] ∧ ([2] : Bytes) = [2]) :=
  ⟨rfl, rfl,
   (newConfigMd5_eq_iff flagEnv (sampleConfig true) (sampleConfig false) [1] [2] [0] [2]
    rfl rfl
    (fun x y bx bz hx hy hp => by
      have hx' : (if x.isOn then ([1] : Bytes) else [0]) = bx := Except.ok.inj hx
      have hy' : (if y.isOn then ([1] : Bytes) else [0]) = bz := Except.ok.inj hy
      subst hx' hy'
      revert hp
      cases x.isOn <;> cases y.isOn <;> simp)
    (by decide)).1⟩

/-! ## Notifications -/

theorem string_length_eq_zero (x : String) : x.length = 0 ↔ x = "" := by
  constructor
  · intro h
    have hd : x.data = [] := List.length_eq_zero.mp h
    exact String.ext hd
  · intro h
    rw [h]
    rfl

theorem FindServerClusterId_updateServer (s : Store) (serverId target : Int)
    (f : Server → Server) (hf : ∀ r, (f r).id = r.id) (hc : ∀ r, (f r).clusterId = r.clusterId) :
    FindServerClusterId (updateServer s serverId f) target = FindServerClusterId s target := by
  unfold FindServerClusterId
  rw [findServer_updateServer s serverId target f hf]
  cases findServer s target with
  | none => rfl
  | some row =>
    by_cases h : row.id = serverId <;> simp [h, hc]

theorem NotifyDNSUpdate_fst (s : Store) (serverId : Int) :
    (NotifyDNSUpdate s serverId).1 = .ok () := by
  unfold NotifyDNSUpdate
  simp only
  split
  · rfl
  · split
    · rfl
    · split <;> rfl

theorem NotifyDNSUpdate_eq_task (s : Store) (serverId : Int) (c : NodeCluster)
    (hpos : 0 < FindServerClusterId s serverId)
    (hc : FindClusterDNSInfo s (FindServerClusterId s serverId) = some c)
    (hname : c.dnsName ≠ "") (hdom : 0 < c.dnsDomainId) :
    NotifyDNSUpdate s serverId
      = (.ok (), { s with dnsTasks := s.dnsTasks ++ [{ clusterId := 0, serverId := serverId,
                                                        nodeId := 0, taskType := .serverChange }] }) := by
  have hlen : ¬ c.dnsName.length = 0 := fun h => hname ((string_length_eq_zero _).mp h)
  simp [NotifyDNSUpdate, not_le.mpr hpos, hc, hlen, not_le.mpr hdom, CreateServerTask]

theorem NotifyDNSUpdate_eq_noop (s : Store) (serverId : Int)
    (h : FindServerClusterId s serverId ≤ 0
      ∨ FindClusterDNSInfo s (FindServerClusterId s serverId) = none
      ∨ ∃ c, FindClusterDNSInfo s (FindServerClusterId s serverId) = some c
          ∧ (c.dnsName = "" ∨ c.dnsDomainId ≤ 0)) :
    NotifyDNSUpdate s serverId = (.ok (), s) := by
  unfold NotifyDNSUpdate
  simp only
  split
  · rfl
  · next hpos =>
    rcases h with h | h | ⟨c, hc, h⟩
    · exact absurd h hpos
    · rw [h]
    · rw [hc]
      have : c.dnsName.length = 0 ∨ c.dnsDomainId ≤ 0 :=
        h.imp (fun h => (string_length_eq_zero _).mpr h) id
      simp [this]

/-- C8: `NotifyDNSUpdate(serverId)` never returns an error; it appends exactly one
server-scoped DNS task of type server-change for that server when the server row has
`clusterId > 0` and that cluster exists with a non-empty `dnsName` and `dnsDomainId > 0`,
and leaves the store untouched in every other case (no server row, `clusterId <= 0`,
cluster missing, empty `dnsName`, `dnsDomainId <= 0`). Rewriting the `state` column of any
server changes neither the outcome nor the DNS tasks. -/
theorem NotifyDNSUpdate_spec (s : Store) (serverId : Int) :
    (NotifyDNSUpdate s serverId).1 = .ok ()
    ∧ ((∃ row c, findServer s serverId = some row ∧ 0 < row.clusterId
          ∧ FindClusterDNSInfo s row.clusterId = some c ∧ c.dnsName ≠ "" ∧ 0 < c.dnsDomainId) →
        (NotifyDNSUpdate s serverId).2
          = { s with dnsTasks := s.dnsTasks ++ [{ clusterId := 0, serverId := serverId,
                                                  nodeId := 0, taskType := .serverChange }] })
    ∧ (¬ (∃ row c, findServer s serverId = some row ∧ 0 < row.clusterId
          ∧ FindClusterDNSInfo s row.clusterId = some c ∧ c.dnsName ≠ "" ∧ 0 < c.dnsDomainId) →
        (NotifyDNSUpdate s serverId).2 = s)
    ∧ (∀ (target state : Int),
        (NotifyDNSUpdate (updateServer s target (fun r => { r with state := state })) serverId).1
          = (NotifyDNSUpdate s serverId).1
        ∧ (NotifyDNSUpdate (updateServer s target (fun r => { r with state := state }))
            serverId).2.dnsTasks = (NotifyDNSUpdate s serverId).2.dnsTasks) := by
  refine ⟨NotifyDNSUpdate_fst s serverId, ?_, ?_, ?_⟩
  · rintro ⟨row, c, hrow, hpos, hc, hname, hdom⟩
    have hcid : FindServerClusterId s serverId = row.clusterId := by
      simp [FindServerClusterId, hrow]
    rw [NotifyDNSUpdate_eq_task s serverId c (hcid ▸ hpos) (hcid ▸ hc) hname hdom]
  · intro hno
    rw [NotifyDNSUpdate_eq_noop s serverId]
    by_cases hpos : FindServerClusterId s serverId ≤ 0
    · exact Or.inl hpos
    · right
      cases hc : FindClusterDNSInfo s (FindServerClusterId s serverId) with
      | none => exact Or.inl rfl
      | some c =>
        right
        refine ⟨c, rfl, ?_⟩
        by_contra hcon
        push_neg at hcon
        apply hno
        cases hrow : findServer s serverId with
        | none => simp [FindServerClusterId, hrow] at hpos
        | some row =>
          have hcid : FindServerClusterId s serverId = row.clusterId := by
            simp [FindServerClusterId, hrow]
          exact ⟨row, c, rfl, by omega, hcid ▸ hc, hcon.1, hcon.2⟩
  · intro target state
    have hcid := FindServerClusterId_updateServer s target serverId
      (fun r => { r with state := state }) (fun _ => rfl) (fun _ => rfl)
    refine ⟨by rw [NotifyDNSUpdate_fst, NotifyDNSUpdate_fst], ?_⟩
    unfold NotifyDNSUpdate
    simp only [hcid]
    split
    · rfl
    · show (match FindClusterDNSInfo s (FindServerClusterId s serverId) with
          | none => _
          | some dnsInfo => _ : Res Unit).2.dnsTasks = _
      cases FindClusterDNSInfo s (FindServerClusterId s serverId) with
      | none => rfl
      | some c =>
        simp only
        split <;> rfl

theorem NotifyDNSUpdate_spec_witness :
    (NotifyDNSUpdate (sampleStore "edge" 3) 1).2
      = { sampleStore "edge" 3 with dnsTasks := [{ clusterId := 0, serverId := 1, nodeId := 0,
                                                    taskType := .serverChange }] } :=
  (NotifyDNSUpdate_spec (sampleStore "edge" 3) 1).2.1
    ⟨sampleServer 1 1 "", sampleCluster 1 "edge" 3, by decide, by decide, by decide,
      by decide, by decide⟩

theorem FindEnabledServer_disabled (s : Store) (serverId : Int) :
    FindEnabledServer (updateServer s serverId (fun r => { r with state := ServerStateDisabled }))
      serverId = none := by
  unfold FindEnabledServer updateServer
  rw [List.find?_eq_none]
  intro x hx
  simp only [List.mem_map] at hx
  obtain ⟨r, _, rfl⟩ := hx
  by_cases h : r.id = serverId
  · simp [h, ServerStateDisabled, ServerStateEnabled]
  · simp [h]

theorem NotifyUpdate_of_not_enabled (env : Env) (s : Store) (serverId : Int)
    (h : FindEnabledServer s serverId = none) :
    NotifyUpdate env s serverId = notifyUpdateTask s serverId := by
  simp [NotifyUpdate, RenewServerConfig, ComposeServerConfig, h]

theorem notifyUpdateTask_eq_of (s : Store) (serverId clusterId : Int)
    (hcid : FindServerClusterId s serverId = clusterId) (h : clusterId ≠ 0) :
    notifyUpdateTask s serverId
      = (.ok (), { s with nodeTasks := s.nodeTasks ++ [{ clusterId := clusterId, nodeId := 0,
                                                          taskType := .configChanged }] }) := by
  subst hcid
  simp [notifyUpdateTask, h, CreateClusterTask]

theorem notifyUpdateTask_eq (s : Store) (serverId : Int)
    (h : FindServerClusterId s serverId ≠ 0) :
    notifyUpdateTask s serverId
      = (.ok (), { s with nodeTasks := s.nodeTasks ++ [{ clusterId := FindServerClusterId s serverId,
                                                          nodeId := 0,
                                                          taskType := .configChanged }] }) :=
  notifyUpdateTask_eq_of s serverId _ rfl h

/-- C9 (counterexample): the cluster of server 1 has a DNS domain assigned (`dnsDomainId = 5`)
but an empty `dnsName`; `DisableServer` appends the config-changed task and no DNS task. -/
theorem DisableServer_counterexample :
    FindClusterDNSInfo (sampleStore "" 5) 1 = some (sampleCluster 1 "" 5)
    ∧ (DisableServer sampleEnv (sampleStore "" 5) 1).1 = .ok ()
    ∧ (DisableServer sampleEnv (sampleStore "" 5) 1).2.nodeTasks
        = [{ clusterId := 1, nodeId := 0, taskType := .configChanged }]
    ∧ (DisableServer sampleEnv (sampleStore "" 5) 1).2.dnsTasks = [] := by
  decide

/-- C9 (amended): `DisableServer` on a server assigned to an existing cluster
(`clusterId > 0`) returns no error and appends one config-changed task for that cluster;
it appends no DNS task when the cluster has no DNS domain assigned (`dnsDomainId <= 0`) or
an empty `dnsName`, and one server-change DNS task for the server when the cluster has a
DNS domain assigned and a non-empty `dnsName`. -/
theorem DisableServer_tasks (env : Env) (s : Store) (serverId : Int) (row : Server)
    (c : NodeCluster) (hrow : findServer s serverId = some row) (hpos : 0 < row.clusterId)
    (hc : FindClusterDNSInfo s row.clusterId = some c) :
    (DisableServer env s serverId).1 = .ok ()
    ∧ (DisableServer env s serverId).2.nodeTasks
        = s.nodeTasks ++ [{ clusterId := row.clusterId, nodeId := 0, taskType := .configChanged }]
    ∧ (c.dnsDomainId ≤ 0 ∨ c.dnsName = "" → (DisableServer env s serverId).2.dnsTasks = s.dnsTasks)
    ∧ (0 < c.dnsDomainId → c.dnsName ≠ "" →
        (DisableServer env s serverId).2.dnsTasks
          = s.dnsTasks ++ [{ clusterId := 0, serverId := serverId, nodeId := 0,
                              taskType := .serverChange }]) := by
  have hcid0 : FindServerClusterId s serverId = row.clusterId := by
    simp [FindServerClusterId, hrow]
  have hcid1 : FindServerClusterId
      (updateServer s serverId (fun r => { r with state := ServerStateDisabled })) serverId
        = row.clusterId := by
    rw [FindServerClusterId_updateServer s serverId serverId
      (fun r => { r with state := ServerStateDisabled }) (fun _ => rfl) (fun _ => rfl), hcid0]
  have hnu : NotifyUpdate env
      (updateServer s serverId (fun r => { r with state := ServerStateDisabled })) serverId
        = (.ok (), { updateServer s serverId (fun r => { r with state := ServerStateDisabled }) with
            nodeTasks := s.nodeTasks ++ [{ clusterId := row.clusterId, nodeId := 0,
                                            taskType := .configChanged }] }) := by
    rw [NotifyUpdate_of_not_enabled env _ serverId (FindEnabledServer_disabled s serverId),
      notifyUpdateTask_eq _ serverId (by rw [hcid1]; omega), hcid1]
    rfl
  have hds : DisableServer env s serverId
      = NotifyDNSUpdate
          { updateServer s serverId (fun r => { r with state := ServerStateDisabled }) with
            nodeTasks := s.nodeTasks ++ [{ clusterId := row.clusterId, nodeId := 0,
                                            taskType := .configChanged }] } serverId := by
    unfold DisableServer
    simp only [hnu]
  have hcid2 : FindServerClusterId
      { updateServer s serverId (fun r => { r with state := ServerStateDisabled }) with
        nodeTasks := s.nodeTasks ++ [{ clusterId := row.clusterId, nodeId := 0,
                                        taskType := .configChanged }] } serverId
        = row.clusterId := hcid1
  have hc2 : FindClusterDNSInfo
      { updateServer s serverId (fun r => { r with state := ServerStateDisabled }) with
        nodeTasks := s.nodeTasks ++ [{ clusterId := row.clusterId, nodeId := 0,
                                        taskType := .configChanged }] }
      (FindServerClusterId
        { updateServer s serverId (fun r => { r with state := ServerStateDisabled }) with
          nodeTasks := s.nodeTasks ++ [{ clusterId := row.clusterId, nodeId := 0,
                                          taskType := .configChanged }] } serverId) = some c := by
    rw [hcid2]
    exact hc
  rw [hds]
  refine ⟨NotifyDNSUpdate_fst _ _, ?_, ?_, ?_⟩
  · by_cases hno : c.dnsName = "" ∨ c.dnsDomainId ≤ 0
    · rw [NotifyDNSUpdate_eq_noop _ serverId (Or.inr (Or.inr ⟨c, hc2, hno⟩))]
    · push_neg at hno
      rw [NotifyDNSUpdate_eq_task _ serverId c (by rw [hcid2]; exact hpos) hc2 hno.1 hno.2]
  · intro hno
    rw [NotifyDNSUpdate_eq_noop _ serverId (Or.inr (Or.inr ⟨c, hc2, hno.symm⟩))]
    rfl
  · intro hdom hname
    rw [NotifyDNSUpdate_eq_task _ serverId c (by rw [hcid2]; exact hpos) hc2 hname hdom]
    rfl

theorem DisableServer_tasks_witness :
    (DisableServer sampleEnv (sampleStore "edge" 3) 1).2.nodeTasks
        = [{ clusterId := 1, nodeId := 0, taskType := .configChanged }]
    ∧ (DisableServer sampleEnv (sampleStore "edge" 3) 1).2.dnsTasks
        = [{ clusterId := 0, serverId := 1, nodeId := 0, taskType := .serverChange }] :=
  have h := DisableServer_tasks sampleEnv (sampleStore "edge" 3) 1 (sampleServer 1 1 "")
    (sampleCluster 1 "edge" 3) (by decide) (by decide) (by decide)
  ⟨h.2.1, h.2.2.2 (by decide) (by decide)⟩

/-! ## Recomposition does not depend on what the change gate writes -/

theorem FindEnabledServer_configOp (env : Env) (s : Store) (serverId target : Int)
    (data : Bytes) (md5 : String) (b : Bool) :
    FindEnabledServer (updateServer s serverId (configOp env data md5 b)) target
      = (FindEnabledServer s target).map
          (fun r => if r.id = serverId then configOp env data md5 b r else r) :=
  find_map_update s.servers serverId (configOp env data md5 b)
    (fun r => decide (r.id = target ∧ r.state = ServerStateEnabled)) (fun _ => rfl)

theorem ComposeServerConfig_configOp (env : Env) (s : Store) (serverId target : Int)
    (data : Bytes) (md5 : String) (b : Bool) :
    ComposeServerConfig env (updateServer s serverId (configOp env data md5 b)) target
      = ComposeServerConfig env s target := by
  unfold ComposeServerConfig
  rw [FindEnabledServer_configOp]
  cases FindEnabledServer s target with
  | none => rfl
  | some row =>
    by_cases h : row.id = serverId
    · simp only [Option.map_some', h, if_true]
      rfl
    · simp only [Option.map_some', h, if_false]
      rfl

theorem findServer_of_enabled {s : Store} {serverId : Int} {row : Server}
    (h : FindEnabledServer s serverId = some row) : ∃ r, findServer s serverId = some r := by
  have hmem := List.mem_of_find?_eq_some h
  have hp := List.find?_some h
  simp only [decide_eq_true_eq] at hp
  cases hf : findServer s serverId with
  | some r => exact ⟨r, rfl⟩
  | none =>
    unfold findServer at hf
    rw [List.find?_eq_none] at hf
    have := hf row hmem
    simp [hp.1] at this

/-- What `RenewServerConfig` returns and leaves behind: an error with the store as it was,
or the outcome of `UpdateServerConfig` on the composed and encoded config. -/
theorem RenewServerConfig_cases (env : Env) (s : Store) (serverId : Int) (b : Bool) :
    (∃ e, RenewServerConfig env s serverId b = (.error e, s))
    ∨ (∃ cfg data, ComposeServerConfig env s serverId = .ok cfg
        ∧ env.marshalServerConfig cfg = .ok data
        ∧ RenewServerConfig env s serverId b = UpdateServerConfig env s serverId data b) := by
  unfold RenewServerConfig
  cases hc : ComposeServerConfig env s serverId with
  | error e => exact Or.inl ⟨e, rfl⟩
  | ok cfg =>
    cases hm : env.marshalServerConfig cfg with
    | error e => exact Or.inl ⟨e, by simp only [hm]⟩
    | ok data => exact Or.inr ⟨cfg, data, rfl, hm, by simp only [hm]⟩

theorem UpdateServerConfig_cases (env : Env) (s : Store) (serverId : Int) (C : Bytes)
    (b : Bool) :
    (∃ e, e ≠ Err.notFound ∧ UpdateServerConfig env s serverId C b = (.error e, s))
    ∨ (0 < serverId ∧ findConfigMd5 s serverId = newConfigMd5 env C s.serverGlobalConfig
        ∧ UpdateServerConfig env s serverId C b = (.ok false, s))
    ∨ (0 < serverId ∧ findConfigMd5 s serverId ≠ newConfigMd5 env C s.serverGlobalConfig
        ∧ UpdateServerConfig env s serverId C b
            = (.ok true, updateServer s serverId
                (configOp env C (newConfigMd5 env C s.serverGlobalConfig) b))) := by
  by_cases hid : 0 < serverId
  · by_cases hmd5 : findConfigMd5 s serverId = newConfigMd5 env C s.serverGlobalConfig
    · exact Or.inr (Or.inl ⟨hid, hmd5, UpdateServerConfig_eq_of_same env s serverId C b hid hmd5⟩)
    · exact Or.inr (Or.inr ⟨hid, hmd5, UpdateServerConfig_eq_of_diff env s serverId C b hid hmd5⟩)
  · left
    refine ⟨.msg "serverId should not be smaller than 0", by simp, ?_⟩
    simp [UpdateServerConfig, not_lt.mp hid]

/-- A second `RenewServerConfig` right after one that persisted the hash: an error left
the store as it was, and after a success the second call reports no change. -/
theorem RenewServerConfig_again (env : Env) (s : Store) (serverId : Int) :
    (∃ e, RenewServerConfig env s serverId true = (.error e, s))
    ∨ (∃ b, (RenewServerConfig env s serverId true).1 = .ok b
        ∧ RenewServerConfig env (RenewServerConfig env s serverId true).2 serverId true
            = (.ok false, (RenewServerConfig env s serverId true).2)) := by
  rcases RenewServerConfig_cases env s serverId true with h | ⟨cfg, data, hc, hm, hr⟩
  · exact Or.inl h
  · rcases UpdateServerConfig_cases env s serverId data true with
      ⟨e, _, he⟩ | ⟨_, _, hsame⟩ | ⟨hid, _, hdiff⟩
    · exact Or.inl ⟨e, by rw [hr, he]⟩
    · right
      refine ⟨false, by rw [hr, hsame], ?_⟩
      rw [hr, hsame]
      show RenewServerConfig env s serverId true = _
      rw [hr, hsame]
    · right
      refine ⟨true, by rw [hr, hdiff], ?_⟩
      rw [hr, hdiff]
      show RenewServerConfig env (updateServer s serverId _) serverId true = _
      have hrow : ∃ r, findServer s serverId = some r := by
        unfold ComposeServerConfig at hc
        cases hfe : FindEnabledServer s serverId with
        | none => simp [hfe] at hc
        | some row => exact findServer_of_enabled hfe
      obtain ⟨row, hrow⟩ := hrow
      unfold RenewServerConfig
      rw [ComposeServerConfig_configOp, hc]
      simp only [hm]
      exact UpdateServerConfig_eq_of_same env _ serverId data true hid
        (findConfigMd5_after_persist env s serverId data hrow)

/-- The rows `RenewServerConfig` leaves behind: the old ones, or the old ones with the
operator of the change gate applied to the server. -/
theorem RenewServerConfig_store (env : Env) (s : Store) (serverId : Int) (b : Bool) :
    (RenewServerConfig env s serverId b).2 = s
    ∨ ∃ data md5, (RenewServerConfig env s serverId b).2
        = updateServer s serverId (configOp env data md5 b) := by
  rcases RenewServerConfig_cases env s serverId b with ⟨e, h⟩ | ⟨cfg, data, _, _, hr⟩
  · exact Or.inl (by rw [h])
  · rcases UpdateServerConfig_cases env s serverId data b with
      ⟨e, _, he⟩ | ⟨_, _, hsame⟩ | ⟨_, _, hdiff⟩
    · exact Or.inl (by rw [hr, he])
    · exact Or.inl (by rw [hr, hsame])
    · exact Or.inr ⟨data, _, by rw [hr, hdiff]⟩

theorem RenewServerConfig_clusterId (env : Env) (s : Store) (serverId target : Int) (b : Bool) :
    FindServerClusterId (RenewServerConfig env s serverId b).2 target
      = FindServerClusterId s target := by
  rcases RenewServerConfig_store env s serverId b with h | ⟨data, md5, h⟩
  · rw [h]
  · rw [h]
    exact FindServerClusterId_updateServer s serverId target (configOp env data md5 b)
      (fun _ => rfl) (fun _ => rfl)

theorem RenewServerConfig_nodeTasks (env : Env) (s : Store) (serverId : Int) (b : Bool) :
    (RenewServerConfig env s serverId b).2.nodeTasks = s.nodeTasks := by
  rcases RenewServerConfig_store env s serverId b with h | ⟨data, md5, h⟩
  · rw [h]
  · rw [h]
    rfl

/-- Node tasks play no part in `RenewServerConfig`. -/
theorem RenewServerConfig_with_nodeTasks (env : Env) (s : Store) (serverId : Int) (b : Bool)
    (tasks : List NodeTask) :
    RenewServerConfig env { s with nodeTasks := tasks } serverId b
      = ((RenewServerConfig env s serverId b).1,
          { (RenewServerConfig env s serverId b).2 with nodeTasks := tasks }) := by
  unfold RenewServerConfig
  show (match ComposeServerConfig env s serverId with
      | .error e => _
      | .ok serverConfig => _ : Res Bool) = _
  cases ComposeServerConfig env s serverId with
  | error e => rfl
  | ok cfg =>
    simp only
    cases env.marshalServerConfig cfg with
    | error e => rfl
    | ok data =>
      simp only
      unfold UpdateServerConfig
      by_cases hid : serverId ≤ 0
      · simp only [hid, if_true]
      · simp only [hid, if_false, ReadSetting]
        show (if findConfigMd5 s serverId = newConfigMd5 env data s.serverGlobalConfig then _
          else _ : Res Bool) = _
        split <;> rfl

/-- When `NotifyUpdate` returns no error, it is the task step run on the store that
`RenewServerConfig` left behind, and the recomposition ended well or in not-found. -/
theorem NotifyUpdate_of_ok (env : Env) (s : Store) (serverId : Int)
    (hok : (NotifyUpdate env s serverId).1 = .ok ()) :
    NotifyUpdate env s serverId
        = notifyUpdateTask (RenewServerConfig env s serverId true).2 serverId
    ∧ ((RenewServerConfig env s serverId true).1 = .error .notFound
        ∨ ∃ b, (RenewServerConfig env s serverId true).1 = .ok b) := by
  unfold NotifyUpdate at hok ⊢
  rcases hR : RenewServerConfig env s serverId true with ⟨r, s1⟩
  rw [hR] at hok
  cases r with
  | error e =>
    by_cases he : e = Err.notFound
    · subst he
      simp
    · simp [he] at hok
  | ok b => simp

theorem NotifyUpdate_of_renew (env : Env) (s : Store) (serverId : Int)
    (h : (RenewServerConfig env s serverId true).1 = .error .notFound
        ∨ ∃ b, (RenewServerConfig env s serverId true).1 = .ok b) :
    NotifyUpdate env s serverId
      = notifyUpdateTask (RenewServerConfig env s serverId true).2 serverId := by
  unfold NotifyUpdate
  rcases hR : RenewServerConfig env s serverId true with ⟨r, s1⟩
  rw [hR] at h
  rcases h with h | ⟨b, h⟩
  · simp only at h
    subst h
    simp
  · simp only at h
    subst h
    simp

theorem RenewServerConfig_settled (env : Env) (s : Store) (serverId : Int)
    (h : (RenewServerConfig env s serverId true).1 = .error .notFound
        ∨ ∃ b, (RenewServerConfig env s serverId true).1 = .ok b) :
    (RenewServerConfig env (RenewServerConfig env s serverId true).2 serverId true).2
        = (RenewServerConfig env s serverId true).2
    ∧ ((RenewServerConfig env (RenewServerConfig env s serverId true).2 serverId true).1
          = .error .notFound
        ∨ ∃ b, (RenewServerConfig env (RenewServerConfig env s serverId true).2 serverId true).1
            = .ok b) := by
  rcases RenewServerConfig_again env s serverId with ⟨e, he⟩ | ⟨b, _, hb⟩
  · rw [he] at h ⊢
    simp only [he]
    exact ⟨trivial, h⟩
  · rw [hb]
    exact ⟨rfl, Or.inr ⟨false, rfl⟩⟩

/-- The outcome of a `NotifyUpdate` that returns no error, for a server whose stored
`clusterId` is not 0: the store `RenewServerConfig` left behind plus one task. -/
theorem NotifyUpdate_eq_of_ok (env : Env) (s : Store) (serverId : Int)
    (hc : FindServerClusterId s serverId ≠ 0)
    (hok : (NotifyUpdate env s serverId).1 = .ok ()) :
    NotifyUpdate env s serverId
      = (.ok (), { (RenewServerConfig env s serverId true).2 with
          nodeTasks := s.nodeTasks ++ [{ clusterId := FindServerClusterId s serverId,
                                         nodeId := 0, taskType := .configChanged }] }) := by
  rw [(NotifyUpdate_of_ok env s serverId hok).1,
    notifyUpdateTask_eq _ serverId (by rw [RenewServerConfig_clusterId]; exact hc),
    RenewServerConfig_clusterId, RenewServerConfig_nodeTasks]

/-- C4 (counterexample): two `NotifyUpdate` calls for server 1 with nothing changed in
between; both return no error, the second leaves the server rows as the first left them,
and yet each of the two appends a config-changed task for cluster 1. -/
theorem NotifyUpdate_twice_counterexample :
    (NotifyUpdate sampleEnv (sampleStore "" 0) 1).1 = .ok ()
    ∧ (NotifyUpdate sampleEnv (NotifyUpdate sampleEnv (sampleStore "" 0) 1).2 1).1 = .ok ()
    ∧ (NotifyUpdate sampleEnv (NotifyUpdate sampleEnv (sampleStore "" 0) 1).2 1).2.servers
        = (NotifyUpdate sampleEnv (sampleStore "" 0) 1).2.servers
    ∧ (NotifyUpdate sampleEnv (sampleStore "" 0) 1).2.nodeTasks
        = [{ clusterId := 1, nodeId := 0, taskType := .configChanged }]
    ∧ (NotifyUpdate sampleEnv (NotifyUpdate sampleEnv (sampleStore "" 0) 1).2 1).2.nodeTasks
        = [{ clusterId := 1, nodeId := 0, taskType := .configChanged },
           { clusterId := 1, nodeId := 0, taskType := .configChanged }] := by
  decide

/-- C4 (amended): `NotifyUpdate` recomposes and rehashes first, which gates the config
write and the version bump only; every call that returns no error for a server whose
stored `clusterId` is not 0 appends one config-changed task for that cluster. Called twice
with nothing changed in between, the second call returns no error, leaves the server rows
as the first call left them, and appends the task a second time. -/
theorem NotifyUpdate_twice (env : Env) (s : Store) (serverId : Int)
    (hc : FindServerClusterId s serverId ≠ 0)
    (hok : (NotifyUpdate env s serverId).1 = .ok ()) :
    (NotifyUpdate env s serverId).2.nodeTasks
        = s.nodeTasks ++ [{ clusterId := FindServerClusterId s serverId, nodeId := 0,
                             taskType := .configChanged }]
    ∧ (NotifyUpdate env (NotifyUpdate env s serverId).2 serverId).1 = .ok ()
    ∧ (NotifyUpdate env (NotifyUpdate env s serverId).2 serverId).2.servers
        = (NotifyUpdate env s serverId).2.servers
    ∧ (NotifyUpdate env (NotifyUpdate env s serverId).2 serverId).2.nodeTasks
        = s.nodeTasks ++ [{ clusterId := FindServerClusterId s serverId, nodeId := 0,
                             taskType := .configChanged },
                           { clusterId := FindServerClusterId s serverId, nodeId := 0,
                             taskType := .configChanged }] := by
  have h1 := NotifyUpdate_eq_of_ok env s serverId hc hok
  have hres := (NotifyUpdate_of_ok env s serverId hok).2
  obtain ⟨hst, hres2⟩ := RenewServerConfig_settled env s serverId hres
  have hcl : FindServerClusterId (RenewServerConfig env s serverId true).2 serverId
      = FindServerClusterId s serverId := RenewServerConfig_clusterId env s serverId serverId true
  have hrenew := RenewServerConfig_with_nodeTasks env (RenewServerConfig env s serverId true).2
    serverId true (s.nodeTasks ++ [{ clusterId := FindServerClusterId s serverId, nodeId := 0,
                                     taskType := .configChanged }])
  have h2 : NotifyUpdate env
      { (RenewServerConfig env s serverId true).2 with
        nodeTasks := s.nodeTasks ++ [{ clusterId := FindServerClusterId s serverId, nodeId := 0,
                                        taskType := .configChanged }] } serverId
      = (.ok (), { (RenewServerConfig env s serverId true).2 with
          nodeTasks := (s.nodeTasks ++ [{ clusterId := FindServerClusterId s serverId,
                                           nodeId := 0, taskType := .configChanged }])
            ++ [{ clusterId := FindServerClusterId s serverId, nodeId := 0,
                  taskType := .configChanged }] }) := by
    rw [NotifyUpdate_of_renew env _ serverId (by rw [hrenew]; exact hres2), hrenew]
    simp only [hst]
    exact notifyUpdateTask_eq_of _ serverId _ hcl hc
  rw [h1]
  simp only [h2]
  simp

theorem NotifyUpdate_twice_witness :
    (NotifyUpdate sampleEnv (NotifyUpdate sampleEnv (sampleStore "" 0) 1).2 1).2.nodeTasks
      = [] ++ [{ clusterId := 1, nodeId := 0, taskType := .configChanged },
               { clusterId := 1, nodeId := 0, taskType := .configChanged }] :=
  (NotifyUpdate_twice sampleEnv (sampleStore "" 0) 1 (by decide) (by decide)).2.2.2

/-! ## `CreateServer` -/

theorem foldl_max_ge (ids : List Int) (a : Int) :
    a ≤ ids.foldl max a ∧ ∀ x ∈ ids, x ≤ ids.foldl max a := by
  induction ids generalizing a with
  | nil => simp
  | cons y ys ih =>
    simp only [List.foldl_cons, List.mem_cons]
    obtain ⟨h1, h2⟩ := ih (max a y)
    refine ⟨le_trans (le_max_left a y) h1, ?_⟩
    rintro x (rfl | hx)
    · exact le_trans (le_max_right a x) h1
    · exact h2 x hx

theorem nextId_pos (ids : List Int) : 0 < nextId ids := by
  have := (foldl_max_ge ids 0).1
  unfold nextId
  omega

theorem nextId_fresh (ids : List Int) : ∀ x ∈ ids, x ≠ nextId ids := by
  intro x hx
  have := (foldl_max_ge ids 0).2 x hx
  unfold nextId
  omega

theorem GenDNSName_spec (s : Store) (draws : List String) (dnsName : String)
    (h : GenDNSName s draws = some dnsName) :
    dnsName ∈ draws ∧ ∀ r ∈ s.servers, r.dnsName ≠ dnsName := by
  induction draws with
  | nil => simp [GenDNSName] at h
  | cons d rest ih =>
    unfold GenDNSName at h
    split at h
    · exact ⟨List.mem_cons_of_mem _ (ih h).1, (ih h).2⟩
    · next hany =>
      cases h
      refine ⟨List.mem_cons_self _ _, ?_⟩
      intro r hr heq
      apply hany
      rw [List.any_eq_true]
      exact ⟨r, hr, by simp [heq]⟩

theorem findServer_congr {s t : Store} (h : s.servers = t.servers) (serverId : Int) :
    findServer s serverId = findServer t serverId := by
  unfold findServer
  rw [h]

theorem findServer_insert (s : Store) (row : Server)
    (hfresh : ∀ r ∈ s.servers, r.id ≠ row.id) :
    findServer { s with servers := s.servers ++ [row] } row.id = some row := by
  unfold findServer
  have hnone : s.servers.find? (fun r => decide (r.id = row.id)) = none := by
    rw [List.find?_eq_none]
    intro r hr
    simpa using hfresh r hr
  simp [List.find?_append, hnone]

theorem notifyUpdateTask_frame (s : Store) (serverId : Int) :
    (notifyUpdateTask s serverId).2.servers = s.servers
    ∧ (notifyUpdateTask s serverId).2.clusters = s.clusters
    ∧ (notifyUpdateTask s serverId).2.serverGlobalConfig = s.serverGlobalConfig := by
  unfold notifyUpdateTask
  simp only
  split <;> exact ⟨rfl, rfl, rfl⟩

theorem NotifyDNSUpdate_frame (s : Store) (serverId : Int) :
    (NotifyDNSUpdate s serverId).2.servers = s.servers
    ∧ (NotifyDNSUpdate s serverId).2.clusters = s.clusters
    ∧ (NotifyDNSUpdate s serverId).2.serverGlobalConfig = s.serverGlobalConfig := by
  unfold NotifyDNSUpdate
  simp only
  split
  · exact ⟨rfl, rfl, rfl⟩
  · split
    · exact ⟨rfl, rfl, rfl⟩
    · split <;> exact ⟨rfl, rfl, rfl⟩

theorem ComposeServerConfig_congr (env : Env) {s t : Store} (h1 : s.servers = t.servers)
    (h2 : s.clusters = t.clusters) (serverId : Int) :
    ComposeServerConfig env s serverId = ComposeServerConfig env t serverId := by
  unfold ComposeServerConfig FindEnabledServer
  rw [h1]
  cases List.find? (fun r => decide (r.id = serverId ∧ r.state = ServerStateEnabled)) t.servers with
  | none => rfl
  | some row =>
    simp only
    unfold composeFromRow composeAliasServerNames FindClusterDNSInfo
    rw [h2]

/-- The value `RenewServerConfig` returns depends on the server rows, the cluster rows and
the global settings only. -/
theorem RenewServerConfig_fst_congr (env : Env) {s t : Store} (h1 : s.servers = t.servers)
    (h2 : s.clusters = t.clusters) (h3 : s.serverGlobalConfig = t.serverGlobalConfig)
    (serverId : Int) (b : Bool) :
    (RenewServerConfig env s serverId b).1 = (RenewServerConfig env t serverId b).1 := by
  unfold RenewServerConfig
  rw [ComposeServerConfig_congr env h1 h2 serverId]
  cases ComposeServerConfig env t serverId with
  | error e => rfl
  | ok cfg =>
    simp only
    cases env.marshalServerConfig cfg with
    | error e => rfl
    | ok data =>
      simp only
      unfold UpdateServerConfig findConfigMd5 ReadSetting
      rw [findServer_congr h1 serverId, h3]
      simp only
      split
      · rfl
      · split <;> rfl

theorem newConfigMd5_ne_empty (env : Env) (hlen : ∀ bs, (env.md5Sum bs).length = 16)
    (C G : Bytes) : "" ≠ newConfigMd5 env C G := by
  intro h
  have := hexLower_eq_empty h.symm
  have h16 := hlen (C ++ G)
  rw [this] at h16
  simp at h16

/-- A freshly inserted row (version 1, no stored hash) after a `NotifyUpdate` that returns
no error: the row is found with version 2, or with version 1 when the recomposition
reported not-found. -/
theorem NotifyUpdate_after_insert (env : Env) (s : Store) (row0 : Server)
    (hlen : ∀ bs, (env.md5Sum bs).length = 16)
    (hfresh : ∀ r ∈ s.servers, r.id ≠ row0.id) (hmd5 : row0.configMd5 = "")
    (hok : (NotifyUpdate env { s with servers := s.servers ++ [row0] } row0.id).1 = .ok ()) :
    ∃ row,
      findServer (NotifyUpdate env { s with servers := s.servers ++ [row0] } row0.id).2 row0.id
        = some row
      ∧ row.state = row0.state ∧ row.dnsName = row0.dnsName
      ∧ (row.version = row0.version + 1
        ∨ (row.version = row0.version
          ∧ (RenewServerConfig env
              (NotifyUpdate env { s with servers := s.servers ++ [row0] } row0.id).2
              row0.id true).1 = .error .notFound)) := by
  have hfind := findServer_insert s row0 hfresh
  obtain ⟨hnu, hres⟩ := NotifyUpdate_of_ok env _ row0.id hok
  rw [hnu]
  obtain ⟨hsv, hcl, hg⟩ := notifyUpdateTask_frame
    (RenewServerConfig env { s with servers := s.servers ++ [row0] } row0.id true).2 row0.id
  rw [findServer_congr hsv, RenewServerConfig_fst_congr env hsv hcl hg]
  rcases RenewServerConfig_cases env { s with servers := s.servers ++ [row0] } row0.id true with
    ⟨e, he⟩ | ⟨cfg, data, _, _, hr⟩
  · rw [he] at hres ⊢
    rcases hres with hres | ⟨b, hb⟩
    · simp only at hres
      refine ⟨row0, hfind, rfl, rfl, Or.inr ⟨rfl, ?_⟩⟩
      rw [he]
      exact hres
    · simp at hb
  · rcases UpdateServerConfig_cases env { s with servers := s.servers ++ [row0] } row0.id
        data true with ⟨e, hne, he⟩ | ⟨_, hsame, _⟩ | ⟨_, _, hdiff⟩
    · rw [hr, he] at hres
      rcases hres with hres | ⟨b, hb⟩
      · simp only [Except.error.injEq] at hres
        exact absurd hres hne
      · simp at hb
    · exfalso
      have : findConfigMd5 { s with servers := s.servers ++ [row0] } row0.id = "" := by
        simp [findConfigMd5, hfind, hmd5]
      rw [this] at hsame
      exact newConfigMd5_ne_empty env hlen _ _ hsame
    · rw [hr, hdiff]
      refine ⟨_, findServer_updateServer_self _ row0.id
        (configOp env data
          (newConfigMd5 env data
            ({ s with servers := s.servers ++ [row0] } : Store).serverGlobalConfig) true)
        (fun _ => rfl) hfind, rfl, rfl, Or.inl rfl⟩

theorem NotifyUpdate_after_insert_eq (env : Env) (s : Store) (row0 : Server)
    (serverId : Int) (u : Unit) (s2 : Store)
    (hnu : NotifyUpdate env { s with servers := s.servers ++ [row0] } serverId = (.ok u, s2))
    (hid : row0.id = serverId) (hlen : ∀ bs, (env.md5Sum bs).length = 16)
    (hfresh : ∀ r ∈ s.servers, r.id ≠ serverId) (hmd5 : row0.configMd5 = "") :
    ∃ row, findServer s2 serverId = some row
      ∧ row.state = row0.state ∧ row.dnsName = row0.dnsName
      ∧ (row.version = row0.version + 1
        ∨ (row.version = row0.version
          ∧ (RenewServerConfig env s2 serverId true).1 = .error .notFound)) := by
  subst hid
  have h := NotifyUpdate_after_insert env s row0 hlen hfresh hmd5 (by rw [hnu])
  rw [hnu] at h
  exact h

/-- C7 (counterexample): on a store without servers `CreateServer` returns successfully
with id 1, and the stored version of the created row is 2, not 1: the insert writes
version 1 and the `NotifyUpdate` that follows stores the first composed config and bumps
the counter. -/
theorem CreateServer_version_counterexample :
    (CreateServer sampleEnv emptyStore ["a1b2c3d4"] 1 0 "httpProxy" "web" "" [] false []
        [] [] [] [] [] [] 0 [] 0 [] [] []).map (fun r => r.1) = some (.ok 1)
    ∧ ((CreateServer sampleEnv emptyStore ["a1b2c3d4"] 1 0 "httpProxy" "web" "" [] false []
        [] [] [] [] [] [] 0 [] 0 [] [] []).bind (fun r => findServer r.2 1)).map
          (fun row => row.version) = some 2 := by
  decide

/-- C7 (amended): when `CreateServer` returns successfully (MD5 digests being 16 bytes
long), the returned id is new, the created row is found under it, is enabled and carries a
DNS name taken from the generator that no earlier server row has; its stored version is 2,
since the insert writes version 1 and the `NotifyUpdate` that follows stores the first
composed config and bumps the counter. The version is 1 only when that recomposition
reported not-found, which `NotifyUpdate` ignores. -/
theorem CreateServer_version (env : Env) (s : Store) (draws : List String)
    (adminId userId : Int) (serverType name description : String) (serverNamesJSON : Bytes)
    (isAuditing : Bool) (auditingServerNamesJSON : Bytes)
    (httpJSON httpsJSON tcpJSON tlsJSON unixJSON udpJSON : Bytes) (webId : Int)
    (reverseProxyJSON : Bytes) (clusterId : Int) (includeNodesJSON excludeNodesJSON : Bytes)
    (groupIds : List Int) (serverId : Int) (s' : Store)
    (hlen : ∀ bs, (env.md5Sum bs).length = 16)
    (h : CreateServer env s draws adminId userId serverType name description serverNamesJSON
        isAuditing auditingServerNamesJSON httpJSON httpsJSON tcpJSON tlsJSON unixJSON udpJSON
        webId reverseProxyJSON clusterId includeNodesJSON excludeNodesJSON groupIds
      = some (.ok serverId, s')) :
    (∀ r ∈ s.servers, r.id ≠ serverId)
    ∧ ∃ row, findServer s' serverId = some row
        ∧ row.state = ServerStateEnabled
        ∧ row.dnsName ∈ draws
        ∧ (∀ r ∈ s.servers, r.dnsName ≠ row.dnsName)
        ∧ (row.version = 2
          ∨ (row.version = 1
            ∧ (RenewServerConfig env s' serverId true).1 = .error .notFound)) := by
  unfold CreateServer at h
  simp only at h
  split at h
  · simp at h
  · split at h
    · simp at h
    · next dnsName hgen =>
      split at h
      · simp at h
      · next u s2 hnu =>
        split at h
        · simp at h
        · next u2 s3 hdns =>
          simp only [Option.some.injEq, Prod.mk.injEq, Except.ok.injEq] at h
          obtain ⟨hid, hs'⟩ := h
          subst hid hs'
          have hfresh : ∀ r ∈ s.servers, r.id ≠ nextId (s.servers.map (fun r => r.id)) :=
            fun r hr => nextId_fresh _ r.id (List.mem_map_of_mem _ hr)
          obtain ⟨hmem, hdn⟩ := GenDNSName_spec s draws dnsName hgen
          obtain ⟨row, hrow, hstate, hname, hver⟩ :=
            NotifyUpdate_after_insert_eq env s _ _ u s2 hnu rfl hlen hfresh rfl
          have hs3 : (NotifyDNSUpdate s2 (nextId (s.servers.map (fun r => r.id)))).2 = s3 := by
            rw [hdns]
          obtain ⟨hsv, hcl, hg⟩ :=
            NotifyDNSUpdate_frame s2 (nextId (s.servers.map (fun r => r.id)))
          rw [hs3] at hsv hcl hg
          refine ⟨hfresh, row, ?_, hstate, ?_, ?_, ?_⟩
          · rw [findServer_congr hsv]
            exact hrow
          · rw [hname]
            exact hmem
          · rw [hname]
            exact hdn
          · rw [RenewServerConfig_fst_congr env hsv hcl hg]
            simpa using hver

theorem CreateServer_version_witness :
    ∃ row, findServer
        { emptyStore with
          servers := [{ sampleServer 1 0 "77656200000000000000000000000000" with
                        adminId := 1, groupIds := [91, 93], config := [119, 101, 98],
                        version := 2 }] } 1 = some row
      ∧ row.version = 2 := by
  have h := CreateServer_version sampleEnv emptyStore ["a1b2c3d4"] 1 0 "httpProxy" "web" ""
    [] false [] [] [] [] [] [] [] 0 [] 0 [] [] [] 1 _ (fun bs => by simp [sampleEnv, sampleDigest])
    (by decide : CreateServer sampleEnv emptyStore ["a1b2c3d4"] 1 0 "httpProxy" "web" ""
      [] false [] [] [] [] [] [] [] 0 [] 0 [] [] []
        = some (.ok 1,
            { emptyStore with
              servers := [{ sampleServer 1 0 "77656200000000000000000000000000" with
                            adminId := 1, groupIds := [91, 93], config := [119, 101, 98],
                            version := 2 }] }))
  obtain ⟨row, hrow, _, _, _, hver⟩ := h.2
  refine ⟨row, hrow, ?_⟩
  rcases hver with h2 | ⟨_, hnf⟩
  · exact h2
  · exact absurd hnf (by decide)

/-! ## The dedupe window of `CreateNodeMessage` -/

theorem existsRecentMessage_iff (s : Store) (hash : String) (now : Int) :
    existsRecentMessage s hash now = true
      ↔ ∃ m ∈ s.messages, m.hash = hash ∧ now - 600 < m.createdAt := by
  unfold existsRecentMessage
  rw [List.any_eq_true]
  constructor
  · rintro ⟨m, hm, hp⟩
    simp only [decide_eq_true_eq] at hp
    exact ⟨m, hm, hp.1, by omega⟩
  · rintro ⟨m, hm, hh, ht⟩
    exact ⟨m, hm, by simp only [decide_eq_true_eq]; exact ⟨hh, by omega⟩⟩

theorem foldl_createMessageTask_messages (now : Int) (subject body : String)
    (rs : List MessageReceiver) (s : Store) :
    (rs.foldl (createMessageTask now subject body) s).messages = s.messages := by
  induction rs generalizing s with
  | nil => rfl
  | cons r rest ih =>
    rw [List.foldl_cons, ih]
    rfl

theorem CreateNodeMessage_suppressed (env : Env) (s : Store)
    (queryTime now clusterId nodeId : Int)
    (messageType level subject body : String) (paramsJSON : Bytes)
    (h : existsRecentMessage s (calHash env subject body paramsJSON) queryTime = true) :
    CreateNodeMessage env s queryTime now clusterId nodeId messageType level subject body
        paramsJSON
      = (.ok (), s) := by
  simp [CreateNodeMessage, h]

/-- The message row `createMessage` inserts. -/
theorem CreateNodeMessage_stored (env : Env) (s : Store)
    (queryTime now clusterId nodeId : Int)
    (messageType level subject body : String) (paramsJSON : Bytes)
    (h : existsRecentMessage s (calHash env subject body paramsJSON) queryTime = false) :
    (CreateNodeMessage env s queryTime now clusterId nodeId messageType level subject body
        paramsJSON).1 = .ok ()
    ∧ (CreateNodeMessage env s queryTime now clusterId nodeId messageType level subject body
          paramsJSON).2.messages
        = s.messages ++ [(({
            id := nextId (s.messages.map (fun m => m.id))
            adminId := 0
            userId := 0
            clusterId := clusterId
            nodeId := nodeId
            type := messageType
            level := level
            subject := truncateSubject subject
            body := body
            params := if 0 < paramsJSON.length then paramsJSON else []
            isRead := false
            state := MessageStateEnabled
            createdAt := now
            day := env.formatYmd now
            hash := calHash env subject body paramsJSON } : Message))] := by
  unfold CreateNodeMessage
  simp only [h, Bool.false_eq_true, if_false, createMessage, CreateMessageTasks]
  split
  · exact ⟨rfl, by simp only [foldl_createMessageTask_messages]⟩
  · exact ⟨rfl, by simp only [foldl_createMessageTask_messages]⟩

/-- The two clock readings of one call matter at the edge of the window: the first call
queries at 1000 and stamps its row 1001; an identical call that queries at 1600, which is
600 seconds after the first query, still finds that row inside its window and stores
nothing, where one that queries at 1601 stores a second row. -/
theorem CreateNodeMessage_clock_tick :
    (CreateNodeMessage sampleEnv
        (CreateNodeMessage sampleEnv emptyStore 1000 1001 1 2 "NodeInactive" "warning"
          "node down" "" []).2
        1600 1600 1 2 "NodeInactive" "warning" "node down" "" []).2.messages.length = 1
    ∧ (CreateNodeMessage sampleEnv
        (CreateNodeMessage sampleEnv emptyStore 1000 1001 1 2 "NodeInactive" "warning"
          "node down" "" []).2
        1601 1601 1 2 "NodeInactive" "warning" "node down" "" []).2.messages.length = 2 := by
  decide

/-- C10: `CreateNodeMessage` whose dedupe query runs at time `queryTime` creates a message
if and only if no stored message has the content hash of (subject, body, params) and
`createdAt > queryTime - 600`. When such a message exists the call returns success and
leaves the store as it was (no message row, no message task); otherwise it returns success
and stores exactly one new message row, carrying that hash and stamped with the clock value
`now` read when the row is built. Hence, starting without such a message, a second
identical call whose query runs less than 600 seconds after that stamp (in particular less
than 600 seconds after the first query, when the clock did not run backwards between the
two readings) leaves the store as the first call left it (one new message), and a third
identical call whose query runs 600 seconds or more after that stamp, and not before the
first query, stores a second new message, stamped with its own clock value. -/
theorem CreateNodeMessage_dedupe (env : Env) (s : Store)
    (queryTime now clusterId nodeId : Int)
    (messageType level subject body : String) (paramsJSON : Bytes) :
    ((∃ m ∈ s.messages, m.hash = calHash env subject body paramsJSON
        ∧ queryTime - 600 < m.createdAt) →
      CreateNodeMessage env s queryTime now clusterId nodeId messageType level subject body
          paramsJSON
        = (.ok (), s))
    ∧ ((¬ ∃ m ∈ s.messages, m.hash = calHash env subject body paramsJSON
          ∧ queryTime - 600 < m.createdAt) →
      (CreateNodeMessage env s queryTime now clusterId nodeId messageType level subject body
          paramsJSON).1 = .ok ()
      ∧ (∃ m1 : Message,
          (CreateNodeMessage env s queryTime now clusterId nodeId messageType level subject
            body paramsJSON).2.messages = s.messages ++ [m1]
          ∧ m1.hash = calHash env subject body paramsJSON ∧ m1.createdAt = now
          ∧ m1.clusterId = clusterId ∧ m1.nodeId = nodeId ∧ m1.type = messageType
          ∧ m1.body = body
          ∧ ∀ q2 n2 q3 n3 : Int, q2 < now + 600 ∨ (queryTime ≤ now ∧ q2 < queryTime + 600) →
            CreateNodeMessage env
                (CreateNodeMessage env s queryTime now clusterId nodeId messageType level
                  subject body paramsJSON).2
                q2 n2 clusterId nodeId messageType level subject body paramsJSON
              = (.ok (), (CreateNodeMessage env s queryTime now clusterId nodeId messageType
                  level subject body paramsJSON).2)
            ∧ (now + 600 ≤ q3 → queryTime ≤ q3 →
              ∃ m3 : Message,
                (CreateNodeMessage env
                  (CreateNodeMessage env
                    (CreateNodeMessage env s queryTime now clusterId nodeId messageType level
                      subject body paramsJSON).2
                    q2 n2 clusterId nodeId messageType level subject body paramsJSON).2
                  q3 n3 clusterId nodeId messageType level subject body paramsJSON).2.messages
                  = s.messages ++ [m1, m3]
                ∧ m3.hash = calHash env subject body paramsJSON ∧ m3.createdAt = n3))) := by
  constructor
  · intro hex
    exact CreateNodeMessage_suppressed env s queryTime now clusterId nodeId messageType level
      subject body paramsJSON ((existsRecentMessage_iff s _ queryTime).mpr hex)
  · intro hno
    have hfalse :
        existsRecentMessage s (calHash env subject body paramsJSON) queryTime = false := by
      rw [← Bool.not_eq_true, existsRecentMessage_iff]
      exact hno
    obtain ⟨hok, hmsgs⟩ := CreateNodeMessage_stored env s queryTime now clusterId nodeId
      messageType level subject body paramsJSON hfalse
    refine ⟨hok, _, hmsgs, rfl, rfl, rfl, rfl, rfl, rfl, ?_⟩
    intro q2 n2 q3 n3 hwithin
    have hq2 : q2 < now + 600 := by
      rcases hwithin with h | ⟨h1, h2⟩
      · exact h
      · omega
    have hsecond : existsRecentMessage
        (CreateNodeMessage env s queryTime now clusterId nodeId messageType level subject body
          paramsJSON).2 (calHash env subject body paramsJSON) q2 = true := by
      rw [existsRecentMessage_iff, hmsgs]
      exact ⟨_, List.mem_append_right _ (List.mem_singleton_self _), rfl, by
        show q2 - 600 < now
        omega⟩
    have h2 := CreateNodeMessage_suppressed env _ q2 n2 clusterId nodeId messageType level
      subject body paramsJSON hsecond
    refine ⟨h2, fun hq3 hle => ?_⟩
    · rw [h2]
      have hthird : existsRecentMessage
          (CreateNodeMessage env s queryTime now clusterId nodeId messageType level subject
            body paramsJSON).2 (calHash env subject body paramsJSON) q3 = false := by
        rw [← Bool.not_eq_true, existsRecentMessage_iff, hmsgs]
        rintro ⟨m, hm, hh, ht⟩
        rcases List.mem_append.mp hm with hm | hm
        · exact hno ⟨m, hm, hh, by omega⟩
        · rw [List.mem_singleton] at hm
          subst hm
          have : q3 - 600 < now := ht
          omega
      obtain ⟨_, hmsgs3⟩ := CreateNodeMessage_stored env _ q3 n3 clusterId nodeId messageType
        level subject body paramsJSON hthird
      rw [hmsgs3, hmsgs]
      exact ⟨_, by rw [List.append_assoc]; rfl, rfl, rfl⟩

theorem CreateNodeMessage_dedupe_witness :
    (CreateNodeMessage sampleEnv emptyStore 1000 1001 1 2 "NodeInactive" "warning" "node down"
        "" []).1 = .ok ()
    ∧ CreateNodeMessage sampleEnv
        (CreateNodeMessage sampleEnv emptyStore 1000 1001 1 2 "NodeInactive" "warning"
          "node down" "" []).2
        1600 1600 1 2 "NodeInactive" "warning" "node down" "" []
      = (.ok (), (CreateNodeMessage sampleEnv emptyStore 1000 1001 1 2 "NodeInactive"
          "warning" "node down" "" []).2)
    ∧ CreateNodeMessage sampleEnv
        { emptyStore with messages := [{
            id := 1, adminId := 0, userId := 0, clusterId := 7, nodeId := 0, type := "x",
            level := "info", subject := "", body := "", params := [], isRead := false,
            state := 1, createdAt := 500, day := "20210101",
            hash := "00000000000000000000000000000000" }] }
        1000 1001 1 2 "NodeInactive" "warning" "" "" []
      = (.ok (),
        { emptyStore with messages := [{
            id := 1, adminId := 0, userId := 0, clusterId := 7, nodeId := 0, type := "x",
            level := "info", subject := "", body := "", params := [], isRead := false,
            state := 1, createdAt := 500, day := "20210101",
            hash := "00000000000000000000000000000000" }] }) :=
  ⟨((CreateNodeMessage_dedupe sampleEnv emptyStore 1000 1001 1 2 "NodeInactive" "warning"
      "node down" "" []).2 (by decide)).1,
   (by
    obtain ⟨_, _, _, _, _, _, _, _, _, h⟩ := (CreateNodeMessage_dedupe sampleEnv emptyStore
      1000 1001 1 2 "NodeInactive" "warning" "node down" "" []).2 (by decide)
    exact (h 1600 1600 0 0 (Or.inl (by decide))).1),
   (CreateNodeMessage_dedupe sampleEnv _ 1000 1001 1 2 "NodeInactive" "warning" "" "" []).1
      ⟨_, List.mem_singleton_self _, by decide, by decide⟩⟩

/-! ## Receiver matching -/

theorem mem_FindAllEnabledReceivers (s : Store) (target : MessageTaskTarget)
    (messageType : String) (r : MessageReceiver) :
    r ∈ FindAllEnabledReceivers s target messageType
      ↔ r ∈ s.receivers
        ∧ (0 < messageType.length → (r.type = "*" ∨ r.type = messageType))
        ∧ r.clusterId = target.clusterId
        ∧ r.nodeId = target.nodeId
        ∧ r.serverId = target.serverId
        ∧ r.state = MessageReceiverStateEnabled := by
  unfold FindAllEnabledReceivers
  rw [List.mem_insertionSort, List.mem_filter, decide_eq_true_eq]

/-- C11: for every message type `t` (the empty string included) and every scope,
`FindAllEnabledReceivers(scope, t)` returns every enabled receiver whose stored type is `*`
and whose `clusterId`, `nodeId` and `serverId` equal those of the scope. -/
theorem FindAllEnabledReceivers_wildcard (s : Store) (target : MessageTaskTarget)
    (t : String) (r : MessageReceiver) (hmem : r ∈ s.receivers)
    (hstate : r.state = MessageReceiverStateEnabled) (htype : r.type = "*")
    (hc : r.clusterId = target.clusterId) (hn : r.nodeId = target.nodeId)
    (hs : r.serverId = target.serverId) :
    r ∈ FindAllEnabledReceivers s target t :=
  (mem_FindAllEnabledReceivers s target t r).mpr
    ⟨hmem, fun _ => Or.inl htype, hc, hn, hs, hstate⟩

theorem FindAllEnabledReceivers_wildcard_witness :
    sampleReceiver 1 "*" ∈ FindAllEnabledReceivers
      { emptyStore with receivers := [sampleReceiver 1 "*", sampleReceiver 2 "NodeActive"] }
      { clusterId := 1, nodeId := 0, serverId := 0 } "HealthCheckFailed" :=
  FindAllEnabledReceivers_wildcard _ _ "HealthCheckFailed" (sampleReceiver 1 "*")
    (by decide) rfl rfl rfl rfl rfl

/-- C12 (counterexample): with the empty message type no type filter is applied, so a
receiver registered for the specific type `HealthCheckFailed` is returned although its type
is neither `*` nor the (empty) message type. -/
theorem FindAllEnabledReceivers_specific_counterexample :
    sampleReceiver 1 "HealthCheckFailed" ∈ FindAllEnabledReceivers
        { emptyStore with receivers := [sampleReceiver 1 "HealthCheckFailed"] }
        { clusterId := 1, nodeId := 0, serverId := 0 } ""
    ∧ (sampleReceiver 1 "HealthCheckFailed").type ≠ "*"
    ∧ (sampleReceiver 1 "HealthCheckFailed").type ≠ "" := by
  decide

/-- C12 (amended): for every non-empty message type `t`, every scope and every receiver
whose stored type is neither `*` nor `t`, `FindAllEnabledReceivers(scope, t)` does not
return that receiver. -/
theorem FindAllEnabledReceivers_specific (s : Store) (target : MessageTaskTarget)
    (t : String) (r : MessageReceiver) (ht : t ≠ "") (hstar : r.type ≠ "*")
    (hne : r.type ≠ t) :
    r ∉ FindAllEnabledReceivers s target t := by
  intro hmem
  have hlen : 0 < t.length := by
    rcases Nat.eq_zero_or_pos t.length with h | h
    · exact absurd ((string_length_eq_zero t).mp h) ht
    · exact h
  rcases ((mem_FindAllEnabledReceivers s target t r).mp hmem).2.1 hlen with h | h
  · exact hstar h
  · exact hne h

theorem FindAllEnabledReceivers_specific_witness :
    sampleReceiver 2 "NodeActive" ∉ FindAllEnabledReceivers
      { emptyStore with receivers := [sampleReceiver 1 "*", sampleReceiver 2 "NodeActive"] }
      { clusterId := 1, nodeId := 0, serverId := 0 } "HealthCheckFailed" :=
  FindAllEnabledReceivers_specific _ _ "HealthCheckFailed" (sampleReceiver 2 "NodeActive")
    (by decide) (by decide) (by decide)

/-! ## Server names and their auditing -/

theorem NotifyUpdate_servers (env : Env) (s : Store) (serverId : Int) :
    (NotifyUpdate env s serverId).2.servers
      = (RenewServerConfig env s serverId true).2.servers := by
  unfold NotifyUpdate
  rcases RenewServerConfig env s serverId true with ⟨r, s1⟩
  cases r with
  | error e =>
    by_cases he : e = Err.notFound
    · simp only [he, ne_eq, not_true_eq_false, if_false]
      exact (notifyUpdateTask_frame s1 serverId).1
    · simp only [ne_eq, he, not_false_eq_true, if_true]
  | ok b => exact (notifyUpdateTask_frame s1 serverId).1

/-- A row found before `NotifyUpdate` is found after it with the same columns, the config
blob, its hash and the version apart. -/
theorem findServer_NotifyUpdate (env : Env) (s : Store) (serverId target : Int)
    (row : Server) (h : findServer s target = some row) :
    ∃ row', findServer (NotifyUpdate env s serverId).2 target = some row'
      ∧ row' = { row with
                 config := row'.config, version := row'.version, configMd5 := row'.configMd5 } := by
  rw [findServer_congr (NotifyUpdate_servers env s serverId) target]
  rcases RenewServerConfig_store env s serverId true with hs | ⟨data, md5, hs⟩
  · rw [hs, h]
    exact ⟨row, rfl, rfl⟩
  · rw [hs, findServer_updateServer s serverId target (configOp env data md5 true)
      (fun _ => rfl), h]
    by_cases hid : row.id = serverId
    · rw [Option.map_some', if_pos hid]
      exact ⟨_, rfl, rfl⟩
    · rw [Option.map_some', if_neg hid]
      exact ⟨row, rfl, rfl⟩

theorem findServer_NotifyDNSUpdate (s : Store) (serverId target : Int) :
    findServer (NotifyDNSUpdate s serverId).2 target = findServer s target :=
  findServer_congr (NotifyDNSUpdate_frame s serverId).1 target

theorem UpdateServerNames_row (env : Env) (s : Store) (serverId : Int) (json : Bytes)
    (row : Server) (hid : 0 < serverId) (hrow : findServer s serverId = some row) :
    ∃ row', findServer (UpdateServerNames env s serverId json).2 serverId = some row'
      ∧ row' = { row with
                 serverNames := if json.length = 0 then strBytes "[]" else json
                 config := row'.config, version := row'.version,
                 configMd5 := row'.configMd5 } := by
  unfold UpdateServerNames
  simp only [not_le.mpr hid, if_false]
  exact findServer_NotifyUpdate env _ serverId serverId _
    (findServer_updateServer_self s serverId
      (fun r => { r with serverNames := if json.length = 0 then strBytes "[]" else json })
      (fun _ => rfl) hrow)

theorem UpdateAuditingServerNames_row (env : Env) (s : Store) (serverId : Int)
    (isAuditing : Bool) (json : Bytes) (row : Server) (hid : 0 < serverId)
    (hrow : findServer s serverId = some row) :
    ∃ row', findServer (UpdateAuditingServerNames env s serverId isAuditing json).2 serverId
        = some row'
      ∧ row' = { row with
                 isAuditing := isAuditing
                 auditingServerNames := if json.length = 0 then strBytes "[]" else json
                 auditingResult := auditingResultOk
                 config := row'.config, version := row'.version,
                 configMd5 := row'.configMd5 } := by
  unfold UpdateAuditingServerNames
  simp only [not_le.mpr hid, if_false]
  exact findServer_NotifyUpdate env _ serverId serverId _
    (findServer_updateServer_self s serverId
      (fun r => { r with
                  isAuditing := isAuditing
                  auditingServerNames := if json.length = 0 then strBytes "[]" else json
                  auditingResult := auditingResultOk })
      (fun _ => rfl) hrow)

/-- C13: when the caller is a user (`userId > 0`), the global config is read with the
domain-auditing flag on and `serverId > 0`, `ServerService.UpdateServerNames` leaves the
`serverNames` of the server row as they were, sets `auditingServerNames` to the submitted
JSON (`[]` when the submission is empty) and sets `isAuditing` to true; the auditing result
is reset and only the composed config, its hash and the version may change besides. -/
theorem ServerService_UpdateServerNames_auditing (env : Env) (s : Store)
    (adminId userId serverId : Int) (json : Bytes) (row : Server) (globalConfig : GlobalConfig)
    (huser : 0 < userId) (hid : 0 < serverId)
    (hcfg : env.ReadGlobalConfig s = .ok (some globalConfig))
    (hon : globalConfig.domainAuditingIsOn = true)
    (hrow : findServer s serverId = some row) :
    ∃ row', findServer
          (ServerService.UpdateServerNames env s (.ok (adminId, userId)) serverId json).2
          serverId = some row'
      ∧ row'.serverNames = row.serverNames
      ∧ row'.auditingServerNames = (if json.length = 0 then strBytes "[]" else json)
      ∧ row'.isAuditing = true
      ∧ row' = { row with
                 isAuditing := true
                 auditingServerNames := if json.length = 0 then strBytes "[]" else json
                 auditingResult := auditingResultOk
                 config := row'.config, version := row'.version,
                 configMd5 := row'.configMd5 } := by
  have hsvc : ServerService.UpdateServerNames env s (.ok (adminId, userId)) serverId json
      = UpdateAuditingServerNames env s serverId true json := by
    simp [ServerService.UpdateServerNames, not_le.mpr hid, huser, hcfg, hon]
  rw [hsvc]
  obtain ⟨row', hfind, heq⟩ := UpdateAuditingServerNames_row env s serverId true json row hid hrow
  refine ⟨row', hfind, ?_, ?_, ?_, heq⟩
  · rw [heq]
  · rw [heq]
  · rw [heq]

theorem ServerService_UpdateServerNames_auditing_witness :
    ∃ row', findServer
          (ServerService.UpdateServerNames sampleEnv (sampleStore "" 0) (.ok (0, 5)) 1 []).2 1
        = some row'
      ∧ row'.serverNames = []
      ∧ row'.auditingServerNames = strBytes "[]"
      ∧ row'.isAuditing = true := by
  obtain ⟨row', h1, h2, h3, h4, _⟩ := ServerService_UpdateServerNames_auditing sampleEnv
    (sampleStore "" 0) 0 5 1 [] (sampleServer 1 1 "") { domainAuditingIsOn := true }
    (by decide) (by decide) rfl rfl (by decide)
  exact ⟨row', h1, h2, h3, h4⟩

/-- C14: `UpdateServerAuditing` with `serverId > 0` (the auditing result being encoded
without error) sets `isAuditing` to false and stores as `auditingResult` the encoding of
`result.IsOk`, `result.Reason` and the time of the call; if `result.IsOk` is true,
`serverNames` becomes the value `auditingServerNames` had before the call, and if it is
false, `serverNames` is unchanged; `auditingServerNames` itself stays as it was. -/
theorem UpdateServerAuditing_row (env : Env) (s : Store) (now serverId : Int)
    (result : ServerNameAuditingResult) (row : Server) (resultJSON : Bytes)
    (hid : 0 < serverId)
    (hjson : env.marshalAuditingResult result.isOk result.reason now = .ok resultJSON)
    (hrow : findServer s serverId = some row) :
    ∃ row', findServer (UpdateServerAuditing env s now serverId result).2 serverId = some row'
      ∧ row'.isAuditing = false
      ∧ row'.auditingResult = resultJSON
      ∧ (result.isOk = true → row'.serverNames = row.auditingServerNames)
      ∧ (result.isOk = false → row'.serverNames = row.serverNames)
      ∧ row'.auditingServerNames = row.auditingServerNames := by
  obtain ⟨row', hfind, heq⟩ := findServer_NotifyUpdate env _ serverId serverId _
    (findServer_updateServer_self s serverId
      (fun r => { r with
                  isAuditing := false
                  auditingResult := resultJSON
                  serverNames := if result.isOk then r.auditingServerNames else r.serverNames })
      (fun _ => rfl) hrow)
  have hstore : findServer (UpdateServerAuditing env s now serverId result).2 serverId
      = some row' := by
    unfold UpdateServerAuditing
    simp only [not_le.mpr hid, if_false, hjson]
    split
    · next e s2 hnu =>
      rw [hnu] at hfind
      exact hfind
    · next u s2 hnu =>
      rw [hnu] at hfind
      rw [findServer_NotifyDNSUpdate]
      exact hfind
  refine ⟨row', hstore, ?_, ?_, ?_, ?_, ?_⟩
  · rw [heq]
  · rw [heq]
  · intro hok
    rw [heq]
    simp [hok]
  · intro hno
    rw [heq]
    simp [hno]
  · rw [heq]

theorem UpdateServerAuditing_row_witness :
    ∃ row', findServer
        (UpdateServerAuditing sampleEnv
          { sampleStore "" 0 with
            servers := [{ sampleServer 1 1 "" with
                          isAuditing := true, auditingServerNames := [91, 49, 93] }] }
          1000 1 { isOk := true, reason := "" }).2 1 = some row'
      ∧ row'.isAuditing = false
      ∧ row'.serverNames = [91, 49, 93] := by
  obtain ⟨row', h1, h2, _, h4, _⟩ := UpdateServerAuditing_row sampleEnv
    { sampleStore "" 0 with
      servers := [{ sampleServer 1 1 "" with
                    isAuditing := true, auditingServerNames := [91, 49, 93] }] }
    1000 1 { isOk := true, reason := "" }
    { sampleServer 1 1 "" with isAuditing := true, auditingServerNames := [91, 49, 93] }
    [1] (by decide) (by decide) (by decide)
  exact ⟨row', h1, h2, h4 rfl⟩

/-- C15 (counterexample): server 1 is pending (`isAuditing = true`); an admin call
(`userId = 0`) of `ServerService.UpdateServerNames` returns success and stores the
submitted names, but the row is still marked as auditing afterwards. -/
theorem ServerService_UpdateServerNames_admin_counterexample :
    (ServerService.UpdateServerNames sampleEnv
        { sampleStore "" 0 with
          servers := [{ sampleServer 1 1 "" with
                        isAuditing := true, auditingServerNames := [91, 49, 93] }] }
        (.ok (1, 0)) 1 [91, 50, 93]).1 = .ok ()
    ∧ (findServer (ServerService.UpdateServerNames sampleEnv
        { sampleStore "" 0 with
          servers := [{ sampleServer 1 1 "" with
                        isAuditing := true, auditingServerNames := [91, 49, 93] }] }
        (.ok (1, 0)) 1 [91, 50, 93]).2 1).map
          (fun r => (r.serverNames, r.isAuditing, r.auditingServerNames))
        = some ([91, 50, 93], true, [91, 49, 93]) := by
  decide

/-- C15 (amended): when the caller is an admin (resolved `userId = 0`) and `serverId > 0`,
`ServerService.UpdateServerNames`, whatever the domain-auditing flag is, sets `serverNames`
to the submitted JSON (`[]` when empty) and touches neither `isAuditing` nor
`auditingServerNames`: a server that was not being audited stays live, one that was
pending stays pending, and the submission is not written to `auditingServerNames`. -/
theorem ServerService_UpdateServerNames_admin (env : Env) (s : Store)
    (adminId serverId : Int) (json : Bytes) (row : Server)
    (hid : 0 < serverId) (hrow : findServer s serverId = some row) :
    ∃ row', findServer
          (ServerService.UpdateServerNames env s (.ok (adminId, 0)) serverId json).2
          serverId = some row'
      ∧ row'.serverNames = (if json.length = 0 then strBytes "[]" else json)
      ∧ row'.isAuditing = row.isAuditing
      ∧ row'.auditingServerNames = row.auditingServerNames
      ∧ row' = { row with
                 serverNames := if json.length = 0 then strBytes "[]" else json
                 config := row'.config, version := row'.version,
                 configMd5 := row'.configMd5 } := by
  have hsvc : ServerService.UpdateServerNames env s (.ok (adminId, 0)) serverId json
      = UpdateServerNames env s serverId json := by
    simp [ServerService.UpdateServerNames, not_le.mpr hid]
  rw [hsvc]
  obtain ⟨row', hfind, heq⟩ := UpdateServerNames_row env s serverId json row hid hrow
  refine ⟨row', hfind, ?_, ?_, ?_, heq⟩
  · rw [heq]
  · rw [heq]
  · rw [heq]

theorem ServerService_UpdateServerNames_admin_witness :
    ∃ row', findServer
          (ServerService.UpdateServerNames sampleEnv (sampleStore "" 0) (.ok (1, 0)) 1
            [91, 50, 93]).2 1 = some row'
      ∧ row'.serverNames = [91, 50, 93]
      ∧ row'.isAuditing = false := by
  obtain ⟨row', h1, h2, h3, _⟩ := ServerService_UpdateServerNames_admin sampleEnv
    (sampleStore "" 0) 1 1 [91, 50, 93] (sampleServer 1 1 "") (by decide) (by decide)
  exact ⟨row', h1, h2, h3⟩

/-! ## What `ComposeServerConfig` returns -/

theorem except_bind_eq_ok {α β : Type} (x : Except Err α) (f : α → Except Err β) (c : β) :
    (x >>= f) = .ok c ↔ ∃ a, x = .ok a ∧ f a = .ok c := by
  cases x <;> simp [bind, Except.bind]

/-- The composition from an enabled row succeeds exactly when each of its ten blocks does,
and the fields of the config are what the blocks returned. -/
theorem composeFromRow_eq_ok (env : Env) (s : Store) (serverId : Int) (row : Server)
    (cfg : ServerConfig) :
    composeFromRow env s serverId row = .ok cfg
      ↔ ∃ sn al h hs t tl ux ud w rp,
        composeServerNames env row = .ok sn
        ∧ composeAliasServerNames env s row = .ok al
        ∧ composeHTTP env row = .ok h
        ∧ composeHTTPS env row = .ok hs
        ∧ composeTCP env row = .ok t
        ∧ composeTLS env row = .ok tl
        ∧ composeUnix env row = .ok ux
        ∧ composeUDP env row = .ok ud
        ∧ composeWeb env row = .ok w
        ∧ composeReverseProxy env row = .ok rp
        ∧ cfg = { id := serverId, type := row.type, isOn := row.isOn, name := row.name,
                  description := row.description, serverNames := sn, aliasServerNames := al,
                  http := h, https := hs, tcp := t, tls := tl, unix := ux, udp := ud,
                  web := w, reverseProxyRef := rp.1, reverseProxy := rp.2 } := by
  unfold composeFromRow
  simp only [except_bind_eq_ok, pure, Except.pure, Except.ok.injEq]
  constructor
  · rintro ⟨sn, h1, al, h2, h, h3, hs, h4, t, h5, tl, h6, ux, h7, ud, h8, w, h9, rp, h10, hc⟩
    exact ⟨sn, al, h, hs, t, tl, ux, ud, w, rp, h1, h2, h3, h4, h5, h6, h7, h8, h9, h10,
      hc.symm⟩
  · rintro ⟨sn, al, h, hs, t, tl, ux, ud, w, rp, h1, h2, h3, h4, h5, h6, h7, h8, h9, h10, hc⟩
    exact ⟨sn, h1, al, h2, h, h3, hs, h4, t, h5, tl, h6, ux, h7, ud, h8, w, h9, rp, h10,
      hc.symm⟩

theorem ComposeServerConfig_of_enabled (env : Env) (s : Store) (serverId : Int)
    (row : Server) (hrow : FindEnabledServer s serverId = some row) :
    ComposeServerConfig env s serverId = composeFromRow env s serverId row := by
  simp [ComposeServerConfig, hrow]

theorem except_ne_ok_iff {α : Type} (x : Except Err α) :
    (∀ a, x ≠ .ok a) ↔ ∃ e, x = .error e := by
  cases x with
  | error e => simp
  | ok a => simp

/-- C16: for every server id for which no server row in the enabled state exists (the
server is absent or disabled), `ComposeServerConfig` returns the sentinel `ErrNotFound`
and no config. -/
theorem ComposeServerConfig_notFound (env : Env) (s : Store) (serverId : Int)
    (h : ∀ r ∈ s.servers, r.id = serverId → r.state ≠ ServerStateEnabled) :
    ComposeServerConfig env s serverId = .error .notFound := by
  have hnone : FindEnabledServer s serverId = none := by
    unfold FindEnabledServer
    rw [List.find?_eq_none]
    intro r hr
    simp only [decide_eq_true_eq, not_and]
    exact h r hr
  simp [ComposeServerConfig, hnone]

theorem ComposeServerConfig_notFound_witness :
    ComposeServerConfig sampleEnv
        { emptyStore with
          servers := [{ sampleServer 1 1 "" with state := ServerStateDisabled }] } 1
      = .error .notFound
    ∧ ComposeServerConfig sampleEnv emptyStore 1 = .error .notFound :=
  ⟨ComposeServerConfig_notFound sampleEnv _ 1 (by decide),
   ComposeServerConfig_notFound sampleEnv emptyStore 1 (by decide)⟩

/-- C17: for an enabled server, if one of the stored blobs `serverNames`, `http`, `https`,
`tcp`, `tls`, `unix`, `udp` is non-empty, is not the literal `null` and is rejected by its
decoder, or the blob `reverseProxy` passes `IsNotNull` and is rejected by its decoder,
`ComposeServerConfig` returns an error; it returns no config at all, so none in which the
field was dropped or defaulted. -/
theorem ComposeServerConfig_malformed (env : Env) (s : Store) (serverId : Int)
    (row : Server) (hrow : FindEnabledServer s serverId = some row)
    (hbad :
      (hasValue row.serverNames = true ∧ ∃ e, env.unmarshalServerNames row.serverNames = .error e)
      ∨ (hasValue row.http = true ∧ ∃ e, env.unmarshalHTTP row.http = .error e)
      ∨ (hasValue row.https = true ∧ ∃ e, env.unmarshalHTTPS row.https = .error e)
      ∨ (hasValue row.tcp = true ∧ ∃ e, env.unmarshalTCP row.tcp = .error e)
      ∨ (hasValue row.tls = true ∧ ∃ e, env.unmarshalTLS row.tls = .error e)
      ∨ (hasValue row.unix = true ∧ ∃ e, env.unmarshalUnix row.unix = .error e)
      ∨ (hasValue row.udp = true ∧ ∃ e, env.unmarshalUDP row.udp = .error e)
      ∨ (env.IsNotNull row.reverseProxy = true
          ∧ ∃ e, env.unmarshalReverseProxyRef row.reverseProxy = .error e)) :
    (∃ e, ComposeServerConfig env s serverId = .error e)
    ∧ ∀ cfg, ComposeServerConfig env s serverId ≠ .ok cfg := by
  have hno : ∀ cfg, ComposeServerConfig env s serverId ≠ .ok cfg := by
    intro cfg hcfg
    rw [ComposeServerConfig_of_enabled env s serverId row hrow, composeFromRow_eq_ok] at hcfg
    obtain ⟨sn, al, h, hs, t, tl, ux, ud, w, rp, h1, _, h3, h4, h5, h6, h7, h8, _, h10, _⟩ :=
      hcfg
    rcases hbad with ⟨hv, e, he⟩ | ⟨hv, e, he⟩ | ⟨hv, e, he⟩ | ⟨hv, e, he⟩ | ⟨hv, e, he⟩
      | ⟨hv, e, he⟩ | ⟨hv, e, he⟩ | ⟨hv, e, he⟩
    · simp [composeServerNames, hv, he] at h1
    · simp [composeHTTP, hv, he] at h3
    · simp [composeHTTPS, hv, he] at h4
    · simp [composeTCP, hv, he] at h5
    · simp [composeTLS, hv, he] at h6
    · simp [composeUnix, hv, he] at h7
    · simp [composeUDP, hv, he] at h8
    · simp [composeReverseProxy, hv, he] at h10
  exact ⟨(except_ne_ok_iff _).mp hno, hno⟩

theorem ComposeServerConfig_malformed_witness :
    ∃ e, ComposeServerConfig strictEnv
        { emptyStore with servers := [{ sampleServer 1 1 "" with http := [1] }] } 1
      = .error e :=
  (ComposeServerConfig_malformed strictEnv
    { emptyStore with servers := [{ sampleServer 1 1 "" with http := [1] }] } 1
    { sampleServer 1 1 "" with http := [1] } (by decide)
    (Or.inr (Or.inl ⟨by decide, .ext 1, rfl⟩))).1

theorem composeHTTPS_missing (env : Env) (row : Server) (hc : HTTPSProtocolConfig)
    (hv : hasValue row.https = true) (hdec : env.unmarshalHTTPS row.https = .ok hc)
    (hmiss : ∀ ref, hc.sslPolicyRef = some ref → 0 < ref.sslPolicyId →
      env.ComposePolicyConfig ref.sslPolicyId = .ok none) :
    composeHTTPS env row = .ok (some hc) := by
  unfold composeHTTPS
  simp only [hv, if_true, hdec]
  cases href : hc.sslPolicyRef with
  | none => rfl
  | some ref =>
    simp only
    by_cases hpos : 0 < ref.sslPolicyId
    · simp only [hpos, if_true, hmiss ref href hpos]
    · simp only [hpos, if_false]

theorem composeTLS_missing (env : Env) (row : Server) (tc : TLSProtocolConfig)
    (hv : hasValue row.tls = true) (hdec : env.unmarshalTLS row.tls = .ok tc)
    (hmiss : ∀ ref, tc.sslPolicyRef = some ref →
      env.ComposePolicyConfig ref.sslPolicyId = .ok none) :
    composeTLS env row = .ok (some tc) := by
  unfold composeTLS
  simp only [hv, if_true, hdec]
  cases href : tc.sslPolicyRef with
  | none => rfl
  | some ref => simp only [hmiss ref href]

theorem composeWeb_missing (env : Env) (row : Server)
    (hmiss : env.ComposeWebConfig row.webId = .ok none) :
    composeWeb env row = .ok none := by
  unfold composeWeb
  split
  · exact hmiss
  · rfl

theorem composeReverseProxy_missing (env : Env) (row : Server) (ref : ReverseProxyRef)
    (hv : env.IsNotNull row.reverseProxy = true)
    (hdec : env.unmarshalReverseProxyRef row.reverseProxy = .ok ref)
    (hmiss : env.ComposeReverseProxyConfig ref.reverseProxyId = .ok none) :
    composeReverseProxy env row = .ok (some ref, none) := by
  simp [composeReverseProxy, hv, hdec, hmiss]

theorem composeHTTPS_ok (env : Env) (row : Server)
    (hwf : hasValue row.https = true → ∃ v, env.unmarshalHTTPS row.https = .ok v)
    (hssl : ∀ id, ∃ p, env.ComposePolicyConfig id = .ok p) :
    ∃ v, composeHTTPS env row = .ok v := by
  unfold composeHTTPS
  by_cases hv : hasValue row.https = true
  · obtain ⟨hc, hdec⟩ := hwf hv
    simp only [hv, if_true, hdec]
    cases hc.sslPolicyRef with
    | none => exact ⟨_, rfl⟩
    | some ref =>
      simp only
      obtain ⟨p, hp⟩ := hssl ref.sslPolicyId
      by_cases hpos : 0 < ref.sslPolicyId
      · simp only [hpos, if_true, hp]
        cases p <;> exact ⟨_, rfl⟩
      · simp only [hpos, if_false]
        exact ⟨_, rfl⟩
  · simp only [hv, Bool.false_eq_true, if_false]
    exact ⟨_, rfl⟩

theorem composeTLS_ok (env : Env) (row : Server)
    (hwf : hasValue row.tls = true → ∃ v, env.unmarshalTLS row.tls = .ok v)
    (hssl : ∀ id, ∃ p, env.ComposePolicyConfig id = .ok p) :
    ∃ v, composeTLS env row = .ok v := by
  unfold composeTLS
  by_cases hv : hasValue row.tls = true
  · obtain ⟨tc, hdec⟩ := hwf hv
    simp only [hv, if_true, hdec]
    cases tc.sslPolicyRef with
    | none => exact ⟨_, rfl⟩
    | some ref =>
      simp only
      obtain ⟨p, hp⟩ := hssl ref.sslPolicyId
      simp only [hp]
      cases p <;> exact ⟨_, rfl⟩
  · simp only [hv, Bool.false_eq_true, if_false]
    exact ⟨_, rfl⟩

theorem composeReverseProxy_ok (env : Env) (row : Server)
    (hwf : env.IsNotNull row.reverseProxy = true →
      ∃ v, env.unmarshalReverseProxyRef row.reverseProxy = .ok v)
    (hrp : ∀ id, ∃ c, env.ComposeReverseProxyConfig id = .ok c) :
    ∃ v, composeReverseProxy env row = .ok v := by
  unfold composeReverseProxy
  by_cases hv : env.IsNotNull row.reverseProxy = true
  · obtain ⟨ref, hdec⟩ := hwf hv
    obtain ⟨c, hc⟩ := hrp ref.reverseProxyId
    simp only [hv, if_true, hdec, hc]
    exact ⟨_, rfl⟩
  · simp only [hv, Bool.false_eq_true, if_false]
    exact ⟨_, rfl⟩

theorem composeAliasServerNames_ok (env : Env) (s : Store) (row : Server)
    (hdns : ∀ id, ∃ d, env.FindEnabledDNSDomain id = .ok d) :
    ∃ v, composeAliasServerNames env s row = .ok v := by
  unfold composeAliasServerNames
  split
  · cases FindClusterDNSInfo s row.clusterId with
    | none => exact ⟨_, rfl⟩
    | some c =>
      simp only
      split
      · obtain ⟨d, hd⟩ := hdns c.dnsDomainId
        rw [hd]
        cases d <;> exact ⟨_, rfl⟩
      · exact ⟨_, rfl⟩
  · exact ⟨_, rfl⟩

theorem composeServerNames_ok (env : Env) (row : Server)
    (hwf : hasValue row.serverNames = true → ∃ v, env.unmarshalServerNames row.serverNames = .ok v) :
    ∃ v, composeServerNames env row = .ok v := by
  unfold composeServerNames
  by_cases hv : hasValue row.serverNames = true
  · obtain ⟨v, hd⟩ := hwf hv
    simp only [hv, if_true, hd]
    exact ⟨_, rfl⟩
  · simp only [hv, Bool.false_eq_true, if_false]
    exact ⟨_, rfl⟩

theorem composeHTTP_ok (env : Env) (row : Server)
    (hwf : hasValue row.http = true → ∃ v, env.unmarshalHTTP row.http = .ok v) :
    ∃ v, composeHTTP env row = .ok v := by
  unfold composeHTTP
  by_cases hv : hasValue row.http = true
  · obtain ⟨v, hd⟩ := hwf hv
    simp only [hv, if_true, hd]
    exact ⟨_, rfl⟩
  · simp only [hv, Bool.false_eq_true, if_false]
    exact ⟨_, rfl⟩

theorem composeTCP_ok (env : Env) (row : Server)
    (hwf : hasValue row.tcp = true → ∃ v, env.unmarshalTCP row.tcp = .ok v) :
    ∃ v, composeTCP env row = .ok v := by
  unfold composeTCP
  by_cases hv : hasValue row.tcp = true
  · obtain ⟨v, hd⟩ := hwf hv
    simp only [hv, if_true, hd]
    exact ⟨_, rfl⟩
  · simp only [hv, Bool.false_eq_true, if_false]
    exact ⟨_, rfl⟩

theorem composeUnix_ok (env : Env) (row : Server)
    (hwf : hasValue row.unix = true → ∃ v, env.unmarshalUnix row.unix = .ok v) :
    ∃ v, composeUnix env row = .ok v := by
  unfold composeUnix
  by_cases hv : hasValue row.unix = true
  · obtain ⟨v, hd⟩ := hwf hv
    simp only [hv, if_true, hd]
    exact ⟨_, rfl⟩
  · simp only [hv, Bool.false_eq_true, if_false]
    exact ⟨_, rfl⟩

theorem composeUDP_ok (env : Env) (row : Server)
    (hwf : hasValue row.udp = true → ∃ v, env.unmarshalUDP row.udp = .ok v) :
    ∃ v, composeUDP env row = .ok v := by
  unfold composeUDP
  by_cases hv : hasValue row.udp = true
  · obtain ⟨v, hd⟩ := hwf hv
    simp only [hv, if_true, hd]
    exact ⟨_, rfl⟩
  · simp only [hv, Bool.false_eq_true, if_false]
    exact ⟨_, rfl⟩

theorem composeWeb_ok (env : Env) (row : Server)
    (hweb : ∀ id, ∃ w, env.ComposeWebConfig id = .ok w) :
    ∃ v, composeWeb env row = .ok v := by
  unfold composeWeb
  split
  · exact hweb row.webId
  · exact ⟨_, rfl⟩

/-- C18 (counterexample): the HTTPS and the TLS blob of the enabled server 1 decode to a
config that refers to SSL policy 7 and carries a policy of its own, and the SSL-policy
composer finds no policy 7. The composition succeeds, the HTTPS and TLS configs are
present, and their SSL policy field is the policy of the blob, not nil. -/
theorem ComposeServerConfig_embedded_policy_counterexample :
    embeddedPolicyEnv.ComposePolicyConfig 7 = .ok none
    ∧ FindEnabledServer
        { emptyStore with servers := [{ sampleServer 1 0 "" with https := [1], tls := [2] }] } 1
      = some { sampleServer 1 0 "" with https := [1], tls := [2] }
    ∧ (ComposeServerConfig embeddedPolicyEnv
        { emptyStore with servers := [{ sampleServer 1 0 "" with https := [1], tls := [2] }] }
        1).map (fun cfg => (cfg.https, cfg.tls))
      = .ok (some { payload := [1], sslPolicyRef := some { isOn := true, sslPolicyId := 7 },
                    sslPolicy := some { payload := [9] } },
             some { payload := [2], sslPolicyRef := some { isOn := true, sslPolicyId := 7 },
                    sslPolicy := some { payload := [9] } }) := by
  decide

/-- C18 (amended): missing cross-references do not fail the composition. For an enabled server whose
blobs are well-formed (each decoder accepts the blob it is given) and with lookups that
return without error, `ComposeServerConfig` succeeds. In the config it returns: when the
SSL-policy composer finds no policy for the id referenced by the HTTPS (or TLS) blob, the
HTTPS (or TLS) config is present and is the decoded blob as it is, its SSL policy field
being the one the blob decoded to (nil for a blob that carries none, the policy of the blob
otherwise); when the web composer finds no web
config for `webId`, `Web` is nil; when the reverse-proxy composer finds nothing for the
referenced id, `ReverseProxy` is nil while the decoded reference is kept. -/
theorem ComposeServerConfig_missing_refs (env : Env) (s : Store) (serverId : Int)
    (row : Server) (hrow : FindEnabledServer s serverId = some row)
    (hnames : hasValue row.serverNames = true →
      ∃ v, env.unmarshalServerNames row.serverNames = .ok v)
    (hhttp : hasValue row.http = true → ∃ v, env.unmarshalHTTP row.http = .ok v)
    (hhttps : hasValue row.https = true → ∃ v, env.unmarshalHTTPS row.https = .ok v)
    (htcp : hasValue row.tcp = true → ∃ v, env.unmarshalTCP row.tcp = .ok v)
    (htls : hasValue row.tls = true → ∃ v, env.unmarshalTLS row.tls = .ok v)
    (hunix : hasValue row.unix = true → ∃ v, env.unmarshalUnix row.unix = .ok v)
    (hudp : hasValue row.udp = true → ∃ v, env.unmarshalUDP row.udp = .ok v)
    (hrpRef : env.IsNotNull row.reverseProxy = true →
      ∃ v, env.unmarshalReverseProxyRef row.reverseProxy = .ok v)
    (hdns : ∀ id, ∃ d, env.FindEnabledDNSDomain id = .ok d)
    (hssl : ∀ id, ∃ p, env.ComposePolicyConfig id = .ok p)
    (hweb : ∀ id, ∃ w, env.ComposeWebConfig id = .ok w)
    (hrp : ∀ id, ∃ c, env.ComposeReverseProxyConfig id = .ok c) :
    ∃ cfg, ComposeServerConfig env s serverId = .ok cfg
      ∧ (∀ hc, hasValue row.https = true → env.unmarshalHTTPS row.https = .ok hc →
          (∀ ref, hc.sslPolicyRef = some ref → 0 < ref.sslPolicyId →
            env.ComposePolicyConfig ref.sslPolicyId = .ok none) →
          cfg.https = some hc
          ∧ cfg.https.bind (fun h => h.sslPolicy) = hc.sslPolicy)
      ∧ (∀ tc, hasValue row.tls = true → env.unmarshalTLS row.tls = .ok tc →
          (∀ ref, tc.sslPolicyRef = some ref →
            env.ComposePolicyConfig ref.sslPolicyId = .ok none) →
          cfg.tls = some tc
          ∧ cfg.tls.bind (fun h => h.sslPolicy) = tc.sslPolicy)
      ∧ (env.ComposeWebConfig row.webId = .ok none → cfg.web = none)
      ∧ (∀ ref, env.IsNotNull row.reverseProxy = true →
          env.unmarshalReverseProxyRef row.reverseProxy = .ok ref →
          env.ComposeReverseProxyConfig ref.reverseProxyId = .ok none →
          cfg.reverseProxyRef = some ref ∧ cfg.reverseProxy = none) := by
  obtain ⟨sn, h1⟩ := composeServerNames_ok env row hnames
  obtain ⟨al, h2⟩ := composeAliasServerNames_ok env s row hdns
  obtain ⟨h, h3⟩ := composeHTTP_ok env row hhttp
  obtain ⟨hs, h4⟩ := composeHTTPS_ok env row hhttps hssl
  obtain ⟨t, h5⟩ := composeTCP_ok env row htcp
  obtain ⟨tl, h6⟩ := composeTLS_ok env row htls hssl
  obtain ⟨ux, h7⟩ := composeUnix_ok env row hunix
  obtain ⟨ud, h8⟩ := composeUDP_ok env row hudp
  obtain ⟨w, h9⟩ := composeWeb_ok env row hweb
  obtain ⟨rp, h10⟩ := composeReverseProxy_ok env row hrpRef hrp
  refine ⟨{ id := serverId, type := row.type, isOn := row.isOn, name := row.name,
            description := row.description, serverNames := sn, aliasServerNames := al,
            http := h, https := hs, tcp := t, tls := tl, unix := ux, udp := ud,
            web := w, reverseProxyRef := rp.1, reverseProxy := rp.2 }, ?_, ?_, ?_, ?_, ?_⟩
  · rw [ComposeServerConfig_of_enabled env s serverId row hrow, composeFromRow_eq_ok]
    exact ⟨sn, al, h, hs, t, tl, ux, ud, w, rp, h1, h2, h3, h4, h5, h6, h7, h8, h9, h10, rfl⟩
  · intro hc hv hdec hmiss
    have := composeHTTPS_missing env row hc hv hdec hmiss
    rw [h4] at this
    have hhs : hs = some hc := Except.ok.inj this
    exact ⟨hhs, by rw [hhs]; rfl⟩
  · intro tc hv hdec hmiss
    have := composeTLS_missing env row tc hv hdec hmiss
    rw [h6] at this
    have htl : tl = some tc := Except.ok.inj this
    exact ⟨htl, by rw [htl]; rfl⟩
  · intro hmiss
    have := composeWeb_missing env row hmiss
    rw [h9] at this
    exact Except.ok.inj this
  · intro ref hv hdec hmiss
    have := composeReverseProxy_missing env row ref hv hdec hmiss
    rw [h10] at this
    have hrp' := Except.ok.inj this
    exact ⟨congrArg Prod.fst hrp', congrArg Prod.snd hrp'⟩

theorem ComposeServerConfig_missing_refs_witness :
    ∃ cfg, ComposeServerConfig dnsEnv
        { emptyStore with servers := [{ sampleServer 1 0 "" with https := [1], webId := 4 }] } 1
        = .ok cfg
      ∧ cfg.https = some { payload := [1], sslPolicyRef := some { isOn := true, sslPolicyId := 7 },
                           sslPolicy := none }
      ∧ cfg.https.bind (fun h => h.sslPolicy) = none
      ∧ cfg.web = none := by
  obtain ⟨cfg, h1, h2, _, h4, _⟩ := ComposeServerConfig_missing_refs dnsEnv
    { emptyStore with servers := [{ sampleServer 1 0 "" with https := [1], webId := 4 }] } 1
    { sampleServer 1 0 "" with https := [1], webId := 4 } (by decide)
    (fun _ => ⟨_, rfl⟩) (fun _ => ⟨_, rfl⟩) (fun _ => ⟨_, rfl⟩) (fun _ => ⟨_, rfl⟩)
    (fun _ => ⟨_, rfl⟩) (fun _ => ⟨_, rfl⟩) (fun _ => ⟨_, rfl⟩) (fun _ => ⟨_, rfl⟩)
    (fun _ => ⟨_, rfl⟩) (fun _ => ⟨_, rfl⟩) (fun _ => ⟨_, rfl⟩) (fun _ => ⟨_, rfl⟩)
  exact ⟨cfg, h1, (h2 _ (by decide) rfl (fun _ _ _ => rfl)).1,
    (h2 _ (by decide) rfl (fun _ _ _ => rfl)).2, h4 rfl⟩

theorem string_length_pos {x : String} (h : x ≠ "") : 0 < x.length := by
  rcases Nat.eq_zero_or_pos x.length with h0 | h0
  · exact absurd ((string_length_eq_zero x).mp h0) h
  · exact h0

/-- C19: when `ComposeServerConfig` succeeds for an enabled server, `AliasServerNames` is
the single name `server.dnsName + "." + domain.name` if the server has `clusterId > 0` and
a non-empty `dnsName`, its cluster row has `dnsDomainId > 0` and that DNS domain is found
enabled; in every other case `AliasServerNames` is empty. -/
theorem ComposeServerConfig_alias (env : Env) (s : Store) (serverId : Int) (row : Server)
    (cfg : ServerConfig) (hrow : FindEnabledServer s serverId = some row)
    (hcfg : ComposeServerConfig env s serverId = .ok cfg) :
    (∀ c d, 0 < row.clusterId → row.dnsName ≠ "" →
        FindClusterDNSInfo s row.clusterId = some c → 0 < c.dnsDomainId →
        env.FindEnabledDNSDomain c.dnsDomainId = .ok (some d) →
        cfg.aliasServerNames = [row.dnsName ++ "." ++ d.name])
    ∧ ((¬ ∃ c d, 0 < row.clusterId ∧ row.dnsName ≠ ""
          ∧ FindClusterDNSInfo s row.clusterId = some c ∧ 0 < c.dnsDomainId
          ∧ env.FindEnabledDNSDomain c.dnsDomainId = .ok (some d)) →
        cfg.aliasServerNames = []) := by
  rw [ComposeServerConfig_of_enabled env s serverId row hrow, composeFromRow_eq_ok] at hcfg
  obtain ⟨sn, al, h, hs, t, tl, ux, ud, w, rp, _, h2, _, _, _, _, _, _, _, _, hc⟩ := hcfg
  have hal : cfg.aliasServerNames = al := by rw [hc]
  rw [hal]
  constructor
  · intro c d hpos hname hcl hdom hd
    have hlen := string_length_pos hname
    simp only [composeAliasServerNames, hpos, hlen, and_self, if_true, hcl, hdom, hd,
      Except.ok.injEq] at h2
    exact h2.symm
  · intro hno
    unfold composeAliasServerNames at h2
    split at h2
    · next hcond =>
      cases hcl : FindClusterDNSInfo s row.clusterId with
      | none =>
        simp only [hcl, Except.ok.injEq] at h2
        exact h2.symm
      | some c =>
        simp only [hcl] at h2
        split at h2
        · next hdom =>
          cases hd : env.FindEnabledDNSDomain c.dnsDomainId with
          | error e => simp [hd] at h2
          | ok od =>
            cases od with
            | none =>
              simp only [hd, Except.ok.injEq] at h2
              exact h2.symm
            | some d =>
              exfalso
              apply hno
              refine ⟨c, d, hcond.1, ?_, hcl, hdom, hd⟩
              intro hempty
              have := hcond.2
              rw [hempty] at this
              exact absurd this (by decide)
        · simp only [Except.ok.injEq] at h2
          exact h2.symm
    · simp only [Except.ok.injEq] at h2
      exact h2.symm

theorem ComposeServerConfig_alias_witness :
    ComposeServerConfig dnsEnv (sampleStore "edge" 3) 1
      = .ok { id := 1, type := "httpProxy", isOn := true, name := "web", description := "",
              serverNames := none, aliasServerNames := ["a1b2c3d4.example.com"], http := none,
              https := none, tcp := none, tls := none, unix := none, udp := none, web := none,
              reverseProxyRef := none, reverseProxy := none }
    ∧ (({ id := 1, type := "httpProxy", isOn := true, name := "web", description := "",
          serverNames := none, aliasServerNames := ["a1b2c3d4.example.com"], http := none,
          https := none, tcp := none, tls := none, unix := none, udp := none, web := none,
          reverseProxyRef := none, reverseProxy := none } : ServerConfig)).aliasServerNames
        = ["a1b2c3d4" ++ "." ++ "example.com"] :=
  ⟨by decide,
   (ComposeServerConfig_alias dnsEnv (sampleStore "edge" 3) 1 (sampleServer 1 1 "")
    { id := 1, type := "httpProxy", isOn := true, name := "web", description := "",
      serverNames := none, aliasServerNames := ["a1b2c3d4.example.com"], http := none,
      https := none, tcp := none, tls := none, unix := none, udp := none, web := none,
      reverseProxyRef := none, reverseProxy := none }
    (by decide) (by decide)).1 (sampleCluster 1 "edge" 3) { id := 3, name := "example.com" }
    (by decide) (by decide) (by decide) (by decide) rfl⟩

/-- The setters that carry the guard `serverId <= 0`: at such an id each returns an error
and leaves the store as it was. -/
theorem guarded_setters_fail_fast (env : Env) (s : Store) (serverId : Int) (h : serverId ≤ 0)
    (name description : String) (clusterId webId now : Int) (isOn flag : Bool)
    (groupIds : List Int) (blob : Bytes) (result : ServerNameAuditingResult) :
    UpdateServerBasic env s serverId name description clusterId isOn groupIds
        = (.error (.msg "serverId should not be smaller than 0"), s)
    ∧ UpdateUserServerBasic env s serverId name
        = (.error (.msg "serverId should not be smaller than 0"), s)
    ∧ UpdateServerConfig env s serverId blob flag
        = (.error (.msg "serverId should not be smaller than 0"), s)
    ∧ UpdateServerHTTP env s serverId blob
        = (.error (.msg "serverId should not be smaller than 0"), s)
    ∧ UpdateServerHTTPS env s serverId blob
        = (.error (.msg "serverId should not be smaller than 0"), s)
    ∧ UpdateServerTCP env s serverId blob
        = (.error (.msg "serverId should not be smaller than 0"), s)
    ∧ UpdateServerTLS env s serverId blob
        = (.error (.msg "serverId should not be smaller than 0"), s)
    ∧ UpdateServerUnix env s serverId blob
        = (.error (.msg "serverId should not be smaller than 0"), s)
    ∧ UpdateServerUDP env s serverId blob
        = (.error (.msg "serverId should not be smaller than 0"), s)
    ∧ UpdateServerWeb env s serverId webId
        = (.error (.msg "serverId should not be smaller than 0"), s)
    ∧ UpdateServerNames env s serverId blob
        = (.error (.msg "serverId should not be smaller than 0"), s)
    ∧ UpdateAuditingServerNames env s serverId flag blob
        = (.error (.msg "serverId should not be smaller than 0"), s)
    ∧ UpdateServerAuditing env s now serverId result = (.error (.msg "invalid serverId"), s)
    ∧ UpdateServerReverseProxy env s serverId blob
        = (.error (.msg "serverId should not be smaller than 0"), s) := by
  refine ⟨?_, ?_, ?_, ?_, ?_, ?_, ?_, ?_, ?_, ?_, ?_, ?_, ?_, ?_⟩
  · simp only [UpdateServerBasic, if_pos h]
  · simp only [UpdateUserServerBasic, if_pos h]
  · simp only [UpdateServerConfig, if_pos h]
  · simp only [UpdateServerHTTP, if_pos h]
  · simp only [UpdateServerHTTPS, if_pos h]
  · simp only [UpdateServerTCP, if_pos h]
  · simp only [UpdateServerTLS, if_pos h]
  · simp only [UpdateServerUnix, if_pos h]
  · simp only [UpdateServerUDP, if_pos h]
  · simp only [UpdateServerWeb, if_pos h]
  · simp only [EdgeAPI.UpdateServerNames, if_pos h]
  · simp only [UpdateAuditingServerNames, if_pos h]
  · simp only [UpdateServerAuditing, if_pos h]
  · simp only [UpdateServerReverseProxy, if_pos h]

/-- C21 (failing input): `DisableServer` and `UpdateServerIsOn` carry no guard on the server
id. Called with server id 0 (and with -1) on a store whose only server has id 1, each
returns no error and leaves the store as it was, where the guarded sibling
`UpdateServerHTTP` returns its error. -/
theorem DisableServer_nonpositive_id :
    DisableServer sampleEnv (sampleStore "" 0) 0 = (.ok (), sampleStore "" 0)
    ∧ DisableServer sampleEnv (sampleStore "" 0) (-1) = (.ok (), sampleStore "" 0)
    ∧ UpdateServerIsOn sampleEnv (sampleStore "" 0) 0 false = (.ok (), sampleStore "" 0)
    ∧ UpdateServerIsOn sampleEnv (sampleStore "" 0) (-1) false = (.ok (), sampleStore "" 0)
    ∧ UpdateServerHTTP sampleEnv (sampleStore "" 0) 0 []
        = (.error (.msg "serverId should not be smaller than 0"), sampleStore "" 0) := by
  decide

/-! ## The ownership check -/

/-- C22 (counterexample): server 1 exists and belongs to user 7; the check for user 5
returns the not-found sentinel, the same value it returns on a store without servers. -/
theorem CheckUserServer_other_user_counterexample :
    findServer { emptyStore with servers := [userServer 1 1 7] } 1 = some (userServer 1 1 7)
    ∧ (userServer 1 1 7).userId ≠ 5
    ∧ CheckUserServer { emptyStore with servers := [userServer 1 1 7] } 5 1
        = .error .notFound
    ∧ CheckUserServer emptyStore 5 1 = .error .notFound := by
  decide

/-- C22 (amended): `CheckUserServer` returns no error exactly when both ids are positive and
a server row with that id and that user id exists; in every other case, a row owned by
another user included, what it returns is the not-found sentinel. -/
theorem CheckUserServer_spec (s : Store) (userId serverId : Int) :
    (CheckUserServer s userId serverId = .ok ()
      ↔ 0 < serverId ∧ 0 < userId ∧ ∃ r ∈ s.servers, r.id = serverId ∧ r.userId = userId)
    ∧ (CheckUserServer s userId serverId ≠ .ok ()
      → CheckUserServer s userId serverId = .error .notFound) := by
  unfold CheckUserServer
  by_cases hg : serverId ≤ 0 ∨ userId ≤ 0
  · rw [if_pos hg]
    refine ⟨⟨(fun h => nomatch h), fun h => ?_⟩, fun _ => rfl⟩
    rcases hg with hg | hg
    · exact absurd h.1 (not_lt.mpr hg)
    · exact absurd h.2.1 (not_lt.mpr hg)
  · rw [if_neg hg]
    have hpos : 0 < serverId ∧ 0 < userId := by
      constructor <;> by_contra hc <;> exact hg (by first | exact Or.inl (not_lt.mp hc) | exact Or.inr (not_lt.mp hc))
    by_cases ha : s.servers.any (fun r => decide (r.id = serverId ∧ r.userId = userId)) = true
    · rw [if_pos ha]
      refine ⟨⟨fun _ => ⟨hpos.1, hpos.2, ?_⟩, fun _ => rfl⟩, fun h => absurd rfl h⟩
      obtain ⟨r, hr, hp⟩ := List.any_eq_true.mp ha
      exact ⟨r, hr, of_decide_eq_true hp⟩
    · rw [if_neg ha]
      refine ⟨⟨(fun h => nomatch h), fun h => ?_⟩, fun _ => rfl⟩
      obtain ⟨_, _, r, hr, hp⟩ := h
      exact absurd (List.any_eq_true.mpr ⟨r, hr, decide_eq_true hp⟩) ha

theorem CheckUserServer_spec_witness :
    CheckUserServer { emptyStore with servers := [userServer 1 1 7] } 7 1 = .ok ()
    ∧ CheckUserServer { emptyStore with servers := [userServer 1 1 7] } 5 1
        = .error .notFound :=
  ⟨(CheckUserServer_spec { emptyStore with servers := [userServer 1 1 7] } 7 1).1.mpr
      ⟨by decide, by decide, userServer 1 1 7, List.mem_singleton_self _, by decide, by decide⟩,
   (CheckUserServer_spec { emptyStore with servers := [userServer 1 1 7] } 5 1).2
      (by decide)⟩

/-! ## Structural changes of a cluster -/

/-- The three cluster mutators leave the task table as it was, whatever the arguments. -/
theorem cluster_mutators_nodeTasks (s : Store) (clusterId grantId : Int)
    (name installDir : String) :
    (EnableNodeCluster s clusterId).2.nodeTasks = s.nodeTasks
    ∧ (DisableNodeCluster s clusterId).2.nodeTasks = s.nodeTasks
    ∧ (UpdateCluster s clusterId name grantId installDir).2.nodeTasks = s.nodeTasks := by
  refine ⟨rfl, rfl, ?_⟩
  unfold UpdateCluster
  split <;> rfl

/-- C25 (failing input): on a store with cluster 1 and an empty task table,
`DisableNodeCluster`, `EnableNodeCluster` and `UpdateCluster` for cluster 1 return no
error, write the row and leave the task table empty, where the sibling
`UpdateNodeClusterHTTPCachePolicyId` appends the config-changed task of cluster 1. -/
theorem DisableNodeCluster_no_task :
    DisableNodeCluster (sampleStore "" 0) 1
        = (.ok (), { sampleStore "" 0 with
            clusters := [{ sampleCluster 1 "" 0 with state := NodeClusterStateDisabled }] })
    ∧ (DisableNodeCluster (sampleStore "" 0) 1).2.nodeTasks = []
    ∧ (EnableNodeCluster (DisableNodeCluster (sampleStore "" 0) 1).2 1).1 = .ok ()
    ∧ (EnableNodeCluster (DisableNodeCluster (sampleStore "" 0) 1).2 1).2.clusters
        = [sampleCluster 1 "" 0]
    ∧ (EnableNodeCluster (DisableNodeCluster (sampleStore "" 0) 1).2 1).2.nodeTasks = []
    ∧ UpdateCluster (sampleStore "" 0) 1 "renamed" 4 "/opt/edge"
        = (.ok (), { sampleStore "" 0 with
            clusters := [{ sampleCluster 1 "" 0 with
              name := "renamed", grantId := 4, installDir := "/opt/edge" }] })
    ∧ (UpdateCluster (sampleStore "" 0) 1 "renamed" 4 "/opt/edge").2.nodeTasks = []
    ∧ (UpdateNodeClusterHTTPCachePolicyId (sampleStore "" 0) 1 9).2.nodeTasks
        = [{ clusterId := 1, nodeId := 0, taskType := .configChanged }] := by
  decide

/-! ## The user id of the access-log query -/

/-- Whenever `ListHTTPAccessLogs` reaches the query, the user id it hands over is the one
of the request. -/
theorem ListHTTPAccessLogs_userId (env : Env) (s : Store) (caller : Except Err (Int × Int))
    (req query : AccessLogQuery) (h : ListHTTPAccessLogs env s caller req = .ok query) :
    query.userId = req.userId := by
  unfold ListHTTPAccessLogs at h
  split at h
  · cases h
  · simp only at h
    split at h
    · split at h
      · cases h
      · split at h
        · split at h
          · cases h
          · cases h; rfl
        · cases h; rfl
    · cases h; rfl

/-- C27 (failing input): the caller is user 5 and the request names neither a server nor a
user; the request is not rejected and the user id handed to the access-log query is 0,
not 5. -/
theorem ListHTTPAccessLogs_caller_dropped :
    ListHTTPAccessLogs sampleEnv emptyStore (.ok (0, 5)) sampleLogRequest
        = .ok sampleLogRequest
    ∧ sampleLogRequest.userId = 0
    ∧ sampleLogRequest.serverId = 0 := by
  decide

/-! ## Which mutations reach the DNS notification -/

/-- C23 (failing input): server 1 is on and belongs to cluster 1, which has the DNS name
`edge` and DNS domain 3, so that `NotifyDNSUpdate` for server 1 appends a DNS task.
`UpdateServerIsOn(1, false)` returns no error, writes `isOn`, appends the config-changed
task and appends no DNS task; neither do `EnableServer` and `UpdateUserServersClusterId`
(user 5 moving from cluster 1 to cluster 2). On a store with address 1 of node 3,
`UpdateAddress`, `UpdateAddressIP`, `DisableAddress` and `DisableAllAddressesWithNodeId`
append no DNS task either, where `UpdateAddressNodeId` and `CreateAddress` append the one
of the node. -/
theorem UpdateServerIsOn_no_dns_task :
    (NotifyDNSUpdate (sampleStore "edge" 3) 1).2.dnsTasks
        = [{ clusterId := 0, serverId := 1, nodeId := 0, taskType := .serverChange }]
    ∧ (UpdateServerIsOn sampleEnv (sampleStore "edge" 3) 1 false).1 = .ok ()
    ∧ (findServer (UpdateServerIsOn sampleEnv (sampleStore "edge" 3) 1 false).2 1).map
        (fun r => r.isOn) = some false
    ∧ (UpdateServerIsOn sampleEnv (sampleStore "edge" 3) 1 false).2.nodeTasks
        = [{ clusterId := 1, nodeId := 0, taskType := .configChanged }]
    ∧ (UpdateServerIsOn sampleEnv (sampleStore "edge" 3) 1 false).2.dnsTasks = []
    ∧ (EnableServer (DisableServer sampleEnv (sampleStore "edge" 3) 1).2 1).2.dnsTasks
        = (DisableServer sampleEnv (sampleStore "edge" 3) 1).2.dnsTasks
    ∧ (findServer (EnableServer (DisableServer sampleEnv (sampleStore "edge" 3) 1).2 1).2 1).map
        (fun r => r.state) = some ServerStateEnabled
    ∧ (UpdateUserServersClusterId sampleEnv
        { sampleStore "edge" 3 with servers := [userServer 1 1 5] } 5 2).1 = .ok ()
    ∧ (UpdateUserServersClusterId sampleEnv
        { sampleStore "edge" 3 with servers := [userServer 1 1 5] } 5 2).2.servers
        = [userServer 1 2 5]
    ∧ (UpdateUserServersClusterId sampleEnv
        { sampleStore "edge" 3 with servers := [userServer 1 1 5] } 5 2).2.dnsTasks = []
    ∧ UpdateAddress { emptyStore with addresses := [sampleAddress 1] } 1 "eth0" "192.0.2.9" true
        = (.ok (), { emptyStore with
            addresses := [{ sampleAddress 1 with ip := "192.0.2.9" }] })
    ∧ UpdateAddressIP { emptyStore with addresses := [sampleAddress 1] } 1 "192.0.2.9"
        = (.ok (), { emptyStore with
            addresses := [{ sampleAddress 1 with ip := "192.0.2.9" }] })
    ∧ DisableAddress { emptyStore with addresses := [sampleAddress 1] } 1
        = (.ok (), { emptyStore with
            addresses := [{ sampleAddress 1 with state := NodeIPAddressStateDisabled }] })
    ∧ DisableAllAddressesWithNodeId { emptyStore with addresses := [sampleAddress 1] }
        "node" 3 ""
        = (.ok (), { emptyStore with
            addresses := [{ sampleAddress 1 with state := NodeIPAddressStateDisabled }] })
    ∧ (UpdateAddressNodeId { emptyStore with addresses := [sampleAddress 1] } 1 4).2.dnsTasks
        = [{ clusterId := 0, serverId := 0, nodeId := 4, taskType := .nodeChange }]
    ∧ (CreateAddress emptyStore "node" 3 "" "eth0" "192.0.2.1" true).2.dnsTasks
        = [{ clusterId := 0, serverId := 0, nodeId := 3, taskType := .nodeChange }] := by
  decide

/-! ## The config-changed task of the setters -/

theorem NotifyDNSUpdate_nodeTasks (s : Store) (serverId : Int) :
    (NotifyDNSUpdate s serverId).2.nodeTasks = s.nodeTasks := by
  unfold NotifyDNSUpdate
  simp only
  split
  · rfl
  · split
    · rfl
    · split <;> rfl

/-- A write that keeps the id of the row, followed by `NotifyUpdate`: when that returns no
error and the cluster id stored after the write is not 0, exactly one task is appended,
the config-changed one of that cluster. -/
theorem NotifyUpdate_update_nodeTasks (env : Env) (s : Store) (serverId : Int)
    (f : Server → Server)
    (hc : FindServerClusterId (updateServer s serverId f) serverId ≠ 0)
    (hok : (NotifyUpdate env (updateServer s serverId f) serverId).1 = .ok ()) :
    (NotifyUpdate env (updateServer s serverId f) serverId).2.nodeTasks
      = s.nodeTasks ++ [{ clusterId := FindServerClusterId (updateServer s serverId f) serverId,
                          nodeId := 0, taskType := .configChanged }] := by
  rw [NotifyUpdate_eq_of_ok env _ serverId hc hok]
  rfl

/-- The same for a write that keeps the cluster id of the row as well. -/
theorem NotifyUpdate_column_nodeTasks (env : Env) (s : Store) (serverId : Int)
    (f : Server → Server) (hf : ∀ r, (f r).id = r.id)
    (hcl : ∀ r, (f r).clusterId = r.clusterId)
    (hc : FindServerClusterId s serverId ≠ 0)
    (hok : (NotifyUpdate env (updateServer s serverId f) serverId).1 = .ok ()) :
    (NotifyUpdate env (updateServer s serverId f) serverId).2.nodeTasks
      = s.nodeTasks ++ [{ clusterId := FindServerClusterId s serverId,
                          nodeId := 0, taskType := .configChanged }] := by
  have h := FindServerClusterId_updateServer s serverId serverId f hf hcl
  rw [NotifyUpdate_update_nodeTasks env s serverId f (by rw [h]; exact hc) hok, h]

/-- A `NotifyUpdate` followed by `NotifyDNSUpdate`, as `DisableServer`, `UpdateServerBasic`
and `UpdateServerAuditing` end: when the pair returns no error, so did `NotifyUpdate`, and
the node tasks are the ones `NotifyUpdate` left. -/
theorem then_NotifyDNSUpdate (r : Res Unit) (serverId : Int) :
    (match r with
      | (.error e, s2) => ((.error e, s2) : Res Unit)
      | (.ok _, s2) => NotifyDNSUpdate s2 serverId).1 = .ok () →
    r.1 = .ok ()
    ∧ (match r with
        | (.error e, s2) => ((.error e, s2) : Res Unit)
        | (.ok _, s2) => NotifyDNSUpdate s2 serverId).2.nodeTasks = r.2.nodeTasks
    ∧ (match r with
        | (.error e, s2) => ((.error e, s2) : Res Unit)
        | (.ok _, s2) => NotifyDNSUpdate s2 serverId) = NotifyDNSUpdate r.2 serverId := by
  rcases r with ⟨x, s2⟩
  cases x with
  | error e => exact fun h => nomatch h
  | ok u => exact fun _ => ⟨rfl, NotifyDNSUpdate_nodeTasks s2 serverId, rfl⟩

theorem FindServerClusterId_set (s : Store) (serverId clusterId : Int) (f : Server → Server)
    (hf : ∀ r, (f r).id = r.id) (hcl : ∀ r, (f r).clusterId = clusterId)
    (h : FindServerClusterId s serverId ≠ 0) :
    FindServerClusterId (updateServer s serverId f) serverId = clusterId := by
  unfold FindServerClusterId at h ⊢
  cases hrow : findServer s serverId with
  | none => rw [hrow] at h; exact absurd rfl h
  | some row =>
    rw [findServer_updateServer_self s serverId f hf hrow]
    exact hcl row

/-! The theorem for C24 and C30 rests on the lemmas below. -/

theorem NotifyUpdate_nodeTasks_zero (env : Env) (s : Store) (serverId : Int)
    (h0 : FindServerClusterId s serverId = 0)
    (hok : (NotifyUpdate env s serverId).1 = .ok ()) :
    (NotifyUpdate env s serverId).2.nodeTasks = s.nodeTasks := by
  rw [(NotifyUpdate_of_ok env s serverId hok).1]
  have h1 : FindServerClusterId (RenewServerConfig env s serverId true).2 serverId = 0 := by
    rw [RenewServerConfig_clusterId]
    exact h0
  unfold notifyUpdateTask
  simp only [h1]
  rw [if_pos trivial]
  exact RenewServerConfig_nodeTasks env s serverId true

/-- What `NotifyUpdate` leaves alone: the cluster rows, the DNS tasks and the cluster id of
every server. -/
theorem NotifyUpdate_keeps (env : Env) (s : Store) (serverId : Int) :
    (NotifyUpdate env s serverId).2.clusters = s.clusters
    ∧ (NotifyUpdate env s serverId).2.dnsTasks = s.dnsTasks
    ∧ ∀ target, FindServerClusterId (NotifyUpdate env s serverId).2 target
        = FindServerClusterId s target := by
  have hkeep : (RenewServerConfig env s serverId true).2.clusters = s.clusters
      ∧ (RenewServerConfig env s serverId true).2.dnsTasks = s.dnsTasks := by
    rcases RenewServerConfig_store env s serverId true with h | ⟨data, md5, h⟩
    · rw [h]
      exact ⟨rfl, rfl⟩
    · rw [h]
      exact ⟨rfl, rfl⟩
  refine ⟨?_, ?_, fun target => ?_⟩
  · unfold NotifyUpdate
    rcases hR : RenewServerConfig env s serverId true with ⟨r, s1⟩
    rw [hR] at hkeep
    cases r with
    | error e =>
      by_cases he : e = Err.notFound
      · simp only [he, ne_eq, not_true_eq_false, if_false]
        unfold notifyUpdateTask
        simp only
        split <;> exact hkeep.1
      · simp only [ne_eq, he, not_false_eq_true, if_true]
        exact hkeep.1
    | ok b =>
      simp only
      unfold notifyUpdateTask
      simp only
      split <;> exact hkeep.1
  · unfold NotifyUpdate
    rcases hR : RenewServerConfig env s serverId true with ⟨r, s1⟩
    rw [hR] at hkeep
    cases r with
    | error e =>
      by_cases he : e = Err.notFound
      · simp only [he, ne_eq, not_true_eq_false, if_false]
        unfold notifyUpdateTask
        simp only
        split <;> exact hkeep.2
      · simp only [ne_eq, he, not_false_eq_true, if_true]
        exact hkeep.2
    | ok b =>
      simp only
      unfold notifyUpdateTask
      simp only
      split <;> exact hkeep.2
  · unfold FindServerClusterId
    rw [findServer_congr (NotifyUpdate_servers env s serverId) target]
    exact RenewServerConfig_clusterId env s serverId target true

/-- A call of `UpdateServerBasic` that returns no error: the id is positive, the
`NotifyUpdate` after the write returned no error, and the result is what `NotifyDNSUpdate`
made of the store that `NotifyUpdate` left. -/
theorem UpdateServerBasic_of_ok (env : Env) (s : Store) (serverId : Int)
    (name description : String) (clusterId : Int) (isOn : Bool) (groupIds : List Int)
    (hok : (UpdateServerBasic env s serverId name description clusterId isOn groupIds).1
      = .ok ()) :
    ∃ f : Server → Server, (∀ r, (f r).id = r.id) ∧ (∀ r, (f r).clusterId = clusterId)
      ∧ 0 < serverId
      ∧ (NotifyUpdate env (updateServer s serverId f) serverId).1 = .ok ()
      ∧ UpdateServerBasic env s serverId name description clusterId isOn groupIds
          = NotifyDNSUpdate (NotifyUpdate env (updateServer s serverId f) serverId).2
              serverId := by
  unfold UpdateServerBasic at hok ⊢
  by_cases hg : serverId ≤ 0
  · rw [if_pos hg] at hok
    cases hok
  · simp only [if_neg hg] at hok ⊢
    generalize (if groupIds.length = 0 then Except.ok (strBytes "[]")
      else env.marshalGroupIds groupIds) = g at hok ⊢
    cases g with
    | error e => cases hok
    | ok blob =>
      simp only at hok ⊢
      have h := then_NotifyDNSUpdate
        (NotifyUpdate env (updateServer s serverId (fun r =>
          { r with
            name := name
            description := description
            clusterId := clusterId
            isOn := isOn
            groupIds := blob })) serverId) serverId hok
      exact ⟨fun r =>
        { r with
          name := name
          description := description
          clusterId := clusterId
          isOn := isOn
          groupIds := blob }, fun _ => rfl, fun _ => rfl, not_le.mp hg, h.1, h.2.2⟩

/-! ## C24 -/

/-- C24 (counterexample): server 1 belongs to cluster 1. `UpdateServerBasic` with cluster
id 0 returns no error, writes the row and appends no task at all; and `UpdateServerConfig`
with a changed configuration returns no error, writes the row and appends no task. -/
theorem UpdateServerBasic_no_task_counterexample :
    FindServerClusterId (sampleStore "" 0) 1 = 1
    ∧ (UpdateServerBasic sampleEnv (sampleStore "" 0) 1 "web" "" 0 true []).1 = .ok ()
    ∧ (findServer (UpdateServerBasic sampleEnv (sampleStore "" 0) 1 "web" "" 0 true []).2 1).map
        (fun r => (r.name, r.clusterId)) = some ("web", 0)
    ∧ (UpdateServerBasic sampleEnv (sampleStore "" 0) 1 "web" "" 0 true []).2.nodeTasks = []
    ∧ (UpdateServerConfig sampleEnv (sampleStore "" 0) 1 [1] true).1 = .ok true
    ∧ (findServer (UpdateServerConfig sampleEnv (sampleStore "" 0) 1 [1] true).2 1).map
        (fun r => r.config) = some [1]
    ∧ (UpdateServerConfig sampleEnv (sampleStore "" 0) 1 [1] true).2.nodeTasks = [] := by
  decide

/-- C24 (amended): for a server whose stored cluster id is not 0, each setter that ends
with `NotifyUpdate` and returns no error appends exactly one task, the config-changed task
of the cluster id stored on the row after the write: the server's cluster for the column
setters and `DisableServer`, the new cluster id for `UpdateServerBasic`, and no task when
that new id is 0. The two cluster policy assignments always return no error and append
the config-changed task of their cluster. `UpdateServerConfig` appends no task. -/
theorem setters_config_task (env : Env) (s : Store) (serverId : Int)
    (hc : FindServerClusterId s serverId ≠ 0) :
    (∀ (blob : Bytes), (UpdateServerHTTP env s serverId blob).1 = .ok () →
        (UpdateServerHTTP env s serverId blob).2.nodeTasks
          = s.nodeTasks ++ [{ clusterId := FindServerClusterId s serverId, nodeId := 0,
                              taskType := .configChanged }])
    ∧ (∀ (_ : Unit), (DisableServer env s serverId).1 = .ok () →
        (DisableServer env s serverId).2.nodeTasks
          = s.nodeTasks ++ [{ clusterId := FindServerClusterId s serverId, nodeId := 0,
                              taskType := .configChanged }])
    ∧ (∀ (name : String), (UpdateUserServerBasic env s serverId name).1 = .ok () →
        (UpdateUserServerBasic env s serverId name).2.nodeTasks
          = s.nodeTasks ++ [{ clusterId := FindServerClusterId s serverId, nodeId := 0,
                              taskType := .configChanged }])
    ∧ (∀ (isOn : Bool), (UpdateServerIsOn env s serverId isOn).1 = .ok () →
        (UpdateServerIsOn env s serverId isOn).2.nodeTasks
          = s.nodeTasks ++ [{ clusterId := FindServerClusterId s serverId, nodeId := 0,
                              taskType := .configChanged }])
    ∧ (∀ (blob : Bytes), (UpdateServerHTTPS env s serverId blob).1 = .ok () →
        (UpdateServerHTTPS env s serverId blob).2.nodeTasks
          = s.nodeTasks ++ [{ clusterId := FindServerClusterId s serverId, nodeId := 0,
                              taskType := .configChanged }])
    ∧ (∀ (blob : Bytes), (UpdateServerTCP env s serverId blob).1 = .ok () →
        (UpdateServerTCP env s serverId blob).2.nodeTasks
          = s.nodeTasks ++ [{ clusterId := FindServerClusterId s serverId, nodeId := 0,
                              taskType := .configChanged }])
    ∧ (∀ (blob : Bytes), (UpdateServerTLS env s serverId blob).1 = .ok () →
        (UpdateServerTLS env s serverId blob).2.nodeTasks
          = s.nodeTasks ++ [{ clusterId := FindServerClusterId s serverId, nodeId := 0,
                              taskType := .configChanged }])
    ∧ (∀ (blob : Bytes), (UpdateServerUnix env s serverId blob).1 = .ok () →
        (UpdateServerUnix env s serverId blob).2.nodeTasks
          = s.nodeTasks ++ [{ clusterId := FindServerClusterId s serverId, nodeId := 0,
                              taskType := .configChanged }])
    ∧ (∀ (blob : Bytes), (UpdateServerUDP env s serverId blob).1 = .ok () →
        (UpdateServerUDP env s serverId blob).2.nodeTasks
          = s.nodeTasks ++ [{ clusterId := FindServerClusterId s serverId, nodeId := 0,
                              taskType := .configChanged }])
    ∧ (∀ (webId : Int), (UpdateServerWeb env s serverId webId).1 = .ok () →
        (UpdateServerWeb env s serverId webId).2.nodeTasks
          = s.nodeTasks ++ [{ clusterId := FindServerClusterId s serverId, nodeId := 0,
                              taskType := .configChanged }])
    ∧ (∀ (blob : Bytes), (UpdateServerNames env s serverId blob).1 = .ok () →
        (UpdateServerNames env s serverId blob).2.nodeTasks
          = s.nodeTasks ++ [{ clusterId := FindServerClusterId s serverId, nodeId := 0,
                              taskType := .configChanged }])
    ∧ (∀ (isAuditing : Bool) (blob : Bytes), (UpdateAuditingServerNames env s serverId isAuditing blob).1 = .ok () →
        (UpdateAuditingServerNames env s serverId isAuditing blob).2.nodeTasks
          = s.nodeTasks ++ [{ clusterId := FindServerClusterId s serverId, nodeId := 0,
                              taskType := .configChanged }])
    ∧ (∀ (blob : Bytes), (UpdateServerReverseProxy env s serverId blob).1 = .ok () →
        (UpdateServerReverseProxy env s serverId blob).2.nodeTasks
          = s.nodeTasks ++ [{ clusterId := FindServerClusterId s serverId, nodeId := 0,
                              taskType := .configChanged }])
    ∧ (∀ (now : Int) (result : ServerNameAuditingResult),
        (UpdateServerAuditing env s now serverId result).1 = .ok () →
        (UpdateServerAuditing env s now serverId result).2.nodeTasks
          = s.nodeTasks ++ [{ clusterId := FindServerClusterId s serverId, nodeId := 0,
                              taskType := .configChanged }])
    ∧ (∀ (name description : String) (clusterId : Int) (isOn : Bool) (groupIds : List Int),
        (UpdateServerBasic env s serverId name description clusterId isOn groupIds).1 = .ok () →
        (UpdateServerBasic env s serverId name description clusterId isOn groupIds).2.nodeTasks
          = if clusterId = 0 then s.nodeTasks
            else s.nodeTasks ++ [{ clusterId := clusterId, nodeId := 0,
                                   taskType := .configChanged }])
    ∧ (∀ (clusterId policyId : Int),
        (UpdateNodeClusterHTTPCachePolicyId s clusterId policyId).1 = .ok ()
        ∧ (UpdateNodeClusterHTTPCachePolicyId s clusterId policyId).2.nodeTasks
            = s.nodeTasks ++ [{ clusterId := clusterId, nodeId := 0,
                                taskType := .configChanged }]
        ∧ (UpdateNodeClusterHTTPFirewallPolicyId s clusterId policyId).1 = .ok ()
        ∧ (UpdateNodeClusterHTTPFirewallPolicyId s clusterId policyId).2.nodeTasks
            = s.nodeTasks ++ [{ clusterId := clusterId, nodeId := 0,
                                taskType := .configChanged }])
    ∧ (∀ (blob : Bytes) (updateMd5 : Bool),
        (UpdateServerConfig env s serverId blob updateMd5).2.nodeTasks = s.nodeTasks) := by
  refine ⟨?_, ?_, ?_, ?_, ?_, ?_, ?_, ?_, ?_, ?_, ?_, ?_, ?_, ?_, ?_, ?_, ?_⟩
  · intro blob hok
    unfold UpdateServerHTTP at hok ⊢
    by_cases hg : serverId ≤ 0
    · rw [if_pos hg] at hok
      cases hok
    · simp only [if_neg hg] at hok ⊢
      exact NotifyUpdate_column_nodeTasks env s serverId _ (fun _ => rfl) (fun _ => rfl) hc hok
  · intro _ hok
    unfold DisableServer at hok ⊢
    simp only at hok ⊢
    obtain ⟨h1, h2, _⟩ := then_NotifyDNSUpdate _ serverId hok
    exact h2.trans
      (NotifyUpdate_column_nodeTasks env s serverId _ (fun _ => rfl) (fun _ => rfl) hc h1)
  · intro name hok
    unfold UpdateUserServerBasic at hok ⊢
    by_cases hg : serverId ≤ 0
    · rw [if_pos hg] at hok
      cases hok
    · simp only [if_neg hg] at hok ⊢
      exact NotifyUpdate_column_nodeTasks env s serverId _ (fun _ => rfl) (fun _ => rfl) hc hok
  · intro isOn hok
    unfold UpdateServerIsOn at hok ⊢
    exact NotifyUpdate_column_nodeTasks env s serverId _ (fun _ => rfl) (fun _ => rfl) hc hok
  · intro blob hok
    unfold UpdateServerHTTPS at hok ⊢
    by_cases hg : serverId ≤ 0
    · rw [if_pos hg] at hok
      cases hok
    · simp only [if_neg hg] at hok ⊢
      exact NotifyUpdate_column_nodeTasks env s serverId _ (fun _ => rfl) (fun _ => rfl) hc hok
  · intro blob hok
    unfold UpdateServerTCP at hok ⊢
    by_cases hg : serverId ≤ 0
    · rw [if_pos hg] at hok
      cases hok
    · simp only [if_neg hg] at hok ⊢
      exact NotifyUpdate_column_nodeTasks env s serverId _ (fun _ => rfl) (fun _ => rfl) hc hok
  · intro blob hok
    unfold UpdateServerTLS at hok ⊢
    by_cases hg : serverId ≤ 0
    · rw [if_pos hg] at hok
      cases hok
    · simp only [if_neg hg] at hok ⊢
      exact NotifyUpdate_column_nodeTasks env s serverId _ (fun _ => rfl) (fun _ => rfl) hc hok
  · intro blob hok
    unfold UpdateServerUnix at hok ⊢
    by_cases hg : serverId ≤ 0
    · rw [if_pos hg] at hok
      cases hok
    · simp only [if_neg hg] at hok ⊢
      exact NotifyUpdate_column_nodeTasks env s serverId _ (fun _ => rfl) (fun _ => rfl) hc hok
  · intro blob hok
    unfold UpdateServerUDP at hok ⊢
    by_cases hg : serverId ≤ 0
    · rw [if_pos hg] at hok
      cases hok
    · simp only [if_neg hg] at hok ⊢
      exact NotifyUpdate_column_nodeTasks env s serverId _ (fun _ => rfl) (fun _ => rfl) hc hok
  · intro webId hok
    unfold UpdateServerWeb at hok ⊢
    by_cases hg : serverId ≤ 0
    · rw [if_pos hg] at hok
      cases hok
    · simp only [if_neg hg] at hok ⊢
      exact NotifyUpdate_column_nodeTasks env s serverId _ (fun _ => rfl) (fun _ => rfl) hc hok
  · intro blob hok
    unfold EdgeAPI.UpdateServerNames at hok ⊢
    by_cases hg : serverId ≤ 0
    · rw [if_pos hg] at hok
      cases hok
    · simp only [if_neg hg] at hok ⊢
      exact NotifyUpdate_column_nodeTasks env s serverId _ (fun _ => rfl) (fun _ => rfl) hc hok
  · intro isAuditing blob hok
    unfold UpdateAuditingServerNames at hok ⊢
    by_cases hg : serverId ≤ 0
    · rw [if_pos hg] at hok
      cases hok
    · simp only [if_neg hg] at hok ⊢
      exact NotifyUpdate_column_nodeTasks env s serverId _ (fun _ => rfl) (fun _ => rfl) hc hok
  · intro blob hok
    unfold UpdateServerReverseProxy at hok ⊢
    by_cases hg : serverId ≤ 0
    · rw [if_pos hg] at hok
      cases hok
    · simp only [if_neg hg] at hok ⊢
      exact NotifyUpdate_column_nodeTasks env s serverId _ (fun _ => rfl) (fun _ => rfl) hc hok
  · intro now result hok
    unfold UpdateServerAuditing at hok ⊢
    by_cases hg : serverId ≤ 0
    · rw [if_pos hg] at hok
      cases hok
    · simp only [if_neg hg] at hok ⊢
      cases hm : env.marshalAuditingResult result.isOk result.reason now with
      | error e =>
        rw [hm] at hok
        cases hok
      | ok resultJSON =>
        simp only [hm] at hok ⊢
        obtain ⟨h1, h2, _⟩ := then_NotifyDNSUpdate _ serverId hok
        exact h2.trans
          (NotifyUpdate_column_nodeTasks env s serverId _ (fun _ => rfl) (fun _ => rfl) hc h1)
  · intro name description clusterId isOn groupIds hok
    obtain ⟨f, hf, hcl, _, h1, h2⟩ :=
      UpdateServerBasic_of_ok env s serverId name description clusterId isOn groupIds hok
    have hset := FindServerClusterId_set s serverId clusterId f hf hcl hc
    rw [h2, NotifyDNSUpdate_nodeTasks]
    by_cases h0 : clusterId = 0
    · rw [if_pos h0]
      exact NotifyUpdate_nodeTasks_zero env _ serverId (by rw [hset]; exact h0) h1
    · rw [if_neg h0, NotifyUpdate_update_nodeTasks env s serverId f (by rw [hset]; exact h0) h1,
        hset]
  · intro clusterId policyId
    exact ⟨rfl, rfl, rfl, rfl⟩
  · intro blob updateMd5
    rcases UpdateServerConfig_cases env s serverId blob updateMd5 with
      ⟨e, _, he⟩ | ⟨_, _, hsame⟩ | ⟨_, _, hdiff⟩
    · rw [he]
    · rw [hsame]
    · rw [hdiff]
      rfl

theorem setters_config_task_witness :
    FindServerClusterId (sampleStore "" 0) 1 ≠ 0
    ∧ (UpdateServerHTTP sampleEnv (sampleStore "" 0) 1 [1]).1 = .ok ()
    ∧ (UpdateServerHTTP sampleEnv (sampleStore "" 0) 1 [1]).2.nodeTasks
        = [{ clusterId := 1, nodeId := 0, taskType := .configChanged }] :=
  ⟨by decide, by decide,
   (setters_config_task sampleEnv (sampleStore "" 0) 1 (by decide)).1 [1] (by decide)⟩

/-! ## C30 -/

/-- C30: `UpdateServerBasic` that returns no error for an existing server and a new
cluster id B > 0, whatever cluster A the row named before: the node tasks it appends are
exactly one config-changed task, for B (so none for A when A differs from B), and the DNS
task is decided by the DNS binding of B alone: one server-change DNS task when B's row has a
name and a domain, none when B has no row, no name or no domain. -/
theorem UpdateServerBasic_move (env : Env) (s : Store) (serverId : Int)
    (name description : String) (B : Int) (isOn : Bool) (groupIds : List Int) (row : Server)
    (hrow : findServer s serverId = some row) (hB : 0 < B)
    (hok : (UpdateServerBasic env s serverId name description B isOn groupIds).1 = .ok ()) :
    (UpdateServerBasic env s serverId name description B isOn groupIds).2.nodeTasks
        = s.nodeTasks ++ [{ clusterId := B, nodeId := 0, taskType := .configChanged }]
    ∧ (∀ c, FindClusterDNSInfo s B = some c → c.dnsName ≠ "" → 0 < c.dnsDomainId →
        (UpdateServerBasic env s serverId name description B isOn groupIds).2.dnsTasks
          = s.dnsTasks ++ [{ clusterId := 0, serverId := serverId, nodeId := 0,
                              taskType := .serverChange }])
    ∧ (FindClusterDNSInfo s B = none
        ∨ (∃ c, FindClusterDNSInfo s B = some c ∧ (c.dnsName = "" ∨ c.dnsDomainId ≤ 0)) →
        (UpdateServerBasic env s serverId name description B isOn groupIds).2.dnsTasks
          = s.dnsTasks) := by
  obtain ⟨f, hf, hcl, _, h1, h2⟩ :=
    UpdateServerBasic_of_ok env s serverId name description B isOn groupIds hok
  have hset : FindServerClusterId (updateServer s serverId f) serverId = B := by
    unfold FindServerClusterId
    rw [findServer_updateServer_self s serverId f hf hrow]
    exact hcl row
  obtain ⟨hk1, hk2, hk3⟩ := NotifyUpdate_keeps env (updateServer s serverId f) serverId
  have hcid : FindServerClusterId (NotifyUpdate env (updateServer s serverId f) serverId).2
      serverId = B := by rw [hk3, hset]
  have hdns : FindClusterDNSInfo (NotifyUpdate env (updateServer s serverId f) serverId).2 B
      = FindClusterDNSInfo s B := by
    unfold FindClusterDNSInfo
    rw [hk1]
    rfl
  have hd : (NotifyUpdate env (updateServer s serverId f) serverId).2.dnsTasks = s.dnsTasks :=
    hk2
  refine ⟨?_, ?_, ?_⟩
  · rw [h2, NotifyDNSUpdate_nodeTasks,
      NotifyUpdate_update_nodeTasks env s serverId f (by rw [hset]; omega) h1, hset]
  · intro c hc hname hdom
    rw [h2, NotifyDNSUpdate_eq_task _ serverId c (by rw [hcid]; exact hB)
      (by rw [hcid, hdns]; exact hc) hname hdom]
    simp only [hd]
  · intro h
    rw [h2, NotifyDNSUpdate_eq_noop _ serverId (by
      rcases h with h | ⟨c, hc, h⟩
      · exact Or.inr (Or.inl (by rw [hcid, hdns]; exact h))
      · exact Or.inr (Or.inr ⟨c, by rw [hcid, hdns]; exact hc, h⟩))]
    exact hd

theorem UpdateServerBasic_move_witness :
    findServer { sampleStore "" 0 with
        clusters := [sampleCluster 1 "" 0, sampleCluster 2 "edge" 3] } 1
      = some (sampleServer 1 1 "")
    ∧ (UpdateServerBasic sampleEnv { sampleStore "" 0 with
        clusters := [sampleCluster 1 "" 0, sampleCluster 2 "edge" 3] } 1 "web" "" 2 true
        []).2.nodeTasks
      = [{ clusterId := 2, nodeId := 0, taskType := .configChanged }]
    ∧ (UpdateServerBasic sampleEnv { sampleStore "" 0 with
        clusters := [sampleCluster 1 "" 0, sampleCluster 2 "edge" 3] } 1 "web" "" 2 true
        []).2.dnsTasks
      = [{ clusterId := 0, serverId := 1, nodeId := 0, taskType := .serverChange }] :=
  ⟨by decide,
   (UpdateServerBasic_move sampleEnv { sampleStore "" 0 with
      clusters := [sampleCluster 1 "" 0, sampleCluster 2 "edge" 3] } 1 "web" "" 2 true []
      (sampleServer 1 1 "") (by decide) (by decide) (by decide)).1,
   (UpdateServerBasic_move sampleEnv { sampleStore "" 0 with
      clusters := [sampleCluster 1 "" 0, sampleCluster 2 "edge" 3] } 1 "web" "" 2 true []
      (sampleServer 1 1 "") (by decide) (by decide) (by decide)).2.1
      (sampleCluster 2 "edge" 3) (by decide) (by decide) (by decide)⟩

/-! ## C26: a task insert that fails after the write -/

/-- Over the task inserts as modelled, the parametrised methods are the methods. -/
theorem DisableServerWith_soundQueues (env : Env) (s : Store) (serverId : Int) :
    NotifyUpdateWith soundQueues env s serverId = NotifyUpdate env s serverId
    ∧ NotifyDNSUpdateWith soundQueues s serverId = NotifyDNSUpdate s serverId
    ∧ DisableServerWith soundQueues env s serverId = DisableServer env s serverId :=
  ⟨rfl, rfl, rfl⟩

theorem NotifyUpdateWith_of_not_enabled (q : TaskQueues) (env : Env) (s : Store)
    (serverId : Int) (h : FindEnabledServer s serverId = none) :
    NotifyUpdateWith q env s serverId
      = if FindServerClusterId s serverId = 0 then (.ok (), s)
        else q.CreateClusterTask s (FindServerClusterId s serverId) .configChanged := by
  simp [NotifyUpdateWith, RenewServerConfig, ComposeServerConfig, h]

/-- C26 (counterexample): server 1 of cluster 1, whose DNS binding is complete. When the
insert of the cluster task fails, `DisableServer` returns that error and the store it
leaves holds the row as disabled, with no task; when the insert of the DNS task fails, it
returns that error and the store holds the disabled row and the config-changed task.
Neither store is the one before the call. -/
theorem DisableServerWith_partial_counterexample :
    DisableServerWith failingClusterQueues sampleEnv (sampleStore "edge" 3) 1
        = (.error (.ext 3), { sampleStore "edge" 3 with
            servers := [{ sampleServer 1 1 "" with state := ServerStateDisabled }] })
    ∧ (DisableServerWith failingClusterQueues sampleEnv (sampleStore "edge" 3) 1).2
        ≠ sampleStore "edge" 3
    ∧ DisableServerWith failingDNSQueues sampleEnv (sampleStore "edge" 3) 1
        = (.error (.ext 4), { sampleStore "edge" 3 with
            servers := [{ sampleServer 1 1 "" with state := ServerStateDisabled }]
            nodeTasks := [{ clusterId := 1, nodeId := 0, taskType := .configChanged }] })
    ∧ (DisableServerWith failingDNSQueues sampleEnv (sampleStore "edge" 3) 1).2
        ≠ sampleStore "edge" 3 := by
  decide

/-- C26 (amended): `DisableServer` on an existing server of a cluster with a non-zero id,
over task inserts that may fail without writing. When the insert of the cluster task
fails, the call returns that error and the store it leaves is the one after the write:
the row is disabled and no task was added. When the cluster task is inserted and the
insert of the DNS task fails, the call returns that error and the store holds the disabled
row and the config-changed task. In both cases the write is kept. -/
theorem DisableServerWith_keeps_write (q : TaskQueues) (env : Env) (s : Store)
    (serverId : Int) (row : Server) (e : Err)
    (hrow : findServer s serverId = some row) (hpos : 0 < row.clusterId) :
    findServer (updateServer s serverId (fun r => { r with state := ServerStateDisabled }))
        serverId = some { row with state := ServerStateDisabled }
    ∧ (q.CreateClusterTask
          (updateServer s serverId (fun r => { r with state := ServerStateDisabled }))
          row.clusterId .configChanged
        = (.error e,
            updateServer s serverId (fun r => { r with state := ServerStateDisabled })) →
        DisableServerWith q env s serverId
          = (.error e,
              updateServer s serverId (fun r => { r with state := ServerStateDisabled })))
    ∧ (∀ c, FindClusterDNSInfo s row.clusterId = some c → c.dnsName ≠ "" → 0 < c.dnsDomainId →
        q.CreateClusterTask
          (updateServer s serverId (fun r => { r with state := ServerStateDisabled }))
          row.clusterId .configChanged
        = CreateClusterTask
          (updateServer s serverId (fun r => { r with state := ServerStateDisabled }))
          row.clusterId .configChanged →
        q.CreateServerTask
          (CreateClusterTask
            (updateServer s serverId (fun r => { r with state := ServerStateDisabled }))
            row.clusterId .configChanged).2 serverId .serverChange
        = (.error e, (CreateClusterTask
            (updateServer s serverId (fun r => { r with state := ServerStateDisabled }))
            row.clusterId .configChanged).2) →
        DisableServerWith q env s serverId
          = (.error e, { updateServer s serverId
                (fun r => { r with state := ServerStateDisabled }) with
              nodeTasks := s.nodeTasks ++ [{ clusterId := row.clusterId, nodeId := 0,
                                             taskType := .configChanged }] })) := by
  have hcid : FindServerClusterId
      (updateServer s serverId (fun r => { r with state := ServerStateDisabled })) serverId
        = row.clusterId := by
    rw [FindServerClusterId_updateServer s serverId serverId
      (fun r => { r with state := ServerStateDisabled }) (fun _ => rfl) (fun _ => rfl)]
    simp [FindServerClusterId, hrow]
  have hnu := NotifyUpdateWith_of_not_enabled q env _ serverId
    (FindEnabledServer_disabled s serverId)
  rw [hcid, if_neg (by omega)] at hnu
  refine ⟨findServer_updateServer_self s serverId
    (fun r => { r with state := ServerStateDisabled }) (fun _ => rfl) hrow, ?_, ?_⟩
  · intro hfail
    unfold DisableServerWith
    simp only [hnu, hfail]
  · intro c hc hname hdom hins hfail
    have hlen : ¬ c.dnsName.length = 0 := fun h => hname ((string_length_eq_zero _).mp h)
    unfold DisableServerWith
    simp only [hnu, hins]
    have hcid2 : FindServerClusterId
        (CreateClusterTask
          (updateServer s serverId (fun r => { r with state := ServerStateDisabled }))
          row.clusterId .configChanged).2 serverId = row.clusterId := hcid
    have hdns : FindClusterDNSInfo
        (CreateClusterTask
          (updateServer s serverId (fun r => { r with state := ServerStateDisabled }))
          row.clusterId .configChanged).2 row.clusterId = some c := hc
    show NotifyDNSUpdateWith q (CreateClusterTask
          (updateServer s serverId (fun r => { r with state := ServerStateDisabled }))
          row.clusterId .configChanged).2 serverId = _
    unfold NotifyDNSUpdateWith
    simp only [hcid2, hdns, not_le.mpr hpos, if_false, hlen, not_le.mpr hdom, or_self, hfail]
    rfl

theorem DisableServerWith_keeps_write_witness :
    DisableServerWith failingClusterQueues sampleEnv (sampleStore "" 0) 1
      = (.error (.ext 3),
          updateServer (sampleStore "" 0) 1 (fun r => { r with state := ServerStateDisabled })) :=
  (DisableServerWith_keeps_write failingClusterQueues sampleEnv (sampleStore "" 0) 1
    (sampleServer 1 1 "") (.ext 3) (by decide) (by decide)).2.1 (by decide)

/-! ## C28: what the dedupe lookup looks at -/

/-- The message row `CreateClusterMessage` stores, whatever the store holds. -/
theorem CreateClusterMessage_stored (env : Env) (s : Store) (now clusterId : Int)
    (messageType level subject body : String) (paramsJSON : Bytes) :
    (CreateClusterMessage env s now clusterId messageType level subject body paramsJSON).1
        = .ok ()
    ∧ ∃ m : Message,
        (CreateClusterMessage env s now clusterId messageType level subject body
          paramsJSON).2.messages = s.messages ++ [m]
        ∧ m.hash = calHash env subject body paramsJSON ∧ m.createdAt = now
        ∧ m.clusterId = clusterId ∧ m.nodeId = 0 ∧ m.type = messageType := by
  refine ⟨rfl, {
    id := nextId (s.messages.map (fun m => m.id))
    adminId := 0
    userId := 0
    clusterId := clusterId
    nodeId := 0
    type := messageType
    level := level
    subject := truncateSubject subject
    body := body
    params := if 0 < paramsJSON.length then paramsJSON else []
    isRead := false
    state := MessageStateEnabled
    createdAt := now
    day := env.formatYmd now
    hash := calHash env subject body paramsJSON }, ?_, rfl, rfl, rfl, rfl, rfl⟩
  unfold CreateClusterMessage createMessage CreateMessageTasks
  simp only
  rw [foldl_createMessageTask_messages]

/-- C28: `CreateNodeMessage` stores no message exactly when the store holds a message with
the same content hash created less than 600 seconds before its dedupe query, whatever the
cluster, node and type of that message; such a message of another scope or type makes the
call return with the store untouched, and so does one that `CreateClusterMessage` stored
for any cluster and type within the window. `CreateClusterMessage` itself returns no error
and stores one more message whatever the store holds. -/
theorem CreateNodeMessage_scope_blind (env : Env) (s : Store)
    (queryTime now clusterId nodeId : Int)
    (messageType level subject body : String) (paramsJSON : Bytes) :
    ((CreateNodeMessage env s queryTime now clusterId nodeId messageType level subject body
          paramsJSON).2.messages = s.messages
      ↔ ∃ m ∈ s.messages, m.hash = calHash env subject body paramsJSON
          ∧ queryTime - 600 < m.createdAt)
    ∧ (∀ m ∈ s.messages, m.hash = calHash env subject body paramsJSON →
        queryTime - 600 < m.createdAt →
        m.clusterId ≠ clusterId ∨ m.nodeId ≠ nodeId ∨ m.type ≠ messageType →
        CreateNodeMessage env s queryTime now clusterId nodeId messageType level subject body
            paramsJSON
          = (.ok (), s))
    ∧ (∀ (otherCluster earlier : Int) (otherType otherLevel : String),
        queryTime - 600 < earlier →
        CreateNodeMessage env
            (CreateClusterMessage env s earlier otherCluster otherType otherLevel subject body
              paramsJSON).2
            queryTime now clusterId nodeId messageType level subject body paramsJSON
          = (.ok (), (CreateClusterMessage env s earlier otherCluster otherType otherLevel
              subject body paramsJSON).2))
    ∧ (CreateClusterMessage env s now clusterId messageType level subject body
          paramsJSON).1 = .ok ()
    ∧ ∃ m : Message,
        (CreateClusterMessage env s now clusterId messageType level subject body
          paramsJSON).2.messages = s.messages ++ [m]
        ∧ m.hash = calHash env subject body paramsJSON ∧ m.createdAt = now
        ∧ m.clusterId = clusterId ∧ m.nodeId = 0 ∧ m.type = messageType := by
  refine ⟨?_, ?_, ?_, CreateClusterMessage_stored env s now clusterId messageType level subject
    body paramsJSON⟩
  · rw [← existsRecentMessage_iff]
    cases hx : existsRecentMessage s (calHash env subject body paramsJSON) queryTime with
    | true =>
      rw [CreateNodeMessage_suppressed env s queryTime now clusterId nodeId messageType level
        subject body paramsJSON hx]
      exact ⟨fun _ => rfl, fun _ => rfl⟩
    | false =>
      obtain ⟨_, hm⟩ := CreateNodeMessage_stored env s queryTime now clusterId nodeId
        messageType level subject body paramsJSON hx
      rw [hm]
      constructor
      · intro h
        have hl := congrArg List.length h
        simp at hl
      · intro h
        cases h
  · intro m hm hh ht _
    exact CreateNodeMessage_suppressed env s queryTime now clusterId nodeId messageType level
      subject body paramsJSON ((existsRecentMessage_iff s _ queryTime).mpr ⟨m, hm, hh, ht⟩)
  · intro otherCluster earlier otherType otherLevel hlt
    obtain ⟨_, m, hm, hh, ht, _⟩ := CreateClusterMessage_stored env s earlier otherCluster
      otherType otherLevel subject body paramsJSON
    exact CreateNodeMessage_suppressed env _ queryTime now clusterId nodeId messageType level
      subject body paramsJSON ((existsRecentMessage_iff _ _ queryTime).mpr
        ⟨m, by rw [hm]; exact List.mem_append_right _ (List.mem_singleton_self m), hh,
          by rw [ht]; exact hlt⟩)

theorem CreateNodeMessage_scope_blind_witness :
    CreateNodeMessage sampleEnv
        { emptyStore with
          messages := [sampleMessage 7 9 "x" "00000000000000000000000000000000" 500] }
        1000 1001 1 2 "NodeInactive" "warning" "" "" []
      = (.ok (),
        { emptyStore with
          messages := [sampleMessage 7 9 "x" "00000000000000000000000000000000" 500] }) :=
  (CreateNodeMessage_scope_blind sampleEnv
      { emptyStore with
        messages := [sampleMessage 7 9 "x" "00000000000000000000000000000000" 500] }
      1000 1001 1 2 "NodeInactive" "warning" "" "" []).2.1
    (sampleMessage 7 9 "x" "00000000000000000000000000000000" 500)
    (List.mem_singleton_self _) (by decide) (by decide) (Or.inl (by decide))

/-! ## C29: moving the servers of a user to another cluster -/

/-- C29: with `old` the cluster id stored for the user, `UpdateUserServersClusterId`
returns the store untouched when `old` is the requested cluster id; otherwise it returns
no error, sets the cluster id on every server row of that user and on no other row, and
appends to the node tasks a config-changed and an IP-item-changed task for `old` when
`old > 0`, then the same two for the new cluster when its id is positive, and nothing
else; no other table changes. -/
theorem UpdateUserServersClusterId_spec (env : Env) (s : Store) (userId clusterId old : Int)
    (hold : env.FindUserClusterId s userId = .ok old) :
    (old = clusterId → UpdateUserServersClusterId env s userId clusterId = (.ok (), s))
    ∧ (old ≠ clusterId →
      UpdateUserServersClusterId env s userId clusterId
        = (.ok (), { s with
            servers := s.servers.map (fun r =>
              if r.userId = userId then { r with clusterId := clusterId } else r)
            nodeTasks := s.nodeTasks
              ++ (if 0 < old then
                    [{ clusterId := old, nodeId := 0, taskType := .configChanged },
                     { clusterId := old, nodeId := 0, taskType := .ipItemChanged }]
                  else [])
              ++ (if 0 < clusterId then
                    [{ clusterId := clusterId, nodeId := 0, taskType := .configChanged },
                     { clusterId := clusterId, nodeId := 0, taskType := .ipItemChanged }]
                  else []) })) := by
  constructor
  · intro h
    unfold UpdateUserServersClusterId
    rw [hold]
    simp only [h, if_true]
  · intro hne
    unfold UpdateUserServersClusterId
    rw [hold]
    simp only [if_neg hne]
    by_cases h1 : 0 < old <;> by_cases h2 : 0 < clusterId <;>
      simp [h1, h2, CreateClusterTask]

theorem UpdateUserServersClusterId_spec_witness :
    UpdateUserServersClusterId sampleEnv
        { emptyStore with servers := [userServer 1 1 5, userServer 2 1 6] } 5 2
      = (.ok (), { emptyStore with
          servers := [userServer 1 2 5, userServer 2 1 6]
          nodeTasks := [{ clusterId := 1, nodeId := 0, taskType := .configChanged },
                        { clusterId := 1, nodeId := 0, taskType := .ipItemChanged },
                        { clusterId := 2, nodeId := 0, taskType := .configChanged },
                        { clusterId := 2, nodeId := 0, taskType := .ipItemChanged }] }) :=
  ((UpdateUserServersClusterId_spec sampleEnv
      { emptyStore with servers := [userServer 1 1 5, userServer 2 1 6] } 5 2 1 rfl).2
    (by decide)).trans (by decide)

end EdgeAPI
